import Mathlib

/-!
Verification development for the machparse SQL parser library.

The Go sources (lexer, keyword table, recursive-descent parser, formatter)
are shallowly embedded below.  Go byte strings are modelled as `List Char`
(the library is ASCII-oriented: every byte the scanner inspects against is
ASCII, so characters stand in for bytes), mutable receivers become explicit
state passing, fallible productions return `Option`, and the mutually
recursive parser takes a fuel argument (the Go recursion is bounded by the
input; fuel plays that role and the entry points supply ample fuel).
Everything is executable so concrete runs can be settled by `decide`.
-/

namespace Machparse

/-- Character of `s` at index `i`; all uses are guarded by bounds checks,
the default is never observed. -/
def chAt (s : List Char) (i : Nat) : Char := (s.get? i).getD (Char.ofNat 0)

/-- Go slice `s[a:b]`. -/
def slice (s : List Char) (a b : Nat) : List Char := (s.take b).drop a

/-- Token kinds, mirroring the Go `token.Token` iota enumeration; the numeric
values match the source order so the range tests `IsLiteral`, `IsOperator` and
`IsKeyword` carry over verbatim. -/
abbrev Tok := Nat

namespace Tok

def ILLEGAL : Tok := 0
def EOF : Tok := 1
def COMMENT : Tok := 2
def literalBeg : Tok := 3
def IDENT : Tok := 4
def INT : Tok := 5
def FLOAT : Tok := 6
def STRING : Tok := 7
def BLOB : Tok := 8
def PARAM : Tok := 9
def literalEnd : Tok := 10
def operatorBeg : Tok := 11
def PLUS : Tok := 12
def MINUS : Tok := 13
def ASTERISK : Tok := 14
def SLASH : Tok := 15
def PERCENT : Tok := 16
def EQ : Tok := 17
def NEQ : Tok := 18
def LT : Tok := 19
def GT : Tok := 20
def LTE : Tok := 21
def GTE : Tok := 22
def LPAREN : Tok := 23
def RPAREN : Tok := 24
def LBRACKET : Tok := 25
def RBRACKET : Tok := 26
def COMMA : Tok := 27
def SEMICOLON : Tok := 28
def DOT : Tok := 29
def COLON : Tok := 30
def DCOLON : Tok := 31
def CONCAT : Tok := 32
def BITAND : Tok := 33
def BITOR : Tok := 34
def BITXOR : Tok := 35
def BITNOT : Tok := 36
def LSHIFT : Tok := 37
def RSHIFT : Tok := 38
def ARROW : Tok := 39
def DARROW : Tok := 40
def HASHGT : Tok := 41
def HASHDGT : Tok := 42
def QUESTION : Tok := 43
def QUESTIONOR : Tok := 44
def QUESTIONAND : Tok := 45
def AT : Tok := 46
def ATAT : Tok := 47
def operatorEnd : Tok := 48
def keywordBeg : Tok := 49
def SELECT : Tok := 50
def FROM : Tok := 51
def WHERE : Tok := 52
def AND : Tok := 53
def OR : Tok := 54
def XOR : Tok := 55
def NOT : Tok := 56
def IN : Tok := 57
def LIKE : Tok := 58
def ILIKE : Tok := 59
def SIMILAR : Tok := 60
def BETWEEN : Tok := 61
def IS : Tok := 62
def ISNULL : Tok := 63
def NOTNULL : Tok := 64
def NULL : Tok := 65
def TRUE : Tok := 66
def FALSE : Tok := 67
def UNKNOWN : Tok := 68
def AS : Tok := 69
def ALL : Tok := 70
def DISTINCT : Tok := 71
def UNIQUE : Tok := 72
def JOIN : Tok := 73
def INNER : Tok := 74
def LEFT : Tok := 75
def RIGHT : Tok := 76
def FULL : Tok := 77
def OUTER : Tok := 78
def CROSS : Tok := 79
def NATURAL : Tok := 80
def ON : Tok := 81
def USING : Tok := 82
def ORDER : Tok := 83
def BY : Tok := 84
def ASC : Tok := 85
def DESC : Tok := 86
def NULLS : Tok := 87
def FIRST : Tok := 88
def LAST : Tok := 89
def GROUP : Tok := 90
def HAVING : Tok := 91
def LIMIT : Tok := 92
def OFFSET : Tok := 93
def FETCH : Tok := 94
def NEXT : Tok := 95
def ROW : Tok := 96
def ROWS : Tok := 97
def ONLY : Tok := 98
def PERCENT_KW : Tok := 99
def WITH : Tok := 100
def TIES : Tok := 101
def UNION : Tok := 102
def INTERSECT : Tok := 103
def EXCEPT : Tok := 104
def INSERT : Tok := 105
def INTO : Tok := 106
def VALUES : Tok := 107
def DEFAULT : Tok := 108
def RETURNING : Tok := 109
def REPLACE : Tok := 110
def IGNORE : Tok := 111
def DUPLICATE : Tok := 112
def KEY : Tok := 113
def UPDATE : Tok := 114
def SET : Tok := 115
def DELETE : Tok := 116
def CREATE : Tok := 117
def ALTER : Tok := 118
def DROP : Tok := 119
def TABLE : Tok := 120
def INDEX : Tok := 121
def VIEW : Tok := 122
def DATABASE : Tok := 123
def SCHEMA : Tok := 124
def IF : Tok := 125
def EXISTS : Tok := 126
def TEMPORARY : Tok := 127
def TEMP : Tok := 128
def UNLOGGED : Tok := 129
def PRIMARY : Tok := 130
def FOREIGN : Tok := 131
def REFERENCES : Tok := 132
def CONSTRAINT : Tok := 133
def CHECK : Tok := 134
def CASCADE : Tok := 135
def RESTRICT : Tok := 136
def NO : Tok := 137
def ACTION : Tok := 138
def DEFERRABLE : Tok := 139
def INITIALLY : Tok := 140
def DEFERRED : Tok := 141
def IMMEDIATE : Tok := 142
def COLUMN : Tok := 143
def ADD : Tok := 144
def RENAME : Tok := 145
def TO : Tok := 146
def MODIFY : Tok := 147
def CHANGE : Tok := 148
def INT_TYPE : Tok := 149
def INTEGER : Tok := 150
def SMALLINT : Tok := 151
def BIGINT : Tok := 152
def TINYINT : Tok := 153
def MEDIUMINT : Tok := 154
def REAL : Tok := 155
def DOUBLE : Tok := 156
def PRECISION : Tok := 157
def FLOAT_TYPE : Tok := 158
def DECIMAL : Tok := 159
def NUMERIC : Tok := 160
def CHAR : Tok := 161
def VARCHAR : Tok := 162
def TEXT : Tok := 163
def BLOB_TYPE : Tok := 164
def BINARY : Tok := 165
def VARBINARY : Tok := 166
def DATE : Tok := 167
def TIME : Tok := 168
def DATETIME : Tok := 169
def TIMESTAMP : Tok := 170
def YEAR : Tok := 171
def BOOLEAN : Tok := 172
def BOOL : Tok := 173
def JSON : Tok := 174
def JSONB : Tok := 175
def UUID : Tok := 176
def SERIAL : Tok := 177
def BIGSERIAL : Tok := 178
def SMALLSERIAL : Tok := 179
def ARRAY : Tok := 180
def UNSIGNED : Tok := 181
def SIGNED : Tok := 182
def ZEROFILL : Tok := 183
def VARYING : Tok := 184
def ZONE : Tok := 185
def CASE : Tok := 186
def WHEN : Tok := 187
def THEN : Tok := 188
def ELSE : Tok := 189
def END : Tok := 190
def CAST : Tok := 191
def CONVERT : Tok := 192
def COLLATE : Tok := 193
def OVER : Tok := 194
def PARTITION : Tok := 195
def WINDOW : Tok := 196
def FILTER : Tok := 197
def WITHIN : Tok := 198
def RESPECT : Tok := 199
def NULLS_KW : Tok := 200
def CURRENT : Tok := 201
def UNBOUNDED : Tok := 202
def PRECEDING : Tok := 203
def FOLLOWING : Tok := 204
def RANGE : Tok := 205
def GROUPS : Tok := 206
def COUNT : Tok := 207
def SUM : Tok := 208
def AVG : Tok := 209
def MIN : Tok := 210
def MAX : Tok := 211
def COALESCE : Tok := 212
def NULLIF : Tok := 213
def GREATEST : Tok := 214
def LEAST : Tok := 215
def ANY : Tok := 216
def SOME : Tok := 217
def EVERY : Tok := 218
def LATERAL : Tok := 219
def RECURSIVE : Tok := 220
def MATERIALIZED : Tok := 221
def FOR : Tok := 222
def SHARE : Tok := 223
def NOWAIT : Tok := 224
def SKIP : Tok := 225
def LOCKED : Tok := 226
def BEGIN : Tok := 227
def COMMIT : Tok := 228
def ROLLBACK : Tok := 229
def SAVEPOINT : Tok := 230
def RELEASE : Tok := 231
def TRANSACTION : Tok := 232
def WORK : Tok := 233
def ISOLATION : Tok := 234
def LEVEL : Tok := 235
def READ : Tok := 236
def WRITE : Tok := 237
def COMMITTED : Tok := 238
def UNCOMMITTED : Tok := 239
def REPEATABLE : Tok := 240
def SERIALIZABLE : Tok := 241
def SNAPSHOT : Tok := 242
def ORDINALITY : Tok := 243
def ANALYZE : Tok := 244
def EXPLAIN : Tok := 245
def VERBOSE : Tok := 246
def FORMAT : Tok := 247
def COSTS : Tok := 248
def BUFFERS : Tok := 249
def TIMING : Tok := 250
def TRUNCATE : Tok := 251
def VACUUM : Tok := 252
def GRANT : Tok := 253
def REVOKE : Tok := 254
def PRIVILEGES : Tok := 255
def PUBLIC : Tok := 256
def ROLE : Tok := 257
def USER : Tok := 258
def ADMIN : Tok := 259
def OPTION : Tok := 260
def GRANTED : Tok := 261
def INTERVAL : Tok := 262
def EXTRACT : Tok := 263
def EPOCH : Tok := 264
def CENTURY : Tok := 265
def DECADE : Tok := 266
def MILLENNIUM : Tok := 267
def QUARTER : Tok := 268
def MONTH : Tok := 269
def WEEK : Tok := 270
def DAY : Tok := 271
def HOUR : Tok := 272
def MINUTE : Tok := 273
def SECOND : Tok := 274
def MICROSECOND : Tok := 275
def TIMEZONE : Tok := 276
def TIMEZONE_HOUR : Tok := 277
def TIMEZONE_MINUTE : Tok := 278
def SUBSTRING : Tok := 279
def TRIM : Tok := 280
def LEADING : Tok := 281
def TRAILING : Tok := 282
def BOTH : Tok := 283
def POSITION : Tok := 284
def OVERLAY : Tok := 285
def PLACING : Tok := 286
def SYMMETRIC : Tok := 287
def ASYMMETRIC : Tok := 288
def ESCAPE : Tok := 289
def GLOB : Tok := 290
def REGEXP : Tok := 291
def RLIKE : Tok := 292
def MATCH : Tok := 293
def AGAINST : Tok := 294
def SOUNDS : Tok := 295
def AUTOINCREMENT : Tok := 296
def ROWID : Tok := 297
def WITHOUT : Tok := 298
def AUTO_INCREMENT : Tok := 299
def ENGINE : Tok := 300
def CHARSET : Tok := 301
def CHARACTER : Tok := 302
def COMMENT_KW : Tok := 303
def STORAGE : Tok := 304
def MEMORY : Tok := 305
def DISK : Tok := 306
def TABLESPACE : Tok := 307
def DATA : Tok := 308
def DIRECTORY : Tok := 309
def CONNECTION : Tok := 310
def PARTITION_KW : Tok := 311
def PARTITIONS : Tok := 312
def SUBPARTITION : Tok := 313
def SUBPARTITIONS : Tok := 314
def HASH : Tok := 315
def LINEAR : Tok := 316
def LIST : Tok := 317
def LESS : Tok := 318
def THAN : Tok := 319
def MAXVALUE : Tok := 320
def ALGORITHM : Tok := 321
def INPLACE : Tok := 322
def COPY : Tok := 323
def LOCK_KW : Tok := 324
def NONE : Tok := 325
def SHARED : Tok := 326
def EXCLUSIVE : Tok := 327
def FORCE : Tok := 328
def USE : Tok := 329
def STRAIGHT_JOIN : Tok := 330
def SQL_CALC_FOUND_ROWS : Tok := 331
def SQL_SMALL_RESULT : Tok := 332
def SQL_BIG_RESULT : Tok := 333
def SQL_BUFFER_RESULT : Tok := 334
def HIGH_PRIORITY : Tok := 335
def LOW_PRIORITY : Tok := 336
def DELAYED : Tok := 337
def QUICK : Tok := 338
def CONCURRENT : Tok := 339
def LOCAL : Tok := 340
def INFILE : Tok := 341
def LOAD : Tok := 342
def OUTFILE : Tok := 343
def TERMINATED : Tok := 344
def ENCLOSED : Tok := 345
def ESCAPED : Tok := 346
def LINES : Tok := 347
def STARTING : Tok := 348
def OPTIONALLY : Tok := 349
def FIELDS : Tok := 350
def ILIKE_KW : Tok := 351
def SIMILAR_KW : Tok := 352
def RETURNING_KW : Tok := 353
def CONFLICT : Tok := 354
def DO : Tok := 355
def NOTHING : Tok := 356
def OVERRIDING : Tok := 357
def SYSTEM : Tok := 358
def VALUE : Tok := 359
def GENERATED : Tok := 360
def ALWAYS : Tok := 361
def IDENTITY : Tok := 362
def STORED : Tok := 363
def VIRTUAL : Tok := 364
def INCLUDE : Tok := 365
def USING_KW : Tok := 366
def BTREE : Tok := 367
def GIN : Tok := 368
def GIST : Tok := 369
def SPGIST : Tok := 370
def BRIN : Tok := 371
def CONCURRENTLY : Tok := 372
def ONLY_KW : Tok := 373
def INHERIT : Tok := 374
def INHERITS : Tok := 375
def OF : Tok := 376
def OIDS : Tok := 377
def TABLESPACE_KW : Tok := 378
def OWNER : Tok := 379
def OWNED : Tok := 380
def OWNED_KW : Tok := 381
def DEPENDS : Tok := 382
def EXTENSION : Tok := 383
def SEQUENCE : Tok := 384
def CYCLE : Tok := 385
def INCREMENT : Tok := 386
def MINVALUE : Tok := 387
def START : Tok := 388
def CACHE : Tok := 389
def RESTART : Tok := 390
def CONTINUE : Tok := 391
def OWNED_BY : Tok := 392
def TEMP_KW : Tok := 393
def PRESERVE : Tok := 394
def DISPOSE : Tok := 395
def TOP : Tok := 396
def NOLOCK : Tok := 397
def READUNCOMMITTED : Tok := 398
def READCOMMITTED : Tok := 399
def REPEATABLEREAD : Tok := 400
def ROWLOCK : Tok := 401
def PAGLOCK : Tok := 402
def TABLOCK : Tok := 403
def TABLOCKX : Tok := 404
def UPDLOCK : Tok := 405
def XLOCK : Tok := 406
def HOLDLOCK : Tok := 407
def NOWAIT_KW : Tok := 408
def PIVOT : Tok := 409
def UNPIVOT : Tok := 410
def APPLY : Tok := 411
def OUTER_APPLY : Tok := 412
def CROSS_APPLY : Tok := 413
def MERGE : Tok := 414
def OUTPUT_KW : Tok := 415
def INSERTED : Tok := 416
def DELETED_KW : Tok := 417
def ROWNUM : Tok := 418
def ROWID_KW : Tok := 419
def SYSDATE : Tok := 420
def SYSTIMESTAMP : Tok := 421
def DUAL : Tok := 422
def CONNECT_KW : Tok := 423
def START_WITH : Tok := 424
def PRIOR : Tok := 425
def LEVEL_KW : Tok := 426
def NOCYCLE : Tok := 427
def SIBLINGS : Tok := 428
def MINUS_KW : Tok := 429
def SAMPLE : Tok := 430
def SEED : Tok := 431
def FLASHBACK : Tok := 432
def SCN : Tok := 433
def VERSIONS : Tok := 434
def KEEP : Tok := 435
def DENSE_RANK : Tok := 436
def FIRST_KW : Tok := 437
def LAST_KW : Tok := 438
def MODEL : Tok := 439
def DIMENSION : Tok := 440
def MEASURES : Tok := 441
def RULES : Tok := 442
def ITERATE : Tok := 443
def UNTIL : Tok := 444
def RETURN_KW : Tok := 445
def RETURNING_BULK : Tok := 446
def BULK : Tok := 447
def FORALL : Tok := 448
def COLLECT : Tok := 449
def PIPELINED : Tok := 450
def keywordEnd : Tok := 451

end Tok

/-- The keyword table from `token/keywords.go`: lowercase keyword text paired
with its token kind. -/
def keywords : List (List Char × Tok) := [
  ("select".data, Tok.SELECT),
  ("from".data, Tok.FROM),
  ("where".data, Tok.WHERE),
  ("and".data, Tok.AND),
  ("or".data, Tok.OR),
  ("xor".data, Tok.XOR),
  ("not".data, Tok.NOT),
  ("in".data, Tok.IN),
  ("like".data, Tok.LIKE),
  ("ilike".data, Tok.ILIKE),
  ("similar".data, Tok.SIMILAR),
  ("between".data, Tok.BETWEEN),
  ("is".data, Tok.IS),
  ("isnull".data, Tok.ISNULL),
  ("notnull".data, Tok.NOTNULL),
  ("null".data, Tok.NULL),
  ("true".data, Tok.TRUE),
  ("false".data, Tok.FALSE),
  ("unknown".data, Tok.UNKNOWN),
  ("as".data, Tok.AS),
  ("all".data, Tok.ALL),
  ("distinct".data, Tok.DISTINCT),
  ("unique".data, Tok.UNIQUE),
  ("join".data, Tok.JOIN),
  ("inner".data, Tok.INNER),
  ("left".data, Tok.LEFT),
  ("right".data, Tok.RIGHT),
  ("full".data, Tok.FULL),
  ("outer".data, Tok.OUTER),
  ("cross".data, Tok.CROSS),
  ("natural".data, Tok.NATURAL),
  ("on".data, Tok.ON),
  ("using".data, Tok.USING),
  ("order".data, Tok.ORDER),
  ("by".data, Tok.BY),
  ("asc".data, Tok.ASC),
  ("desc".data, Tok.DESC),
  ("nulls".data, Tok.NULLS),
  ("first".data, Tok.FIRST),
  ("last".data, Tok.LAST),
  ("group".data, Tok.GROUP),
  ("having".data, Tok.HAVING),
  ("limit".data, Tok.LIMIT),
  ("offset".data, Tok.OFFSET),
  ("fetch".data, Tok.FETCH),
  ("next".data, Tok.NEXT),
  ("row".data, Tok.ROW),
  ("rows".data, Tok.ROWS),
  ("only".data, Tok.ONLY),
  ("percent".data, Tok.PERCENT_KW),
  ("with".data, Tok.WITH),
  ("ties".data, Tok.TIES),
  ("union".data, Tok.UNION),
  ("intersect".data, Tok.INTERSECT),
  ("except".data, Tok.EXCEPT),
  ("insert".data, Tok.INSERT),
  ("into".data, Tok.INTO),
  ("values".data, Tok.VALUES),
  ("default".data, Tok.DEFAULT),
  ("returning".data, Tok.RETURNING),
  ("replace".data, Tok.REPLACE),
  ("ignore".data, Tok.IGNORE),
  ("duplicate".data, Tok.DUPLICATE),
  ("key".data, Tok.KEY),
  ("update".data, Tok.UPDATE),
  ("set".data, Tok.SET),
  ("delete".data, Tok.DELETE),
  ("create".data, Tok.CREATE),
  ("alter".data, Tok.ALTER),
  ("drop".data, Tok.DROP),
  ("table".data, Tok.TABLE),
  ("index".data, Tok.INDEX),
  ("view".data, Tok.VIEW),
  ("database".data, Tok.DATABASE),
  ("schema".data, Tok.SCHEMA),
  ("if".data, Tok.IF),
  ("exists".data, Tok.EXISTS),
  ("temporary".data, Tok.TEMPORARY),
  ("temp".data, Tok.TEMP),
  ("unlogged".data, Tok.UNLOGGED),
  ("primary".data, Tok.PRIMARY),
  ("foreign".data, Tok.FOREIGN),
  ("references".data, Tok.REFERENCES),
  ("constraint".data, Tok.CONSTRAINT),
  ("check".data, Tok.CHECK),
  ("cascade".data, Tok.CASCADE),
  ("restrict".data, Tok.RESTRICT),
  ("no".data, Tok.NO),
  ("action".data, Tok.ACTION),
  ("deferrable".data, Tok.DEFERRABLE),
  ("initially".data, Tok.INITIALLY),
  ("deferred".data, Tok.DEFERRED),
  ("immediate".data, Tok.IMMEDIATE),
  ("column".data, Tok.COLUMN),
  ("add".data, Tok.ADD),
  ("rename".data, Tok.RENAME),
  ("to".data, Tok.TO),
  ("modify".data, Tok.MODIFY),
  ("change".data, Tok.CHANGE),
  ("int".data, Tok.INT_TYPE),
  ("integer".data, Tok.INTEGER),
  ("smallint".data, Tok.SMALLINT),
  ("bigint".data, Tok.BIGINT),
  ("tinyint".data, Tok.TINYINT),
  ("mediumint".data, Tok.MEDIUMINT),
  ("real".data, Tok.REAL),
  ("double".data, Tok.DOUBLE),
  ("precision".data, Tok.PRECISION),
  ("float".data, Tok.FLOAT_TYPE),
  ("decimal".data, Tok.DECIMAL),
  ("numeric".data, Tok.NUMERIC),
  ("char".data, Tok.CHAR),
  ("varchar".data, Tok.VARCHAR),
  ("text".data, Tok.TEXT),
  ("blob".data, Tok.BLOB_TYPE),
  ("binary".data, Tok.BINARY),
  ("varbinary".data, Tok.VARBINARY),
  ("date".data, Tok.DATE),
  ("time".data, Tok.TIME),
  ("datetime".data, Tok.DATETIME),
  ("timestamp".data, Tok.TIMESTAMP),
  ("year".data, Tok.YEAR),
  ("boolean".data, Tok.BOOLEAN),
  ("bool".data, Tok.BOOL),
  ("json".data, Tok.JSON),
  ("jsonb".data, Tok.JSONB),
  ("uuid".data, Tok.UUID),
  ("serial".data, Tok.SERIAL),
  ("bigserial".data, Tok.BIGSERIAL),
  ("smallserial".data, Tok.SMALLSERIAL),
  ("array".data, Tok.ARRAY),
  ("unsigned".data, Tok.UNSIGNED),
  ("signed".data, Tok.SIGNED),
  ("zerofill".data, Tok.ZEROFILL),
  ("varying".data, Tok.VARYING),
  ("zone".data, Tok.ZONE),
  ("case".data, Tok.CASE),
  ("when".data, Tok.WHEN),
  ("then".data, Tok.THEN),
  ("else".data, Tok.ELSE),
  ("end".data, Tok.END),
  ("cast".data, Tok.CAST),
  ("convert".data, Tok.CONVERT),
  ("collate".data, Tok.COLLATE),
  ("over".data, Tok.OVER),
  ("partition".data, Tok.PARTITION),
  ("window".data, Tok.WINDOW),
  ("filter".data, Tok.FILTER),
  ("within".data, Tok.WITHIN),
  ("respect".data, Tok.RESPECT),
  ("current".data, Tok.CURRENT),
  ("unbounded".data, Tok.UNBOUNDED),
  ("preceding".data, Tok.PRECEDING),
  ("following".data, Tok.FOLLOWING),
  ("range".data, Tok.RANGE),
  ("groups".data, Tok.GROUPS),
  ("count".data, Tok.COUNT),
  ("sum".data, Tok.SUM),
  ("avg".data, Tok.AVG),
  ("min".data, Tok.MIN),
  ("max".data, Tok.MAX),
  ("coalesce".data, Tok.COALESCE),
  ("nullif".data, Tok.NULLIF),
  ("greatest".data, Tok.GREATEST),
  ("least".data, Tok.LEAST),
  ("any".data, Tok.ANY),
  ("some".data, Tok.SOME),
  ("every".data, Tok.EVERY),
  ("lateral".data, Tok.LATERAL),
  ("recursive".data, Tok.RECURSIVE),
  ("materialized".data, Tok.MATERIALIZED),
  ("for".data, Tok.FOR),
  ("share".data, Tok.SHARE),
  ("nowait".data, Tok.NOWAIT),
  ("skip".data, Tok.SKIP),
  ("locked".data, Tok.LOCKED),
  ("begin".data, Tok.BEGIN),
  ("commit".data, Tok.COMMIT),
  ("rollback".data, Tok.ROLLBACK),
  ("savepoint".data, Tok.SAVEPOINT),
  ("release".data, Tok.RELEASE),
  ("transaction".data, Tok.TRANSACTION),
  ("work".data, Tok.WORK),
  ("isolation".data, Tok.ISOLATION),
  ("level".data, Tok.LEVEL),
  ("read".data, Tok.READ),
  ("write".data, Tok.WRITE),
  ("committed".data, Tok.COMMITTED),
  ("uncommitted".data, Tok.UNCOMMITTED),
  ("repeatable".data, Tok.REPEATABLE),
  ("serializable".data, Tok.SERIALIZABLE),
  ("snapshot".data, Tok.SNAPSHOT),
  ("ordinality".data, Tok.ORDINALITY),
  ("analyze".data, Tok.ANALYZE),
  ("explain".data, Tok.EXPLAIN),
  ("verbose".data, Tok.VERBOSE),
  ("format".data, Tok.FORMAT),
  ("costs".data, Tok.COSTS),
  ("buffers".data, Tok.BUFFERS),
  ("timing".data, Tok.TIMING),
  ("truncate".data, Tok.TRUNCATE),
  ("vacuum".data, Tok.VACUUM),
  ("grant".data, Tok.GRANT),
  ("revoke".data, Tok.REVOKE),
  ("privileges".data, Tok.PRIVILEGES),
  ("public".data, Tok.PUBLIC),
  ("role".data, Tok.ROLE),
  ("user".data, Tok.USER),
  ("admin".data, Tok.ADMIN),
  ("option".data, Tok.OPTION),
  ("granted".data, Tok.GRANTED),
  ("interval".data, Tok.INTERVAL),
  ("extract".data, Tok.EXTRACT),
  ("epoch".data, Tok.EPOCH),
  ("century".data, Tok.CENTURY),
  ("decade".data, Tok.DECADE),
  ("millennium".data, Tok.MILLENNIUM),
  ("quarter".data, Tok.QUARTER),
  ("month".data, Tok.MONTH),
  ("week".data, Tok.WEEK),
  ("day".data, Tok.DAY),
  ("hour".data, Tok.HOUR),
  ("minute".data, Tok.MINUTE),
  ("second".data, Tok.SECOND),
  ("microsecond".data, Tok.MICROSECOND),
  ("timezone".data, Tok.TIMEZONE),
  ("timezone_hour".data, Tok.TIMEZONE_HOUR),
  ("timezone_minute".data, Tok.TIMEZONE_MINUTE),
  ("substring".data, Tok.SUBSTRING),
  ("trim".data, Tok.TRIM),
  ("leading".data, Tok.LEADING),
  ("trailing".data, Tok.TRAILING),
  ("both".data, Tok.BOTH),
  ("position".data, Tok.POSITION),
  ("overlay".data, Tok.OVERLAY),
  ("placing".data, Tok.PLACING),
  ("symmetric".data, Tok.SYMMETRIC),
  ("asymmetric".data, Tok.ASYMMETRIC),
  ("escape".data, Tok.ESCAPE),
  ("glob".data, Tok.GLOB),
  ("regexp".data, Tok.REGEXP),
  ("rlike".data, Tok.RLIKE),
  ("match".data, Tok.MATCH),
  ("against".data, Tok.AGAINST),
  ("sounds".data, Tok.SOUNDS),
  ("autoincrement".data, Tok.AUTOINCREMENT),
  ("rowid".data, Tok.ROWID),
  ("without".data, Tok.WITHOUT),
  ("auto_increment".data, Tok.AUTO_INCREMENT),
  ("engine".data, Tok.ENGINE),
  ("charset".data, Tok.CHARSET),
  ("character".data, Tok.CHARACTER),
  ("comment".data, Tok.COMMENT_KW),
  ("storage".data, Tok.STORAGE),
  ("memory".data, Tok.MEMORY),
  ("disk".data, Tok.DISK),
  ("tablespace".data, Tok.TABLESPACE),
  ("data".data, Tok.DATA),
  ("directory".data, Tok.DIRECTORY),
  ("connection".data, Tok.CONNECTION),
  ("partitions".data, Tok.PARTITIONS),
  ("subpartition".data, Tok.SUBPARTITION),
  ("subpartitions".data, Tok.SUBPARTITIONS),
  ("hash".data, Tok.HASH),
  ("linear".data, Tok.LINEAR),
  ("list".data, Tok.LIST),
  ("less".data, Tok.LESS),
  ("than".data, Tok.THAN),
  ("maxvalue".data, Tok.MAXVALUE),
  ("algorithm".data, Tok.ALGORITHM),
  ("inplace".data, Tok.INPLACE),
  ("copy".data, Tok.COPY),
  ("lock".data, Tok.LOCK_KW),
  ("none".data, Tok.NONE),
  ("shared".data, Tok.SHARED),
  ("exclusive".data, Tok.EXCLUSIVE),
  ("force".data, Tok.FORCE),
  ("use".data, Tok.USE),
  ("straight_join".data, Tok.STRAIGHT_JOIN),
  ("sql_calc_found_rows".data, Tok.SQL_CALC_FOUND_ROWS),
  ("sql_small_result".data, Tok.SQL_SMALL_RESULT),
  ("sql_big_result".data, Tok.SQL_BIG_RESULT),
  ("sql_buffer_result".data, Tok.SQL_BUFFER_RESULT),
  ("high_priority".data, Tok.HIGH_PRIORITY),
  ("low_priority".data, Tok.LOW_PRIORITY),
  ("delayed".data, Tok.DELAYED),
  ("quick".data, Tok.QUICK),
  ("concurrent".data, Tok.CONCURRENT),
  ("local".data, Tok.LOCAL),
  ("infile".data, Tok.INFILE),
  ("load".data, Tok.LOAD),
  ("outfile".data, Tok.OUTFILE),
  ("terminated".data, Tok.TERMINATED),
  ("enclosed".data, Tok.ENCLOSED),
  ("escaped".data, Tok.ESCAPED),
  ("lines".data, Tok.LINES),
  ("starting".data, Tok.STARTING),
  ("optionally".data, Tok.OPTIONALLY),
  ("fields".data, Tok.FIELDS),
  ("conflict".data, Tok.CONFLICT),
  ("do".data, Tok.DO),
  ("nothing".data, Tok.NOTHING),
  ("overriding".data, Tok.OVERRIDING),
  ("system".data, Tok.SYSTEM),
  ("value".data, Tok.VALUE),
  ("generated".data, Tok.GENERATED),
  ("always".data, Tok.ALWAYS),
  ("identity".data, Tok.IDENTITY),
  ("stored".data, Tok.STORED),
  ("virtual".data, Tok.VIRTUAL),
  ("include".data, Tok.INCLUDE),
  ("btree".data, Tok.BTREE),
  ("gin".data, Tok.GIN),
  ("gist".data, Tok.GIST),
  ("spgist".data, Tok.SPGIST),
  ("brin".data, Tok.BRIN),
  ("concurrently".data, Tok.CONCURRENTLY),
  ("inherit".data, Tok.INHERIT),
  ("inherits".data, Tok.INHERITS),
  ("of".data, Tok.OF),
  ("oids".data, Tok.OIDS),
  ("owner".data, Tok.OWNER),
  ("owned".data, Tok.OWNED),
  ("depends".data, Tok.DEPENDS),
  ("extension".data, Tok.EXTENSION),
  ("sequence".data, Tok.SEQUENCE),
  ("cycle".data, Tok.CYCLE),
  ("increment".data, Tok.INCREMENT),
  ("minvalue".data, Tok.MINVALUE),
  ("start".data, Tok.START),
  ("cache".data, Tok.CACHE),
  ("restart".data, Tok.RESTART),
  ("continue".data, Tok.CONTINUE),
  ("preserve".data, Tok.PRESERVE),
  ("dispose".data, Tok.DISPOSE),
  ("top".data, Tok.TOP),
  ("nolock".data, Tok.NOLOCK),
  ("readuncommitted".data, Tok.READUNCOMMITTED),
  ("readcommitted".data, Tok.READCOMMITTED),
  ("repeatableread".data, Tok.REPEATABLEREAD),
  ("rowlock".data, Tok.ROWLOCK),
  ("paglock".data, Tok.PAGLOCK),
  ("tablock".data, Tok.TABLOCK),
  ("tablockx".data, Tok.TABLOCKX),
  ("updlock".data, Tok.UPDLOCK),
  ("xlock".data, Tok.XLOCK),
  ("holdlock".data, Tok.HOLDLOCK),
  ("pivot".data, Tok.PIVOT),
  ("unpivot".data, Tok.UNPIVOT),
  ("apply".data, Tok.APPLY),
  ("merge".data, Tok.MERGE),
  ("inserted".data, Tok.INSERTED),
  ("rownum".data, Tok.ROWNUM),
  ("sysdate".data, Tok.SYSDATE),
  ("systimestamp".data, Tok.SYSTIMESTAMP),
  ("dual".data, Tok.DUAL),
  ("prior".data, Tok.PRIOR),
  ("nocycle".data, Tok.NOCYCLE),
  ("siblings".data, Tok.SIBLINGS),
  ("sample".data, Tok.SAMPLE),
  ("seed".data, Tok.SEED),
  ("flashback".data, Tok.FLASHBACK),
  ("scn".data, Tok.SCN),
  ("versions".data, Tok.VERSIONS),
  ("keep".data, Tok.KEEP),
  ("dense_rank".data, Tok.DENSE_RANK),
  ("model".data, Tok.MODEL),
  ("dimension".data, Tok.DIMENSION),
  ("measures".data, Tok.MEASURES),
  ("rules".data, Tok.RULES),
  ("iterate".data, Tok.ITERATE),
  ("until".data, Tok.UNTIL),
  ("bulk".data, Tok.BULK),
  ("forall".data, Tok.FORALL),
  ("collect".data, Tok.COLLECT),
  ("pipelined".data, Tok.PIPELINED)
]

/-- Source position (byte offset, 1-indexed line and column), as in
`token.Pos`. -/
structure Pos where
  offset : Nat
  line : Nat
  column : Nat
deriving DecidableEq, Repr

/-- A lexed token with kind, decoded text and position (`token.Item`). -/
structure Item where
  type : Tok
  value : List Char
  pos : Pos
deriving DecidableEq, Repr

/-- Zero value of `token.Item`. -/
def Item.zero : Item := { type := Tok.ILLEGAL, value := [], pos := { offset := 0, line := 0, column := 0 } }

/-- Range test `Token.IsLiteral`. -/
def Tok.IsLiteral (t : Tok) : Bool := Tok.literalBeg < t && t < Tok.literalEnd

/-- Range test `Token.IsOperator`. -/
def Tok.IsOperator (t : Tok) : Bool := Tok.operatorBeg < t && t < Tok.operatorEnd

/-- Range test `Token.IsKeyword`. -/
def Tok.IsKeyword (t : Tok) : Bool := Tok.keywordBeg < t && t < Tok.keywordEnd

/-- `isLowercase` from `token/keywords.go`: no ASCII upper-case letter. -/
def isLowercase (s : List Char) : Bool := !(s.any (fun c => 'A' <= c && c <= 'Z'))

/-- ASCII lower-casing of one character (the `c + 32` step of `LookupIdent`). -/
def toLowerChar (c : Char) : Char := if 'A' <= c && c <= 'Z' then Char.ofNat (c.toNat + 32) else c

/-- Keyword-map lookup. -/
def lookupKeyword (s : List Char) : Option Tok := keywords.lookup s

/-- `token.LookupIdent`: keyword token for keyword text (case-insensitively,
identifiers longer than 32 bytes cannot be keywords), `IDENT` otherwise. -/
def LookupIdent (s : List Char) : Tok :=
  if isLowercase s then
    match lookupKeyword s with
    | some t => t
    | none => Tok.IDENT
  else if s.length <= 32 then
    match lookupKeyword (s.map toLowerChar) with
    | some t => t
    | none => Tok.IDENT
  else Tok.IDENT

/-- `token.IsKeyword` on identifier text. -/
def IsKeyword (s : List Char) : Bool := LookupIdent s != Tok.IDENT

/-- Lexer state (`lexer.Lexer`): immutable input plus scanning cursor. -/
structure Lexer where
  input : List Char
  start : Nat
  pos : Nat
  line : Nat
  linePos : Nat
  item : Item
  peeked : Bool
deriving DecidableEq, Repr

/-- `lexer.New`. -/
def Lexer.New (input : List Char) : Lexer :=
  { input := input, start := 0, pos := 0, line := 1, linePos := 0, item := Item.zero, peeked := false }

/-- `isIdentStart`. -/
def isIdentStart (ch : Char) : Bool := ('a' <= ch && ch <= 'z') || ('A' <= ch && ch <= 'Z') || ch == '_'

/-- `isDigit`. -/
def isDigit (ch : Char) : Bool := '0' <= ch && ch <= '9'

/-- `isIdentChar`. -/
def isIdentChar (ch : Char) : Bool := isIdentStart ch || isDigit ch || ch == '$'

/-- `isTagChar`. -/
def isTagChar (ch : Char) : Bool := isIdentStart ch || isDigit ch

/-- `isHexDigit`. -/
def isHexDigit (ch : Char) : Bool := isDigit ch || ('a' <= ch && ch <= 'f') || ('A' <= ch && ch <= 'F')

/-- `makeItem`: the position is the token start. -/
def Lexer.makeItem (l : Lexer) (typ : Tok) (val : List Char) : Item :=
  { type := typ, value := val,
    pos := { offset := l.start, line := l.line, column := l.start - l.linePos + 1 } }

/-- Loop body of `skipWhitespace` (fueled for kernel reducibility; the
wrapper supplies ample fuel), returning the final `(pos, line, linePos)`. -/
def skipWhitespaceLoopF (input : List Char) (fuel pos line linePos : Nat) : Nat × Nat × Nat :=
  match fuel with
  | 0 => (pos, line, linePos)
  | fuel + 1 =>
    if pos < input.length then
      let ch := chAt input pos
      if ch == ' ' || ch == '\t' || ch == '\r' then
        skipWhitespaceLoopF input fuel (pos + 1) line linePos
      else if ch == '\n' then
        skipWhitespaceLoopF input fuel (pos + 1) (line + 1) (pos + 1)
      else (pos, line, linePos)
    else (pos, line, linePos)

/-- Loop body of `skipWhitespace`: the cursor advances at every step, so
`input.length + 1` rounds of fuel always reach the loop's own exit. -/
def skipWhitespaceLoop (input : List Char) (pos line linePos : Nat) : Nat × Nat × Nat :=
  skipWhitespaceLoopF input (input.length + 1) pos line linePos

/-- `skipWhitespace`. -/
def Lexer.skipWhitespace (l : Lexer) : Lexer :=
  let r := skipWhitespaceLoop l.input l.pos l.line l.linePos
  { l with pos := r.1, line := r.2.1, linePos := r.2.2 }

/-- Shared shape of the Go `for l.pos < len && p(l.input[l.pos]) { l.pos++ }`
scanning loops: first position at/after `pos` failing `p` (or the end). -/
def spanEndF (p : Char -> Bool) (input : List Char) (fuel pos : Nat) : Nat :=
  match fuel with
  | 0 => pos
  | fuel + 1 =>
    if pos < input.length then
      if p (chAt input pos) then spanEndF p input fuel (pos + 1) else pos
    else pos

/-- The Go span loops with ample fuel. -/
def spanEnd (p : Char -> Bool) (input : List Char) (pos : Nat) : Nat :=
  spanEndF p input (input.length + 1) pos

/-- `scanIdentifier`. -/
def Lexer.scanIdentifier (l : Lexer) : Item × Lexer :=
  let pos := spanEnd isIdentChar l.input l.pos
  let val := slice l.input l.start pos
  let l := { l with pos := pos }
  (l.makeItem (LookupIdent val) val, l)

/-- Exponent-and-return tail of `scanNumber` (after the integer/decimal part). -/
def Lexer.scanNumberExp (l : Lexer) (tok : Tok) (pos : Nat) : Item × Lexer :=
  if pos < l.input.length && (chAt l.input pos == 'e' || chAt l.input pos == 'E') then
    let pos := pos + 1
    let pos := if pos < l.input.length && (chAt l.input pos == '+' || chAt l.input pos == '-') then pos + 1 else pos
    let pos := spanEnd isDigit l.input pos
    let l := { l with pos := pos }
    (l.makeItem Tok.FLOAT (slice l.input l.start pos), l)
  else
    let l := { l with pos := pos }
    (l.makeItem tok (slice l.input l.start pos), l)

/-- `scanNumber`: hex form, integer part, decimal part guarded against the
`..` range operator, exponent. -/
def Lexer.scanNumber (l : Lexer) : Item × Lexer :=
  if l.pos + 1 < l.input.length && chAt l.input l.pos == '0' &&
      (chAt l.input (l.pos + 1) == 'x' || chAt l.input (l.pos + 1) == 'X') then
    let pos := spanEnd isHexDigit l.input (l.pos + 2)
    let l := { l with pos := pos }
    (l.makeItem Tok.INT (slice l.input l.start pos), l)
  else
    let pos := spanEnd isDigit l.input l.pos
    if pos < l.input.length && chAt l.input pos == '.' then
      if pos + 1 < l.input.length && chAt l.input (pos + 1) == '.' then
        let l := { l with pos := pos }
        (l.makeItem Tok.INT (slice l.input l.start pos), l)
      else
        let pos := spanEnd isDigit l.input (pos + 1)
        l.scanNumberExp Tok.FLOAT pos
    else
      l.scanNumberExp Tok.INT pos

/-- Loop of `scanString`: decodes escapes into `buf`; `some buf` on the
closing quote, `none` at end of input. -/
def scanStringLoopF (input : List Char) (quote : Char) (fuel pos line linePos : Nat)
    (buf : List Char) : Option (List Char) × Nat × Nat × Nat :=
  match fuel with
  | 0 => (none, pos, line, linePos)
  | fuel + 1 =>
    if pos < input.length then
      let ch := chAt input pos
      if ch == quote then
        if pos + 1 < input.length && chAt input (pos + 1) == quote then
          scanStringLoopF input quote fuel (pos + 2) line linePos (buf ++ [quote])
        else (some buf, pos + 1, line, linePos)
      else if ch == '\\' && pos + 1 < input.length then
        let next := chAt input (pos + 1)
        let add : List Char :=
          if next == 'n' then ['\n']
          else if next == 't' then ['\t']
          else if next == 'r' then ['\r']
          else if next == '\\' then ['\\']
          else if next == '\'' then ['\'']
          else if next == '"' then ['"']
          else ['\\', next]
        scanStringLoopF input quote fuel (pos + 2) line linePos (buf ++ add)
      else
        let line' := if ch == '\n' then line + 1 else line
        let linePos' := if ch == '\n' then pos + 1 else linePos
        scanStringLoopF input quote fuel (pos + 1) line' linePos' (buf ++ [ch])
    else (none, pos, line, linePos)

/-- Loop of `scanString` with ample fuel (the cursor advances every step). -/
def scanStringLoop (input : List Char) (quote : Char) (pos line linePos : Nat) (buf : List Char) :
    Option (List Char) × Nat × Nat × Nat :=
  scanStringLoopF input quote (input.length + 1) pos line linePos buf

/-- `scanString`. -/
def Lexer.scanString (l : Lexer) (quote : Char) : Item × Lexer :=
  match scanStringLoop l.input quote (l.pos + 1) l.line l.linePos [] with
  | (some buf, pos, line, linePos) =>
    let l := { l with pos := pos, line := line, linePos := linePos }
    (l.makeItem Tok.STRING buf, l)
  | (none, pos, line, linePos) =>
    let l := { l with pos := pos, line := line, linePos := linePos }
    (l.makeItem Tok.ILLEGAL (slice l.input l.start pos), l)

/-- Loop of `scanQuotedIdentifier`: `""` decodes to `"`. -/
def scanDQuoteLoopF (input : List Char) (fuel pos line linePos : Nat) (buf : List Char) :
    Option (List Char) × Nat × Nat × Nat :=
  match fuel with
  | 0 => (none, pos, line, linePos)
  | fuel + 1 =>
    if pos < input.length then
      let ch := chAt input pos
      if ch == '"' then
        if pos + 1 < input.length && chAt input (pos + 1) == '"' then
          scanDQuoteLoopF input fuel (pos + 2) line linePos (buf ++ ['"'])
        else (some buf, pos + 1, line, linePos)
      else
        let line' := if ch == '\n' then line + 1 else line
        let linePos' := if ch == '\n' then pos + 1 else linePos
        scanDQuoteLoopF input fuel (pos + 1) line' linePos' (buf ++ [ch])
    else (none, pos, line, linePos)

/-- Loop of `scanQuotedIdentifier` with ample fuel. -/
def scanDQuoteLoop (input : List Char) (pos line linePos : Nat) (buf : List Char) :
    Option (List Char) × Nat × Nat × Nat :=
  scanDQuoteLoopF input (input.length + 1) pos line linePos buf

/-- `scanQuotedIdentifier`; the Go `buf == nil` fast path returns the raw
slice, which coincides with the decoded buffer when nothing was appended. -/
def Lexer.scanQuotedIdentifier (l : Lexer) : Item × Lexer :=
  match scanDQuoteLoop l.input (l.pos + 1) l.line l.linePos [] with
  | (some buf, pos, line, linePos) =>
    let l := { l with pos := pos, line := line, linePos := linePos }
    if buf.isEmpty then (l.makeItem Tok.IDENT (slice l.input (l.start + 1) (pos - 1)), l)
    else (l.makeItem Tok.IDENT buf, l)
  | (none, pos, line, linePos) =>
    let l := { l with pos := pos, line := line, linePos := linePos }
    (l.makeItem Tok.ILLEGAL (slice l.input l.start pos), l)

/-- Shared loop of `scanBacktickIdentifier` and `scanBracketIdentifier`
(the two Go loops are identical up to the delimiter): a doubled delimiter is
skipped, a single one closes; the content is left undecoded.  Returns
whether the delimiter was found and the final cursor. -/
def scanDelimLoopF (input : List Char) (close : Char) (fuel pos line linePos : Nat) :
    Bool × Nat × Nat × Nat :=
  match fuel with
  | 0 => (false, pos, line, linePos)
  | fuel + 1 =>
    if pos < input.length then
      let ch := chAt input pos
      if ch == close then
        if pos + 1 < input.length && chAt input (pos + 1) == close then
          scanDelimLoopF input close fuel (pos + 2) line linePos
        else (true, pos + 1, line, linePos)
      else
        let line' := if ch == '\n' then line + 1 else line
        let linePos' := if ch == '\n' then pos + 1 else linePos
        scanDelimLoopF input close fuel (pos + 1) line' linePos'
    else (false, pos, line, linePos)

/-- The shared delimiter loop with ample fuel. -/
def scanDelimLoop (input : List Char) (close : Char) (pos line linePos : Nat) :
    Bool × Nat × Nat × Nat :=
  scanDelimLoopF input close (input.length + 1) pos line linePos

/-- `scanBacktickIdentifier`. -/
def Lexer.scanBacktickIdentifier (l : Lexer) : Item × Lexer :=
  match scanDelimLoop l.input (Char.ofNat 96) (l.pos + 1) l.line l.linePos with
  | (true, pos, line, linePos) =>
    let l := { l with pos := pos, line := line, linePos := linePos }
    (l.makeItem Tok.IDENT (slice l.input (l.start + 1) (pos - 1)), l)
  | (false, pos, line, linePos) =>
    let l := { l with pos := pos, line := line, linePos := linePos }
    (l.makeItem Tok.ILLEGAL (slice l.input l.start pos), l)

/-- `scanBracketIdentifier`. -/
def Lexer.scanBracketIdentifier (l : Lexer) : Item × Lexer :=
  match scanDelimLoop l.input ']' (l.pos + 1) l.line l.linePos with
  | (true, pos, line, linePos) =>
    let l := { l with pos := pos, line := line, linePos := linePos }
    (l.makeItem Tok.IDENT (slice l.input (l.start + 1) (pos - 1)), l)
  | (false, pos, line, linePos) =>
    let l := { l with pos := pos, line := line, linePos := linePos }
    (l.makeItem Tok.ILLEGAL (slice l.input l.start pos), l)

/-- `scanBracketOrLBracket`: a bracket identifier only when the next
character is an identifier start, `#` or `@`; plain `LBRACKET` otherwise. -/
def Lexer.scanBracketOrLBracket (l : Lexer) : Item × Lexer :=
  if l.pos + 1 < l.input.length &&
      (isIdentStart (chAt l.input (l.pos + 1)) || chAt l.input (l.pos + 1) == '#' ||
        chAt l.input (l.pos + 1) == '@') then
    l.scanBracketIdentifier
  else
    let l := { l with pos := l.pos + 1 }
    (l.makeItem Tok.LBRACKET ['['], l)

/-- `scanLineComment` (called with the cursor on the second `-`). -/
def Lexer.scanLineComment (l : Lexer) : Item × Lexer :=
  let pos := spanEnd (fun c => c != '\n') l.input (l.pos + 1)
  let l := { l with pos := pos }
  (l.makeItem Tok.COMMENT (slice l.input l.start pos), l)

/-- `scanMinus`: line comment, `->`/`->>`, or `-`. -/
def Lexer.scanMinus (l : Lexer) : Item × Lexer :=
  let l := { l with pos := l.pos + 1 }
  if l.pos < l.input.length then
    if chAt l.input l.pos == '-' then l.scanLineComment
    else if chAt l.input l.pos == '>' then
      let l := { l with pos := l.pos + 1 }
      if l.pos < l.input.length && chAt l.input l.pos == '>' then
        let l := { l with pos := l.pos + 1 }
        (l.makeItem Tok.DARROW ['-', '>', '>'], l)
      else (l.makeItem Tok.ARROW ['-', '>'], l)
    else (l.makeItem Tok.MINUS ['-'], l)
  else (l.makeItem Tok.MINUS ['-'], l)

/-- Loop of `scanBlockComment`: searches `*/`, tracking newlines. -/
def scanBlockCommentLoopF (input : List Char) (fuel pos line linePos : Nat) :
    Bool × Nat × Nat × Nat :=
  match fuel with
  | 0 => (false, pos, line, linePos)
  | fuel + 1 =>
    if pos < input.length then
      if chAt input pos == '*' && pos + 1 < input.length && chAt input (pos + 1) == '/' then
        (true, pos + 2, line, linePos)
      else
        let line' := if chAt input pos == '\n' then line + 1 else line
        let linePos' := if chAt input pos == '\n' then pos + 1 else linePos
        scanBlockCommentLoopF input fuel (pos + 1) line' linePos'
    else (false, pos, line, linePos)

/-- Loop of `scanBlockComment` with ample fuel. -/
def scanBlockCommentLoop (input : List Char) (pos line linePos : Nat) :
    Bool × Nat × Nat × Nat :=
  scanBlockCommentLoopF input (input.length + 1) pos line linePos

/-- `scanBlockComment` (called with the cursor on the `*`). -/
def Lexer.scanBlockComment (l : Lexer) : Item × Lexer :=
  match scanBlockCommentLoop l.input (l.pos + 1) l.line l.linePos with
  | (true, pos, line, linePos) =>
    let l := { l with pos := pos, line := line, linePos := linePos }
    (l.makeItem Tok.COMMENT (slice l.input l.start pos), l)
  | (false, pos, line, linePos) =>
    let l := { l with pos := pos, line := line, linePos := linePos }
    (l.makeItem Tok.ILLEGAL (slice l.input l.start pos), l)

/-- `scanSlash`. -/
def Lexer.scanSlash (l : Lexer) : Item × Lexer :=
  let l := { l with pos := l.pos + 1 }
  if l.pos < l.input.length && chAt l.input l.pos == '*' then l.scanBlockComment
  else (l.makeItem Tok.SLASH ['/'], l)

/-- `scanLessThan`. -/
def Lexer.scanLessThan (l : Lexer) : Item × Lexer :=
  let l := { l with pos := l.pos + 1 }
  if l.pos < l.input.length then
    if chAt l.input l.pos == '=' then
      let l := { l with pos := l.pos + 1 }
      (l.makeItem Tok.LTE ['<', '='], l)
    else if chAt l.input l.pos == '>' then
      let l := { l with pos := l.pos + 1 }
      (l.makeItem Tok.NEQ ['<', '>'], l)
    else if chAt l.input l.pos == '<' then
      let l := { l with pos := l.pos + 1 }
      (l.makeItem Tok.LSHIFT ['<', '<'], l)
    else (l.makeItem Tok.LT ['<'], l)
  else (l.makeItem Tok.LT ['<'], l)

/-- `scanGreaterThan`. -/
def Lexer.scanGreaterThan (l : Lexer) : Item × Lexer :=
  let l := { l with pos := l.pos + 1 }
  if l.pos < l.input.length then
    if chAt l.input l.pos == '=' then
      let l := { l with pos := l.pos + 1 }
      (l.makeItem Tok.GTE ['>', '='], l)
    else if chAt l.input l.pos == '>' then
      let l := { l with pos := l.pos + 1 }
      (l.makeItem Tok.RSHIFT ['>', '>'], l)
    else (l.makeItem Tok.GT ['>'], l)
  else (l.makeItem Tok.GT ['>'], l)

/-- `scanBang`. -/
def Lexer.scanBang (l : Lexer) : Item × Lexer :=
  let l := { l with pos := l.pos + 1 }
  if l.pos < l.input.length && chAt l.input l.pos == '=' then
    let l := { l with pos := l.pos + 1 }
    (l.makeItem Tok.NEQ ['!', '='], l)
  else (l.makeItem Tok.ILLEGAL ['!'], l)

/-- `scanPipe`. -/
def Lexer.scanPipe (l : Lexer) : Item × Lexer :=
  let l := { l with pos := l.pos + 1 }
  if l.pos < l.input.length && chAt l.input l.pos == '|' then
    let l := { l with pos := l.pos + 1 }
    (l.makeItem Tok.CONCAT ['|', '|'], l)
  else (l.makeItem Tok.BITOR ['|'], l)

/-- `scanQuestion`. -/
def Lexer.scanQuestion (l : Lexer) : Item × Lexer :=
  let l := { l with pos := l.pos + 1 }
  if l.pos < l.input.length then
    if chAt l.input l.pos == '|' then
      let l := { l with pos := l.pos + 1 }
      (l.makeItem Tok.QUESTIONOR ['?', '|'], l)
    else if chAt l.input l.pos == '&' then
      let l := { l with pos := l.pos + 1 }
      (l.makeItem Tok.QUESTIONAND ['?', '&'], l)
    else (l.makeItem Tok.PARAM ['?'], l)
  else (l.makeItem Tok.PARAM ['?'], l)

/-- Loop of `scanDollarQuotedStringContent`: searches the closing
delimiter, tracking newlines; returns whether it was found at the final
cursor position. -/
def scanDollarLoopF (input endDelim : List Char) (fuel pos line linePos : Nat) :
    Bool × Nat × Nat × Nat :=
  match fuel with
  | 0 => (false, pos, line, linePos)
  | fuel + 1 =>
    if pos < input.length then
      if chAt input pos == '$' && pos + endDelim.length <= input.length &&
          slice input pos (pos + endDelim.length) == endDelim then
        (true, pos, line, linePos)
      else
        let line' := if chAt input pos == '\n' then line + 1 else line
        let linePos' := if chAt input pos == '\n' then pos + 1 else linePos
        scanDollarLoopF input endDelim fuel (pos + 1) line' linePos'
    else (false, pos, line, linePos)

/-- Loop of `scanDollarQuotedStringContent` with ample fuel. -/
def scanDollarLoop (input endDelim : List Char) (pos line linePos : Nat) :
    Bool × Nat × Nat × Nat :=
  scanDollarLoopF input endDelim (input.length + 1) pos line linePos

/-- `scanDollarQuotedStringContent`. -/
def Lexer.scanDollarQuotedStringContent (l : Lexer) (tag : List Char) : Item × Lexer :=
  let contentStart := l.pos
  let endDelim := '$' :: tag ++ ['$']
  match scanDollarLoop l.input endDelim l.pos l.line l.linePos with
  | (true, pos, line, linePos) =>
    let content := slice l.input contentStart pos
    let l := { l with pos := pos + endDelim.length, line := line, linePos := linePos }
    (l.makeItem Tok.STRING content, l)
  | (false, pos, line, linePos) =>
    let l := { l with pos := pos, line := line, linePos := linePos }
    (l.makeItem Tok.ILLEGAL (slice l.input l.start pos), l)

/-- `scanDollar`: positional parameter, dollar-quoted string (bare or
tagged), or `ILLEGAL`. -/
def Lexer.scanDollar (l : Lexer) : Item × Lexer :=
  let l := { l with pos := l.pos + 1 }
  if l.pos < l.input.length && isDigit (chAt l.input l.pos) then
    let pos := spanEnd isDigit l.input l.pos
    let l := { l with pos := pos }
    (l.makeItem Tok.PARAM (slice l.input l.start pos), l)
  else if l.pos < l.input.length then
    if chAt l.input l.pos == '$' then
      let l := { l with pos := l.pos + 1 }
      l.scanDollarQuotedStringContent []
    else if isIdentStart (chAt l.input l.pos) then
      let tagStart := l.pos
      let pos := spanEnd isTagChar l.input l.pos
      if pos < l.input.length && chAt l.input pos == '$' then
        let tag := slice l.input tagStart pos
        let l := { l with pos := pos + 1 }
        l.scanDollarQuotedStringContent tag
      else
        let l := { l with pos := l.start + 1 }
        (l.makeItem Tok.ILLEGAL ['$'], l)
    else (l.makeItem Tok.ILLEGAL ['$'], l)
  else (l.makeItem Tok.ILLEGAL ['$'], l)

/-- `scanColon`. -/
def Lexer.scanColon (l : Lexer) : Item × Lexer :=
  let l := { l with pos := l.pos + 1 }
  if l.pos < l.input.length then
    if chAt l.input l.pos == ':' then
      let l := { l with pos := l.pos + 1 }
      (l.makeItem Tok.DCOLON [':', ':'], l)
    else if isIdentStart (chAt l.input l.pos) then
      let pos := spanEnd isIdentChar l.input l.pos
      let l := { l with pos := pos }
      (l.makeItem Tok.PARAM (slice l.input l.start pos), l)
    else (l.makeItem Tok.COLON [':'], l)
  else (l.makeItem Tok.COLON [':'], l)

/-- Trailing line-comment scan of `scanHash`. -/
def Lexer.hashComment (l : Lexer) : Item × Lexer :=
  let pos := spanEnd (fun c => c != '\n') l.input l.pos
  let l := { l with pos := pos }
  (l.makeItem Tok.COMMENT (slice l.input l.start pos), l)

/-- `scanHash`: JSON operators, temp-table identifiers, or a MySQL line
comment. -/
def Lexer.scanHash (l : Lexer) : Item × Lexer :=
  let l := { l with pos := l.pos + 1 }
  if l.pos < l.input.length then
    if chAt l.input l.pos == '>' then
      let l := { l with pos := l.pos + 1 }
      if l.pos < l.input.length && chAt l.input l.pos == '>' then
        let l := { l with pos := l.pos + 1 }
        (l.makeItem Tok.HASHDGT ['#', '>', '>'], l)
      else (l.makeItem Tok.HASHGT ['#', '>'], l)
    else if chAt l.input l.pos == '#' then
      let l := { l with pos := l.pos + 1 }
      if l.pos < l.input.length && isIdentStart (chAt l.input l.pos) then
        let pos := spanEnd isIdentChar l.input l.pos
        let l := { l with pos := pos }
        (l.makeItem Tok.IDENT (slice l.input l.start pos), l)
      else
        let l := { l with pos := l.pos - 2 }
        l.hashComment
    else if isIdentStart (chAt l.input l.pos) then
      let pos := spanEnd isIdentChar l.input l.pos
      let l := { l with pos := pos }
      (l.makeItem Tok.IDENT (slice l.input l.start pos), l)
    else l.hashComment
  else l.hashComment

/-- `scanAt`. -/
def Lexer.scanAt (l : Lexer) : Item × Lexer :=
  let l := { l with pos := l.pos + 1 }
  if l.pos < l.input.length then
    if chAt l.input l.pos == '@' then
      let l := { l with pos := l.pos + 1 }
      (l.makeItem Tok.ATAT ['@', '@'], l)
    else if isIdentStart (chAt l.input l.pos) then
      let pos := spanEnd isIdentChar l.input l.pos
      let l := { l with pos := pos }
      (l.makeItem Tok.PARAM (slice l.input l.start pos), l)
    else (l.makeItem Tok.AT ['@'], l)
  else (l.makeItem Tok.AT ['@'], l)

/-- One-character fast path helper of `scan`. -/
def Lexer.single (l : Lexer) (typ : Tok) (ch : Char) : Item × Lexer :=
  let l := { l with pos := l.pos + 1 }
  (l.makeItem typ [ch], l)

/-- `scan`: the lexer dispatch on the first character of the next token. -/
def Lexer.scan (l : Lexer) : Item × Lexer :=
  let l := l.skipWhitespace
  let l := { l with start := l.pos }
  if l.pos >= l.input.length then (l.makeItem Tok.EOF [], l)
  else
    let ch := chAt l.input l.pos
    if ch == '(' then l.single Tok.LPAREN '('
    else if ch == ')' then l.single Tok.RPAREN ')'
    else if ch == '[' then l.scanBracketOrLBracket
    else if ch == ']' then l.single Tok.RBRACKET ']'
    else if ch == ',' then l.single Tok.COMMA ','
    else if ch == ';' then l.single Tok.SEMICOLON ';'
    else if ch == '+' then l.single Tok.PLUS '+'
    else if ch == '*' then l.single Tok.ASTERISK '*'
    else if ch == '%' then l.single Tok.PERCENT '%'
    else if ch == '~' then l.single Tok.BITNOT '~'
    else if ch == '^' then l.single Tok.BITXOR '^'
    else if ch == '@' then l.scanAt
    else if ch == '.' then
      if l.pos + 1 < l.input.length && isDigit (chAt l.input (l.pos + 1)) then l.scanNumber
      else l.single Tok.DOT '.'
    else if ch == '-' then l.scanMinus
    else if ch == '/' then l.scanSlash
    else if ch == '\'' then l.scanString '\''
    else if ch == '"' then l.scanQuotedIdentifier
    else if ch == Char.ofNat 96 then l.scanBacktickIdentifier
    else if ch == '=' then l.single Tok.EQ '='
    else if ch == '<' then l.scanLessThan
    else if ch == '>' then l.scanGreaterThan
    else if ch == '!' then l.scanBang
    else if ch == '|' then l.scanPipe
    else if ch == '&' then l.single Tok.BITAND '&'
    else if ch == '?' then l.scanQuestion
    else if ch == '$' then l.scanDollar
    else if ch == ':' then l.scanColon
    else if ch == '#' then l.scanHash
    else if isIdentStart ch then l.scanIdentifier
    else if isDigit ch then l.scanNumber
    else
      let l := { l with pos := l.pos + 1 }
      (l.makeItem Tok.ILLEGAL [ch], l)

/-- `Next`: delivers the peeked token if present, otherwise scans. -/
def Lexer.Next (l : Lexer) : Item × Lexer :=
  if l.peeked then (l.item, { l with peeked := false })
  else
    let r := l.scan
    (r.1, { r.2 with item := r.1 })

/-- `Peek`: scans (caching the token) unless one is already cached. -/
def Lexer.Peek (l : Lexer) : Item × Lexer :=
  if l.peeked then (l.item, l)
  else
    let r := l.scan
    (r.1, { r.2 with item := r.1, peeked := true })


/-- `ast.LiteralType`. -/
inductive LiteralType where
  | Null | Int | Float | StringL | Bool | Blob
deriving DecidableEq, Repr

/-- `ast.Literal`: literal with its raw textual (or decoded, for strings)
value. -/
structure Literal where
  startPos : Pos
  endPos : Pos
  type : LiteralType
  value : List Char
deriving DecidableEq, Repr

/-- `ast.ColName`. -/
structure ColName where
  startPos : Pos
  endPos : Pos
  parts : List (List Char)
deriving DecidableEq, Repr

/-- `ColName.Name`: last part. -/
def ColName.Name (c : ColName) : List Char := c.parts.getLastD []

/-- `ast.TableName`. -/
structure TableName where
  startPos : Pos
  endPos : Pos
  parts : List (List Char)
deriving DecidableEq, Repr

/-- `ast.ParamType`. -/
inductive ParamType where
  | Question | Dollar | Colon | At
deriving DecidableEq, Repr

/-- `ast.Param`; `index` is the `strconv.Atoi` result (0 when absent). -/
structure Param where
  startPos : Pos
  endPos : Pos
  type : ParamType
  name : List Char
  index : Nat
deriving DecidableEq, Repr

/-- `ast.StarExpr`. -/
structure StarExpr where
  startPos : Pos
  endPos : Pos
  tableName : List Char
  hasQualifier : Bool
deriving DecidableEq, Repr

/-- `ast.DataType`; the numeric length/precision/scale fields carry the
clamped `parseInt` results. -/
structure DataType where
  name : List Char
  length : Option Int
  precision : Option Int
  scale : Option Int
  array : Bool
  unsigned : Bool
  charset : List Char
  collation : List Char
deriving DecidableEq, Repr

/-- Zero value of `ast.DataType`. -/
def DataType.zero : DataType :=
  { name := [], length := none, precision := none, scale := none,
    array := false, unsigned := false, charset := [], collation := [] }

/-- `ast.SetOpType`. -/
inductive SetOpType where
  | Union | Intersect | Except
deriving DecidableEq, Repr

/-- `ast.JoinType`. -/
inductive JoinType where
  | Inner | Left | Right | Full | Cross
deriving DecidableEq, Repr

/-- `ast.ConstraintType`. -/
inductive ConstraintType where
  | PrimaryKey | Unique | NotNull | Default | Check | ForeignKey | Generated
deriving DecidableEq, Repr

/-- `ast.RefAction`. -/
inductive RefAction where
  | NoAction | Cascade | SetNull | SetDefault | Restrict
deriving DecidableEq, Repr

/-- `ast.IndexHintType`. -/
inductive IndexHintType where
  | Use | Force | Ignore
deriving DecidableEq, Repr

/-- `ast.IndexHintFor`. -/
inductive IndexHintFor where
  | HAll | HJoin | HOrderBy | HGroupBy
deriving DecidableEq, Repr

/-- `ast.IndexHint`. -/
structure IndexHint where
  type : IndexHintType
  hfor : IndexHintFor
  indexes : List (List Char)
deriving DecidableEq, Repr

/-- `ast.TrimType`. -/
inductive TrimType where
  | Both | Leading | Trailing
deriving DecidableEq, Repr

/-- `ast.IsType`. -/
inductive IsType where
  | IsNull | IsTrue | IsFalse | IsUnknown
deriving DecidableEq, Repr

/-- `ast.FrameType`. -/
inductive FrameType where
  | Rows | Range | Groups
deriving DecidableEq, Repr

/-- `ast.BoundType`. -/
inductive BoundType where
  | CurrentRow | UnboundedPreceding | UnboundedFollowing | Preceding | Following
deriving DecidableEq, Repr

/-- `ast.SelectInto`. -/
structure SelectInto where
  outfile : List Char
  dumpfile : List Char
  vars : List (List Char)
deriving DecidableEq, Repr

/-- `ast.TableOption`. -/
structure TableOption where
  name : List Char
  value : List Char
deriving DecidableEq, Repr

/-- `ast.ForeignKeyRef`. -/
structure ForeignKeyRef where
  table : Option TableName
  columns : List (List Char)
  onDelete : RefAction
  onUpdate : RefAction
deriving DecidableEq, Repr

/-- `ast.DropTableStmt`. -/
structure DropTableStmt where
  startPos : Pos
  endPos : Pos
  ifExists : Bool
  tables : List (Option TableName)
  cascade : Bool
deriving DecidableEq, Repr

/-- `ast.DropIndexStmt`. -/
structure DropIndexStmt where
  startPos : Pos
  endPos : Pos
  ifExists : Bool
  concurrent : Bool
  name : List Char
  table : Option TableName
  cascade : Bool
deriving DecidableEq, Repr

/-- `ast.TruncateStmt`. -/
structure TruncateStmt where
  startPos : Pos
  endPos : Pos
  tables : List (Option TableName)
  cascade : Bool
deriving DecidableEq, Repr

/-- `parser.ParseError` (the message is kept as plain text; the Go code
interpolates token names into it, which only affects diagnostics). -/
structure ParseError where
  pos : Pos
  msg : List Char
deriving DecidableEq, Repr

set_option maxHeartbeats 40000000 in
mutual

/-- `ast.Expr` as a closed sum of the concrete expression nodes.  Fields
appear in the order of the Go struct declarations; a Go pointer/interface
field that the parser can leave nil becomes an `Option`. -/
inductive Expr where
  | Lit : Literal → Expr
  | Col : ColName → Expr
  | Prm : Param → Expr
  | Star : StarExpr → Expr
  | Bin : Pos → Pos → Tok → Expr → Expr → Expr
  | Un : Pos → Pos → Tok → Option Expr → Expr
  | Paren : Pos → Pos → Option Expr → Expr
  | FuncE : Pos → Pos → List Char → Bool → List Expr → List OrderByExpr → Option Expr → Option WindowSpec → Expr
  | CaseE : Pos → Pos → Option Expr → List When → Option Expr → Expr
  | CastE : Pos → Pos → Option Expr → DataType → Expr
  | InE : Pos → Pos → Expr → Bool → List Expr → Option SelectStmt → Expr
  | BetweenE : Pos → Pos → Expr → Bool → Option Expr → Option Expr → Expr
  | LikeE : Pos → Pos → Expr → Option Expr → Bool → Option Expr → Bool → Expr
  | IsE : Pos → Pos → Expr → Bool → IsType → Expr
  | SubE : Subquery → Expr
  | ExistsE : Pos → Pos → Bool → Subquery → Expr
  | Interval : Pos → Pos → Option Expr → List Char → Expr
  | Extract : Pos → Pos → List Char → Option Expr → Expr
  | TrimE : Pos → Pos → TrimType → Option Expr → Option Expr → Expr
  | SubstringE : Pos → Pos → Option Expr → Option Expr → Option Expr → Expr
  | PositionE : Pos → Pos → Option Expr → Option Expr → Expr
  | ArrayE : Pos → Pos → List Expr → Expr
  | SubscriptE : Pos → Pos → Expr → Expr → Expr
  | CollateE : Pos → Pos → Expr → List Char → Expr

/-- `ast.When` (condition, result). -/
inductive When where
  | mk : Option Expr → Option Expr → When

/-- `ast.Subquery` (also usable as a table expression). -/
inductive Subquery where
  | mk : Pos → Pos → SelectStmt → Subquery

/-- `ast.SelectStmt`: startPos, endPos, with, distinct, columns, from,
where, groupBy, having, orderBy, limit, lock, into, windowDefs. -/
inductive SelectStmt where
  | mk : Pos → Pos → Option WithClause → Bool → List SelectExpr → Option TableExpr →
      Option Expr → List Expr → Option Expr → List OrderByExpr → Option Limit →
      List Char → Option SelectInto → List WindowDef → SelectStmt

/-- `ast.SelectExpr`: an aliased expression or a star. -/
inductive SelectExpr where
  | Aliased : Pos → Pos → Expr → List Char → SelectExpr
  | StarSel : StarExpr → SelectExpr

/-- `ast.TableExpr` as a closed sum. -/
inductive TableExpr where
  | TName : TableName → TableExpr
  | ATE : Pos → Pos → TableExpr → List Char → List IndexHint → TableExpr
  | JoinE : Pos → Pos → JoinType → Option TableExpr → Option TableExpr → Option Expr →
      List (List Char) → Bool → Bool → TableExpr
  | ParenT : Pos → Pos → Option TableExpr → TableExpr
  | SubT : Subquery → TableExpr
  | ValuesT : ValuesStmt → TableExpr

/-- `ast.OrderByExpr`: expr, desc, nullsFirst. -/
inductive OrderByExpr where
  | mk : Pos → Pos → Expr → Bool → Option Bool → OrderByExpr

/-- `ast.Limit`: count, offset. -/
inductive Limit where
  | mk : Pos → Pos → Option Expr → Option Expr → Limit

/-- `ast.WithClause`. -/
inductive WithClause where
  | mk : Bool → List CTE → WithClause

/-- `ast.CTE`: name, columns, query. -/
inductive CTE where
  | mk : List Char → List (List Char) → Option Statement → CTE

/-- `ast.WindowSpec`: name, partitionBy, orderBy, frame. -/
inductive WindowSpec where
  | mk : Pos → Pos → List Char → List Expr → List OrderByExpr → Option WindowFrame → WindowSpec

/-- `ast.WindowDef`. -/
inductive WindowDef where
  | mk : List Char → Option WindowSpec → WindowDef

/-- `ast.WindowFrame`: type, start, end. -/
inductive WindowFrame where
  | mk : FrameType → FrameBound → Option FrameBound → WindowFrame

/-- `ast.FrameBound`: type, offset. -/
inductive FrameBound where
  | mk : BoundType → Option Expr → FrameBound

/-- `ast.ValuesStmt`. -/
inductive ValuesStmt where
  | mk : Pos → Pos → List (List Expr) → ValuesStmt

/-- `ast.InsertStmt`: startPos, endPos, with, replace, ignore, table,
columns, values, select, onDuplicateUpdate, onConflict, returning.  Go nil
slices coincide with empty ones at every use site, so `values` is a plain
list with `[]` for the unset form. -/
inductive InsertStmt where
  | mk : Pos → Pos → Option WithClause → Bool → Bool → Option TableName → List ColName →
      List (List Expr) → Option SelectStmt → List UpdateExpr → Option OnConflict →
      List SelectExpr → InsertStmt

/-- `ast.OnConflict`: columns, where, doNothing, updates. -/
inductive OnConflict where
  | mk : List (List Char) → Option Expr → Bool → List UpdateExpr → OnConflict

/-- `ast.UpdateExpr`. -/
inductive UpdateExpr where
  | mk : ColName → Option Expr → UpdateExpr

/-- `ast.UpdateStmt`: with, table, set, from, where, orderBy, limit,
returning. -/
inductive UpdateStmt where
  | mk : Pos → Pos → Option WithClause → Option TableExpr → List UpdateExpr →
      Option TableExpr → Option Expr → List OrderByExpr → Option Limit →
      List SelectExpr → UpdateStmt

/-- `ast.DeleteStmt`: with, table, using, where, orderBy, limit, returning. -/
inductive DeleteStmt where
  | mk : Pos → Pos → Option WithClause → Option TableExpr → Option TableExpr →
      Option Expr → List OrderByExpr → Option Limit → List SelectExpr → DeleteStmt

/-- `ast.SetOp` (never constructed by the parser, see `parseSetOp`). -/
inductive SetOp where
  | mk : Pos → Pos → SetOpType → Bool → Option Statement → Option Statement →
      List OrderByExpr → Option Limit → SetOp

/-- `ast.ColumnDef`. -/
inductive ColumnDef where
  | mk : List Char → DataType → List ColumnConstraint → ColumnDef

/-- `ast.ColumnConstraint`: name, type, notNull, default, check, references,
generated. -/
inductive ColumnConstraint where
  | mk : List Char → ConstraintType → Bool → Option Expr → Option Expr →
      Option ForeignKeyRef → Option GeneratedColumn → ColumnConstraint

/-- `ast.GeneratedColumn`. -/
inductive GeneratedColumn where
  | mk : Option Expr → Bool → GeneratedColumn

/-- `ast.TableConstraint`: name, type, columns, references, check. -/
inductive TableConstraint where
  | mk : List Char → ConstraintType → List (List Char) → Option ForeignKeyRef →
      Option Expr → TableConstraint

/-- `ast.CreateTableStmt`: ifNotExists, temporary, table, columns,
constraints, options, as. -/
inductive CreateTableStmt where
  | mk : Pos → Pos → Bool → Bool → Option TableName → List ColumnDef →
      List TableConstraint → List TableOption → Option SelectStmt → CreateTableStmt

/-- `ast.AlterTableAction` as a closed sum of the action structs. -/
inductive AlterTableAction where
  | AddCol : Option ColumnDef → AlterTableAction
  | DropCol : List Char → Bool → Bool → AlterTableAction
  | ModifyCol : List Char → Option ColumnDef → Option Expr → Bool → Bool → Bool → AlterTableAction
  | RenameCol : List Char → List Char → AlterTableAction
  | AddConstr : TableConstraint → AlterTableAction
  | DropConstr : List Char → Bool → Bool → AlterTableAction
  | RenameTbl : Option TableName → AlterTableAction

/-- `ast.AlterTableStmt`. -/
inductive AlterTableStmt where
  | mk : Pos → Pos → Option TableName → List AlterTableAction → AlterTableStmt

/-- `ast.IndexColumn`: column, expr, desc, nulls. -/
inductive IndexColumn where
  | mk : List Char → Option Expr → Bool → List Char → IndexColumn

/-- `ast.CreateIndexStmt`: ifNotExists, unique, concurrent, name, table,
columns, using, where. -/
inductive CreateIndexStmt where
  | mk : Pos → Pos → Bool → Bool → Bool → List Char → Option TableName →
      List IndexColumn → List Char → Option Expr → CreateIndexStmt

/-- `ast.ExplainStmt`: analyze, verbose, format, stmt. -/
inductive ExplainStmt where
  | mk : Pos → Pos → Bool → Bool → List Char → Option Statement → ExplainStmt

/-- `ast.Statement` as a closed sum of the statement nodes. -/
inductive Statement where
  | SelectS : SelectStmt → Statement
  | InsertS : InsertStmt → Statement
  | UpdateS : UpdateStmt → Statement
  | DeleteS : DeleteStmt → Statement
  | CreateTableS : CreateTableStmt → Statement
  | AlterTableS : AlterTableStmt → Statement
  | DropTableS : DropTableStmt → Statement
  | CreateIndexS : CreateIndexStmt → Statement
  | DropIndexS : DropIndexStmt → Statement
  | TruncateS : TruncateStmt → Statement
  | ExplainS : ExplainStmt → Statement
  | SetOpS : SetOp → Statement
  | ValuesS : ValuesStmt → Statement

end

/-- Replace the `With` field of a `SelectStmt` (Go `stmt.With = withClause`). -/
def SelectStmt.setWith (s : SelectStmt) (w : Option WithClause) : SelectStmt :=
  match s with
  | .mk sp ep _ d c f wh g hv ob l lk i wd => .mk sp ep w d c f wh g hv ob l lk i wd

/-- Replace the `With` field of an `InsertStmt`. -/
def InsertStmt.setWith (s : InsertStmt) (w : Option WithClause) : InsertStmt :=
  match s with
  | .mk sp ep _ r ig t c v sel od oc ret => .mk sp ep w r ig t c v sel od oc ret

/-- Replace the `With` field of an `UpdateStmt`. -/
def UpdateStmt.setWith (s : UpdateStmt) (w : Option WithClause) : UpdateStmt :=
  match s with
  | .mk sp ep _ t st f wh ob l ret => .mk sp ep w t st f wh ob l ret

/-- Replace the `With` field of a `DeleteStmt`. -/
def DeleteStmt.setWith (s : DeleteStmt) (w : Option WithClause) : DeleteStmt :=
  match s with
  | .mk sp ep _ t u wh ob l ret => .mk sp ep w t u wh ob l ret

/-- The `OrderBy`, `Limit` and position updates `parseParenthesizedStatement`
applies to an inner select. -/
def SelectStmt.setOrderByLimitPos (s : SelectStmt) (ob : List OrderByExpr)
    (lim : Option Limit) (sp ep : Pos) : SelectStmt :=
  match s with
  | .mk _ _ w d c f wh g hv _ _ lk i wd => .mk sp ep w d c f wh g hv ob lim lk i wd


/-- Zero value of `token.Pos`. -/
def Pos.zero : Pos := { offset := 0, line := 0, column := 0 }

/-- `Expr.Pos()`: the start position of each expression node. -/
def Expr.posOf : Expr → Pos
  | .Lit l => l.startPos
  | .Col c => c.startPos
  | .Prm pr => pr.startPos
  | .Star s => s.startPos
  | .Bin sp _ _ _ _ => sp
  | .Un sp _ _ _ => sp
  | .Paren sp _ _ => sp
  | .FuncE sp _ _ _ _ _ _ _ => sp
  | .CaseE sp _ _ _ _ => sp
  | .CastE sp _ _ _ => sp
  | .InE sp _ _ _ _ _ => sp
  | .BetweenE sp _ _ _ _ _ => sp
  | .LikeE sp _ _ _ _ _ _ => sp
  | .IsE sp _ _ _ _ => sp
  | .SubE (.mk sp _ _) => sp
  | .ExistsE sp _ _ _ => sp
  | .Interval sp _ _ _ => sp
  | .Extract sp _ _ _ => sp
  | .TrimE sp _ _ _ _ => sp
  | .SubstringE sp _ _ _ _ => sp
  | .PositionE sp _ _ _ => sp
  | .ArrayE sp _ _ => sp
  | .SubscriptE sp _ _ _ => sp
  | .CollateE sp _ _ _ => sp

/-- `TableExpr.Pos()`. -/
def TableExpr.posOf : TableExpr → Pos
  | .TName t => t.startPos
  | .ATE sp _ _ _ _ => sp
  | .JoinE sp _ _ _ _ _ _ _ _ => sp
  | .ParenT sp _ _ => sp
  | .SubT (.mk sp _ _) => sp
  | .ValuesT (.mk sp _ _) => sp

/-- Operator precedence constants from `parser/expression.go`. -/
def precLowest : Nat := 0

/-- Precedence of `OR`. -/
def precOr : Nat := 1

/-- Precedence of `XOR`. -/
def precXor : Nat := 2

/-- Precedence of `AND`. -/
def precAnd : Nat := 3

/-- Precedence of prefix `NOT`. -/
def precNot : Nat := 4

/-- Precedence of comparisons and the n-ary postfix family. -/
def precComparison : Nat := 5

/-- Precedence of bitwise or. -/
def precBitOr : Nat := 6

/-- Precedence of bitwise xor. -/
def precBitXor : Nat := 7

/-- Precedence of bitwise and. -/
def precBitAnd : Nat := 8

/-- Precedence of shifts. -/
def precShift : Nat := 9

/-- Precedence of `+`, `-`, `||`. -/
def precAdditive : Nat := 10

/-- Precedence of `*`, `/`, `%`. -/
def precMultiply : Nat := 11

/-- Precedence of prefix `-`, `~`, `!`. -/
def precUnary : Nat := 12

/-- Precedence of postfix `COLLATE`. -/
def precCollate : Nat := 13

/-- `precedence`: binary-operator precedence, `precLowest` for the rest. -/
def precedence (t : Tok) : Nat :=
  if t == Tok.OR then precOr
  else if t == Tok.XOR then precXor
  else if t == Tok.AND then precAnd
  else if t == Tok.EQ || t == Tok.NEQ || t == Tok.LT || t == Tok.GT || t == Tok.LTE || t == Tok.GTE then precComparison
  else if t == Tok.BITOR then precBitOr
  else if t == Tok.BITXOR then precBitXor
  else if t == Tok.BITAND then precBitAnd
  else if t == Tok.LSHIFT || t == Tok.RSHIFT then precShift
  else if t == Tok.PLUS || t == Tok.MINUS || t == Tok.CONCAT then precAdditive
  else if t == Tok.ASTERISK || t == Tok.SLASH || t == Tok.PERCENT then precMultiply
  else precLowest

/-- `isBinaryOp`. -/
def isBinaryOp (t : Tok) : Bool :=
  t == Tok.PLUS || t == Tok.MINUS || t == Tok.ASTERISK || t == Tok.SLASH || t == Tok.PERCENT ||
  t == Tok.EQ || t == Tok.NEQ || t == Tok.LT || t == Tok.GT || t == Tok.LTE || t == Tok.GTE ||
  t == Tok.AND || t == Tok.OR || t == Tok.XOR ||
  t == Tok.BITAND || t == Tok.BITOR || t == Tok.BITXOR || t == Tok.LSHIFT || t == Tok.RSHIFT ||
  t == Tok.CONCAT

/-- `isClauseKeyword` (part of the bare-alias disambiguation). -/
def isClauseKeyword (t : Tok) : Bool :=
  t == Tok.FROM || t == Tok.WHERE || t == Tok.GROUP || t == Tok.HAVING || t == Tok.ORDER ||
  t == Tok.LIMIT || t == Tok.OFFSET || t == Tok.UNION || t == Tok.INTERSECT || t == Tok.EXCEPT ||
  t == Tok.FOR || t == Tok.INTO || t == Tok.ON || t == Tok.USING || t == Tok.JOIN || t == Tok.INNER ||
  t == Tok.LEFT || t == Tok.RIGHT || t == Tok.FULL || t == Tok.CROSS || t == Tok.NATURAL ||
  t == Tok.AND || t == Tok.OR || t == Tok.THEN || t == Tok.ELSE || t == Tok.END || t == Tok.WHEN ||
  t == Tok.AS || t == Tok.SET || t == Tok.VALUES || t == Tok.RETURNING

/-- Digits of a decimal numeral as a number. -/
def natOfDigits (s : List Char) : Nat := s.foldl (fun n c => n * 10 + (c.toNat - 48)) 0

/-- The largest 64-bit signed integer (`int(^uint(0) >> 1)` on 64-bit Go). -/
def goMaxInt : Int := 9223372036854775807

/-- `parser.parseInt`: `strconv.ParseInt` on base-10 text, with overflow and
parse failures clamped to the maximum integer. -/
def parseIntGo (s : List Char) : Int :=
  if s != [] && s.all isDigit then
    let n : Int := natOfDigits s
    if n > goMaxInt then goMaxInt else n
  else goMaxInt

/-- `strconv.Atoi` as used for `$N` parameters: the parsed value, or 0 when
parsing fails (including 64-bit overflow). -/
def atoiGo (s : List Char) : Nat :=
  if s != [] && s.all isDigit && (natOfDigits s : Int) <= goMaxInt then natOfDigits s else 0

/-- ASCII upper-casing of one character. -/
def toUpperChar (c : Char) : Char := if 'a' <= c && c <= 'z' then Char.ofNat (c.toNat - 32) else c

/-- `strings.ToUpper` (the library only meets ASCII keywords and names). -/
def toUpperStr (s : List Char) : List Char := s.map toUpperChar

/-- `strings.ToLower` restricted to ASCII. -/
def toLowerStr (s : List Char) : List Char := s.map toLowerChar

/-- Parser state (`parser.Parser`): the lexer, accumulated errors and the
one-token buffer. -/
structure PState where
  lx : Lexer
  errors : List ParseError
  cur : Item
deriving DecidableEq, Repr

/-- `advance`: pull the next token from the lexer. -/
def PState.advance (p : PState) : PState :=
  let r := p.lx.Next
  { p with cur := r.1, lx := r.2 }

/-- `curIs`. -/
def PState.curIs (p : PState) (t : Tok) : Bool := p.cur.type == t

/-- `curIsIdent`: `IDENT` or any keyword used as an identifier. -/
def PState.curIsIdent (p : PState) : Bool := p.cur.type == Tok.IDENT || p.cur.type.IsKeyword

/-- `curIdentValue`. -/
def PState.curIdentValue (p : PState) : List Char := p.cur.value

/-- `peek`: the token `advance` would deliver next.  The Go lexer caches it
(`Peek`); the cache is observationally inert (see the Peek/Next coherence
theorem), so the embedding reads the token without updating the state. -/
def PState.peekItem (p : PState) : Item := p.lx.Peek.1

/-- `peekIs`. -/
def PState.peekIs (p : PState) (t : Tok) : Bool := p.peekItem.type == t

/-- `errorf`: record a `(position, message)` pair.  Messages are kept as the
static message text; the Go code interpolates token names, which only
affects diagnostics, never control flow. -/
def PState.errorf (p : PState) (msg : String) : PState :=
  { p with errors := p.errors ++ [{ pos := p.cur.pos, msg := msg.data }] }

/-- `expect`: consume the expected token or record an error. -/
def PState.expect (p : PState) (t : Tok) : Bool × PState :=
  if p.curIs t then (true, p.advance) else (false, p.errorf "expected token")

/-- `skipComments` (fuel-bounded loop; fuel is ample at the entry points). -/
def skipCommentsL (fuel : Nat) (p : PState) : PState :=
  match fuel with
  | 0 => p
  | fuel + 1 => if p.curIs Tok.COMMENT then skipCommentsL fuel p.advance else p

/-- `checkJoinKeyword`: `(join type, natural, is a join keyword)`. -/
def checkJoinKeyword (p : PState) : JoinType × Bool × Bool :=
  let natural := p.curIs Tok.NATURAL
  if p.curIs Tok.JOIN then (JoinType.Inner, natural, true)
  else if p.curIs Tok.INNER then (JoinType.Inner, natural, true)
  else if p.curIs Tok.LEFT then (JoinType.Left, natural, true)
  else if p.curIs Tok.RIGHT then (JoinType.Right, natural, true)
  else if p.curIs Tok.FULL then (JoinType.Full, natural, true)
  else if p.curIs Tok.CROSS then (JoinType.Cross, natural, true)
  else if p.curIs Tok.NATURAL then (JoinType.Inner, true, true)
  else if p.curIs Tok.STRAIGHT_JOIN then (JoinType.Inner, false, true)
  else if p.curIs Tok.COMMA then (JoinType.Cross, false, true)
  else (JoinType.Inner, false, false)

/-- `consumeJoinKeywords` loop. -/
def consumeJoinKeywordsL (fuel : Nat) (p : PState) : PState :=
  match fuel with
  | 0 => p
  | fuel + 1 =>
    if p.curIs Tok.NATURAL || p.curIs Tok.INNER || p.curIs Tok.LEFT ||
        p.curIs Tok.RIGHT || p.curIs Tok.FULL || p.curIs Tok.OUTER ||
        p.curIs Tok.CROSS || p.curIs Tok.JOIN || p.curIs Tok.STRAIGHT_JOIN ||
        p.curIs Tok.COMMA then
      consumeJoinKeywordsL fuel p.advance
    else p

/-- Name-collecting loop of `parseColumnNameList`. -/
def columnNamesL (fuel : Nat) (p : PState) (names : List (List Char)) :
    List (List Char) × PState :=
  match fuel with
  | 0 => (names, p)
  | fuel + 1 =>
    if !p.curIs Tok.IDENT then (names, p)
    else
      let names := names ++ [p.cur.value]
      let p := p.advance
      if !p.curIs Tok.COMMA then (names, p)
      else columnNamesL fuel p.advance names

/-- `parseColumnNameList` (entered on the `(`). -/
def parseColumnNameList (fuel : Nat) (p : PState) : List (List Char) × PState :=
  let p := p.advance
  let (names, p) := columnNamesL fuel p []
  let (_, p) := p.expect Tok.RPAREN
  (names, p)

/-- Hint-skipping loop at the head of `parseSelect`. -/
def selectHintsL (fuel : Nat) (p : PState) : PState :=
  match fuel with
  | 0 => p
  | fuel + 1 =>
    if p.curIs Tok.SQL_CALC_FOUND_ROWS || p.curIs Tok.SQL_SMALL_RESULT ||
        p.curIs Tok.SQL_BIG_RESULT || p.curIs Tok.SQL_BUFFER_RESULT ||
        p.curIs Tok.HIGH_PRIORITY || p.curIs Tok.STRAIGHT_JOIN then
      selectHintsL fuel p.advance
    else p

/-- Variable-list loop of `parseSelectInto`. -/
def selectIntoVarsL (fuel : Nat) (p : PState) (vars : List (List Char)) :
    List (List Char) × PState :=
  match fuel with
  | 0 => (vars, p)
  | fuel + 1 =>
    if p.curIs Tok.PARAM || p.curIs Tok.IDENT then
      let vars := vars ++ [p.cur.value]
      let p := p.advance
      if !p.curIs Tok.COMMA then (vars, p)
      else selectIntoVarsL fuel p.advance vars
    else (vars, p)

/-- `parseSelectInto`. -/
def parseSelectInto (fuel : Nat) (p : PState) : SelectInto × PState :=
  let p := p.advance
  if p.curIs Tok.OUTFILE then
    let p := p.advance
    if p.curIs Tok.STRING then
      ({ outfile := p.cur.value, dumpfile := [], vars := [] }, p.advance)
    else ({ outfile := [], dumpfile := [], vars := [] }, p)
  else if p.curIs Tok.IDENT && p.cur.value == "DUMPFILE".data then
    let p := p.advance
    if p.curIs Tok.STRING then
      ({ outfile := [], dumpfile := p.cur.value, vars := [] }, p.advance)
    else ({ outfile := [], dumpfile := [], vars := [] }, p)
  else
    let (vars, p) := selectIntoVarsL fuel p []
    ({ outfile := [], dumpfile := [], vars := vars }, p)

/-- `parseLockClause`. -/
def parseLockClause (p : PState) : List Char × PState :=
  let p := p.advance
  let (lock, p) : List Char × PState :=
    if p.curIs Tok.UPDATE then ("UPDATE".data, p.advance)
    else if p.curIs Tok.SHARE then ("SHARE".data, p.advance)
    else ([], p)
  if p.curIs Tok.NOWAIT then (lock ++ " NOWAIT".data, p.advance)
  else if p.curIs Tok.SKIP then
    let p := p.advance
    if p.curIs Tok.LOCKED then (lock ++ " SKIP LOCKED".data, p.advance)
    else (lock, p)
  else (lock, p)

/-- Index-name loop of `parseIndexHint`. -/
def indexHintNamesL (fuel : Nat) (p : PState) (idx : List (List Char)) :
    List (List Char) × PState :=
  match fuel with
  | 0 => (idx, p)
  | fuel + 1 =>
    if p.curIs Tok.IDENT || p.curIs Tok.PRIMARY then
      let idx := idx ++ [p.cur.value]
      let p := p.advance
      if !p.curIs Tok.COMMA then (idx, p)
      else indexHintNamesL fuel p.advance idx
    else (idx, p)

/-- `parseIndexHint`. -/
def parseIndexHint (fuel : Nat) (p : PState) : IndexHint × PState :=
  let typ : IndexHintType :=
    if p.curIs Tok.USE then .Use
    else if p.curIs Tok.FORCE then .Force
    else if p.curIs Tok.IGNORE then .Ignore
    else .Use
  let p := p.advance
  let p := if p.curIs Tok.INDEX || p.curIs Tok.KEY then p.advance else p
  let (hfor, p) : IndexHintFor × PState :=
    if p.curIs Tok.FOR then
      let p := p.advance
      if p.curIs Tok.JOIN then (.HJoin, p.advance)
      else if p.curIs Tok.ORDER then
        let p := p.advance
        let (_, p) := p.expect Tok.BY
        (.HOrderBy, p)
      else if p.curIs Tok.GROUP then
        let p := p.advance
        let (_, p) := p.expect Tok.BY
        (.HGroupBy, p)
      else (.HAll, p)
    else (.HAll, p)
  let (indexes, p) : List (List Char) × PState :=
    if p.curIs Tok.LPAREN then
      let p := p.advance
      let (idx, p) := indexHintNamesL fuel p []
      let (_, p) := p.expect Tok.RPAREN
      (idx, p)
    else ([], p)
  ({ type := typ, hfor := hfor, indexes := indexes }, p)

/-- Dotted-part loop of `parseTableName`; `none` aborts the table name. -/
def tableNameDotsL (fuel : Nat) (p : PState) (parts : List (List Char)) :
    Option (List (List Char)) × PState :=
  match fuel with
  | 0 => (some parts, p)
  | fuel + 1 =>
    if p.curIs Tok.DOT then
      let p := p.advance
      if !p.curIsIdent then (none, p.errorf "expected identifier after dot")
      else tableNameDotsL fuel p.advance (parts ++ [p.curIdentValue])
    else (some parts, p)

/-- `parseTableName`. -/
def parseTableName (fuel : Nat) (p : PState) : Option TableName × PState :=
  if !p.curIsIdent then (none, p.errorf "expected table name")
  else
    let pos := p.cur.pos
    let parts := [p.curIdentValue]
    let p := p.advance
    match tableNameDotsL fuel p parts with
    | (none, p) => (none, p)
    | (some parts, p) =>
      (some { startPos := pos, endPos := p.cur.pos, parts := parts }, p)

/-- `parseRefAction`. -/
def parseRefAction (p : PState) : RefAction × PState :=
  if p.curIs Tok.CASCADE then (.Cascade, p.advance)
  else if p.curIs Tok.RESTRICT then (.Restrict, p.advance)
  else if p.curIs Tok.SET then
    let p := p.advance
    if p.curIs Tok.NULL then (.SetNull, p.advance)
    else if p.curIs Tok.DEFAULT then (.SetDefault, p.advance)
    else (.NoAction, p)
  else if p.curIs Tok.NO then
    let p := p.advance
    let (_, p) := p.expect Tok.ACTION
    (.NoAction, p)
  else (.NoAction, p)

/-- `ON DELETE` / `ON UPDATE` loop of `parseForeignKeyRef`. -/
def fkOnL (fuel : Nat) (p : PState) (onDelete onUpdate : RefAction) :
    RefAction × RefAction × PState :=
  match fuel with
  | 0 => (onDelete, onUpdate, p)
  | fuel + 1 =>
    if p.curIs Tok.ON then
      let p := p.advance
      if p.curIs Tok.DELETE then
        let p := p.advance
        let (a, p) := parseRefAction p
        fkOnL fuel p a onUpdate
      else if p.curIs Tok.UPDATE then
        let p := p.advance
        let (a, p) := parseRefAction p
        fkOnL fuel p onDelete a
      else fkOnL fuel p onDelete onUpdate
    else (onDelete, onUpdate, p)

/-- `parseForeignKeyRef`. -/
def parseForeignKeyRef (fuel : Nat) (p : PState) : ForeignKeyRef × PState :=
  let (table, p) := parseTableName fuel p
  let (columns, p) : List (List Char) × PState :=
    if p.curIs Tok.LPAREN then parseColumnNameList fuel p else ([], p)
  let (onDelete, onUpdate, p) := fkOnL fuel p .NoAction .NoAction
  ({ table := table, columns := columns, onDelete := onDelete, onUpdate := onUpdate }, p)

/-- `parseTableOptions` loop. -/
def parseTableOptions (fuel : Nat) (p : PState) (opts : List TableOption) :
    List TableOption × PState :=
  match fuel with
  | 0 => (opts, p)
  | fuel + 1 =>
    if p.curIs Tok.ENGINE then
      let p := p.advance
      let p := if p.curIs Tok.EQ then p.advance else p
      if p.curIs Tok.IDENT then
        parseTableOptions fuel p.advance (opts ++ [{ name := "ENGINE".data, value := p.cur.value }])
      else parseTableOptions fuel p opts
    else if p.curIs Tok.CHARSET || p.curIs Tok.CHARACTER then
      let p := p.advance
      let p := if p.curIs Tok.SET then p.advance else p
      let p := if p.curIs Tok.EQ then p.advance else p
      if p.curIs Tok.IDENT then
        parseTableOptions fuel p.advance (opts ++ [{ name := "CHARSET".data, value := p.cur.value }])
      else parseTableOptions fuel p opts
    else if p.curIs Tok.COLLATE then
      let p := p.advance
      let p := if p.curIs Tok.EQ then p.advance else p
      if p.curIs Tok.IDENT then
        parseTableOptions fuel p.advance (opts ++ [{ name := "COLLATE".data, value := p.cur.value }])
      else parseTableOptions fuel p opts
    else if p.curIs Tok.COMMENT_KW then
      let p := p.advance
      let p := if p.curIs Tok.EQ then p.advance else p
      if p.curIs Tok.STRING then
        parseTableOptions fuel p.advance (opts ++ [{ name := "COMMENT".data, value := p.cur.value }])
      else parseTableOptions fuel p opts
    else if p.curIs Tok.AUTO_INCREMENT then
      let p := p.advance
      let p := if p.curIs Tok.EQ then p.advance else p
      if p.curIs Tok.INT then
        parseTableOptions fuel p.advance (opts ++ [{ name := "AUTO_INCREMENT".data, value := p.cur.value }])
      else parseTableOptions fuel p opts
    else (opts, p)

/-- Table-name loop of `parseDropTable` and `parseTruncate`. -/
def tableNamesL (fuel : Nat) (p : PState) (tables : List (Option TableName)) :
    List (Option TableName) × PState :=
  match fuel with
  | 0 => (tables, p)
  | fuel + 1 =>
    let (tn, p) := parseTableName fuel p
    let tables := tables ++ [tn]
    if !p.curIs Tok.COMMA then (tables, p)
    else tableNamesL fuel p.advance tables

/-- `parseDropTable`. -/
def parseDropTable (fuel : Nat) (pos : Pos) (p : PState) : Option Statement × PState :=
  let p := p.advance
  let (ifExists, p) : Bool × PState :=
    if p.curIs Tok.IF then
      let p := p.advance
      let (_, p) := p.expect Tok.EXISTS
      (true, p)
    else (false, p)
  let (tables, p) := tableNamesL fuel p []
  let (cascade, p) : Bool × PState :=
    if p.curIs Tok.CASCADE then (true, p.advance) else (false, p)
  let stmt : DropTableStmt :=
    { startPos := pos, endPos := p.cur.pos, ifExists := ifExists,
      tables := tables, cascade := cascade }
  (some (.DropTableS stmt), p)

/-- `parseDropIndex`. -/
def parseDropIndex (fuel : Nat) (pos : Pos) (p : PState) : Option Statement × PState :=
  let p := p.advance
  let (concurrent, p) : Bool × PState :=
    if p.curIs Tok.CONCURRENTLY then (true, p.advance) else (false, p)
  let (ifExists, p) : Bool × PState :=
    if p.curIs Tok.IF then
      let p := p.advance
      let (_, p) := p.expect Tok.EXISTS
      (true, p)
    else (false, p)
  let (name, p) : List Char × PState :=
    if p.curIs Tok.IDENT then (p.cur.value, p.advance) else ([], p)
  let (table, p) : Option TableName × PState :=
    if p.curIs Tok.ON then
      let p := p.advance
      parseTableName fuel p
    else (none, p)
  let (cascade, p) : Bool × PState :=
    if p.curIs Tok.CASCADE then (true, p.advance) else (false, p)
  let stmt : DropIndexStmt :=
    { startPos := pos, endPos := p.cur.pos, ifExists := ifExists,
      concurrent := concurrent, name := name, table := table, cascade := cascade }
  (some (.DropIndexS stmt), p)

/-- `parseDrop`. -/
def parseDrop (fuel : Nat) (p : PState) : Option Statement × PState :=
  let pos := p.cur.pos
  let p := p.advance
  if p.curIs Tok.TABLE then parseDropTable fuel pos p
  else if p.curIs Tok.INDEX then parseDropIndex fuel pos p
  else (none, p.errorf "expected TABLE or INDEX after DROP")

/-- `parseTruncate`. -/
def parseTruncate (fuel : Nat) (p : PState) : Option Statement × PState :=
  let pos := p.cur.pos
  let p := p.advance
  let p := if p.curIs Tok.TABLE then p.advance else p
  let (tables, p) := tableNamesL fuel p []
  let (cascade, p) : Bool × PState :=
    if p.curIs Tok.CASCADE then (true, p.advance) else (false, p)
  let stmt : TruncateStmt :=
    { startPos := pos, endPos := p.cur.pos, tables := tables, cascade := cascade }
  (some (.TruncateS stmt), p)

/-- Inner option loop of the PostgreSQL-style `EXPLAIN (...)` group. -/
def explainParenL (fuel : Nat) (p : PState) (analyze verbose : Bool) (format : List Char) :
    Bool × Bool × List Char × PState :=
  match fuel with
  | 0 => (analyze, verbose, format, p)
  | fuel + 1 =>
    if !p.curIs Tok.RPAREN && !p.curIs Tok.EOF then
      let (analyze, verbose, format, p) : Bool × Bool × List Char × PState :=
        if p.curIs Tok.ANALYZE then (true, verbose, format, p)
        else if p.curIs Tok.VERBOSE then (analyze, true, format, p)
        else if p.curIs Tok.FORMAT then
          let p := p.advance
          if p.curIs Tok.IDENT then (analyze, verbose, p.cur.value, p)
          else (analyze, verbose, format, p)
        else (analyze, verbose, format, p)
      let p := p.advance
      let p := if p.curIs Tok.COMMA then p.advance else p
      explainParenL fuel p analyze verbose format
    else (analyze, verbose, format, p)

/-- Option loop of `parseExplain`. -/
def explainOptsL (fuel : Nat) (p : PState) (analyze verbose : Bool) (format : List Char) :
    Bool × Bool × List Char × PState :=
  match fuel with
  | 0 => (analyze, verbose, format, p)
  | fuel + 1 =>
    if p.curIs Tok.ANALYZE then explainOptsL fuel p.advance true verbose format
    else if p.curIs Tok.VERBOSE then explainOptsL fuel p.advance analyze true format
    else if p.curIs Tok.FORMAT then
      let p := p.advance
      if p.curIs Tok.IDENT then explainOptsL fuel p.advance analyze verbose p.cur.value
      else explainOptsL fuel p analyze verbose format
    else if p.curIs Tok.LPAREN then
      let p := p.advance
      let (analyze, verbose, format, p) := explainParenL fuel p analyze verbose format
      let (_, p) := p.expect Tok.RPAREN
      explainOptsL fuel p analyze verbose format
    else (analyze, verbose, format, p)

/-- Dotted-part loop of `parseIdentifierOrFunc`: a trailing `*` yields a
qualified star, otherwise the parts of a column reference accumulate. -/
def identDotsL (fuel : Nat) (p : PState) (startPos : Pos) (parts : List (List Char))
    (endPos : Pos) : Option Expr × PState :=
  match fuel with
  | 0 => (none, p)
  | fuel + 1 =>
    if p.curIs Tok.DOT then
      let p := p.advance
      if p.curIs Tok.ASTERISK then
        let endPos := p.cur.pos
        let p := p.advance
        let tableName := parts.getLastD []
        let star : StarExpr :=
          { startPos := startPos, endPos := endPos, tableName := tableName,
            hasQualifier := true }
        (some (.Star star), p)
      else if !p.curIs Tok.IDENT && !p.cur.type.IsKeyword then
        (none, p.errorf "expected identifier after dot")
      else
        identDotsL fuel p.advance startPos (parts ++ [p.cur.value]) p.cur.pos
    else
      (some (.Col { startPos := startPos, endPos := endPos, parts := parts }), p)

/-- Qualified-column loop of `parseUpdateExprs`. -/
def updateColDotsL (fuel : Nat) (p : PState) (parts : List (List Char)) :
    List (List Char) × PState :=
  match fuel with
  | 0 => (parts, p)
  | fuel + 1 =>
    if p.curIs Tok.DOT then
      let p := p.advance
      if p.curIs Tok.IDENT then
        updateColDotsL fuel p.advance (parts ++ [p.cur.value])
      else (parts, p)
    else (parts, p)

/-- Column-list loop of `parseInsert`. -/
def insertColumnsL (fuel : Nat) (p : PState) (cols : List ColName) :
    List ColName × PState :=
  match fuel with
  | 0 => (cols, p)
  | fuel + 1 =>
    if !p.curIs Tok.IDENT then (cols, p)
    else
      let col : ColName := { startPos := p.cur.pos, endPos := p.cur.pos, parts := [p.cur.value] }
      let cols := cols ++ [col]
      let p := p.advance
      if !p.curIs Tok.COMMA then (cols, p)
      else insertColumnsL fuel p.advance cols

/-- Conflict-target loop of `parseOnConflict`. -/
def onConflictColsL (fuel : Nat) (p : PState) (cols : List (List Char)) :
    List (List Char) × PState :=
  match fuel with
  | 0 => (cols, p)
  | fuel + 1 =>
    if p.curIs Tok.IDENT then
      let cols := cols ++ [p.cur.value]
      let p := p.advance
      if !p.curIs Tok.COMMA then (cols, p)
      else onConflictColsL fuel p.advance cols
    else (cols, p)

/-- `parseLiteral`. -/
def parseLiteral (litType : LiteralType) (p : PState) : Expr × PState :=
  let lit : Literal :=
    { startPos := p.cur.pos, endPos := p.cur.pos, type := litType, value := p.cur.value }
  (.Lit lit, p.advance)

/-- `parseParam`. -/
def parseParam (p : PState) : Expr × PState :=
  let val := p.cur.value
  let pos := p.cur.pos
  let prm : Param :=
    if val == "?".data then
      { startPos := pos, endPos := pos, type := .Question, name := [], index := 0 }
    else if val.head? == some '$' then
      { startPos := pos, endPos := pos, type := .Dollar, name := [],
        index := if val.length > 1 then atoiGo (val.drop 1) else 0 }
    else if val.head? == some ':' then
      { startPos := pos, endPos := pos, type := .Colon, name := val.drop 1, index := 0 }
    else if val.head? == some '@' then
      { startPos := pos, endPos := pos, type := .At, name := val.drop 1, index := 0 }
    else
      { startPos := pos, endPos := pos, type := .Question, name := [], index := 0 }
  (.Prm prm, p.advance)

/-- `parseIsExpr`. -/
def parseIsExpr (left : Expr) (p : PState) : Expr × PState :=
  let pos := left.posOf
  let p := p.advance
  let (not, p) : Bool × PState := if p.curIs Tok.NOT then (true, p.advance) else (false, p)
  let (what, p) : IsType × PState :=
    if p.curIs Tok.NULL then (.IsNull, p)
    else if p.curIs Tok.TRUE then (.IsTrue, p)
    else if p.curIs Tok.FALSE then (.IsFalse, p)
    else if p.curIs Tok.UNKNOWN then (.IsUnknown, p)
    else (.IsNull, p.errorf "expected NULL, TRUE, FALSE, or UNKNOWN after IS")
  let p := p.advance
  (.IsE pos p.cur.pos left not what, p)

/-- `parseCollateExpr`. -/
def parseCollateExpr (left : Expr) (p : PState) : Expr × PState :=
  let p := p.advance
  let (collation, p) : List Char × PState :=
    if p.curIs Tok.IDENT || p.curIs Tok.STRING then (p.cur.value, p.advance) else ([], p)
  (.CollateE left.posOf p.cur.pos left collation, p)

/-- Modifier loop of `parseDataType`. -/
def dataTypeModsL (fuel : Nat) (p : PState) (dt : DataType) : DataType × PState :=
  match fuel with
  | 0 => (dt, p)
  | fuel + 1 =>
    if p.curIs Tok.UNSIGNED then dataTypeModsL fuel p.advance { dt with unsigned := true }
    else if p.curIs Tok.SIGNED then dataTypeModsL fuel p.advance dt
    else if p.curIs Tok.ZEROFILL then dataTypeModsL fuel p.advance dt
    else if p.curIs Tok.CHARACTER || p.curIs Tok.CHAR then
      if p.peekIs Tok.SET || p.peekIs Tok.CHARSET then
        let p := p.advance
        let p := p.advance
        if p.curIs Tok.IDENT || p.curIs Tok.STRING then
          dataTypeModsL fuel p.advance { dt with charset := p.cur.value }
        else dataTypeModsL fuel p dt
      else (dt, p)
    else if p.curIs Tok.COLLATE then
      let p := p.advance
      if p.curIs Tok.IDENT || p.curIs Tok.STRING then
        dataTypeModsL fuel p.advance { dt with collation := p.cur.value }
      else dataTypeModsL fuel p dt
    else if p.curIs Tok.ARRAY then dataTypeModsL fuel p.advance { dt with array := true }
    else if p.curIs Tok.LBRACKET then
      let p := p.advance
      let (_, p) := p.expect Tok.RBRACKET
      dataTypeModsL fuel p { dt with array := true }
    else (dt, p)

/-- `parseDataType`. -/
def parseDataType (fuel : Nat) (p : PState) : DataType × PState :=
  let dt := DataType.zero
  if p.cur.type.IsKeyword || p.curIs Tok.IDENT then
    let dt := { dt with name := p.cur.value }
    let p := p.advance
    let (dt, p) : DataType × PState :=
      if p.curIs Tok.PRECISION || p.curIs Tok.VARYING then
        ({ dt with name := dt.name ++ ' ' :: p.cur.value }, p.advance)
      else (dt, p)
    let (dt, p) : DataType × PState :=
      if p.curIs Tok.LPAREN then
        let p := p.advance
        let (dt, p) : DataType × PState :=
          if p.curIs Tok.INT then
            let n := parseIntGo p.cur.value
            let dt := { dt with length := some n }
            let p := p.advance
            if p.curIs Tok.COMMA then
              let p := p.advance
              if p.curIs Tok.INT then
                let s := parseIntGo p.cur.value
                ({ dt with precision := dt.length, scale := some s }, p.advance)
              else (dt, p)
            else (dt, p)
          else (dt, p)
        let (_, p) := p.expect Tok.RPAREN
        (dt, p)
      else (dt, p)
    dataTypeModsL fuel p dt
  else (dt, p.errorf "expected data type")

/-- `parsePostgresCast` (the `::type` postfix). -/
def parsePostgresCast (fuel : Nat) (left : Expr) (p : PState) : Expr × PState :=
  let p := p.advance
  let (dataType, p) := parseDataType fuel p
  (.CastE left.posOf p.cur.pos (some left) dataType, p)

/-- Hint loop of `parseTablePrimary`. -/
def tableHintsL (fuel : Nat) (p : PState) (hints : List IndexHint) :
    List IndexHint × PState :=
  match fuel with
  | 0 => (hints, p)
  | fuel + 1 =>
    if p.curIs Tok.USE || p.curIs Tok.FORCE || p.curIs Tok.IGNORE then
      let (h, p) := parseIndexHint fuel p
      tableHintsL fuel p (hints ++ [h])
    else (hints, p)

mutual

/-- `parseStatement`: dispatch on the leading token. -/
def parseStatement (fuel : Nat) (p : PState) : Option Statement × PState :=
  match fuel with
  | 0 => (none, p)
  | fuel + 1 =>
    if p.curIs Tok.SELECT then
      let (s, p) := parseSelect fuel p
      (s.map .SelectS, p)
    else if p.curIs Tok.INSERT || p.curIs Tok.REPLACE then
      let (s, p) := parseInsert fuel p
      (s.map .InsertS, p)
    else if p.curIs Tok.UPDATE then
      let (s, p) := parseUpdate fuel p
      (s.map .UpdateS, p)
    else if p.curIs Tok.DELETE then
      let (s, p) := parseDelete fuel p
      (s.map .DeleteS, p)
    else if p.curIs Tok.CREATE then
      parseCreate fuel p
    else if p.curIs Tok.ALTER then
      parseAlter fuel p
    else if p.curIs Tok.DROP then
      parseDrop fuel p
    else if p.curIs Tok.WITH then
      parseWith fuel p
    else if p.curIs Tok.TRUNCATE then
      parseTruncate fuel p
    else if p.curIs Tok.EXPLAIN || p.curIs Tok.ANALYZE then
      parseExplain fuel p
    else if p.curIs Tok.LPAREN then
      parseParenthesizedStatement fuel p
    else
      let p := p.errorf "unexpected token at start of statement"
      (none, p.advance)

/-- `parseWith`: a CTE prefix followed by SELECT/INSERT/UPDATE/DELETE.  A Go
nil typed pointer wrapped in the `Statement` interface becomes a plain
`none` here; every such path also records an error. -/
def parseWith (fuel : Nat) (p : PState) : Option Statement × PState :=
  match fuel with
  | 0 => (none, p)
  | fuel + 1 =>
    let (withClause, p) := parseWithClause fuel p
    let p := skipCommentsL fuel p
    if p.curIs Tok.SELECT then
      let (s, p) := parseSelect fuel p
      (s.map (fun s => .SelectS (s.setWith (some withClause))), p)
    else if p.curIs Tok.INSERT || p.curIs Tok.REPLACE then
      let (s, p) := parseInsert fuel p
      (s.map (fun s => .InsertS (s.setWith (some withClause))), p)
    else if p.curIs Tok.UPDATE then
      let (s, p) := parseUpdate fuel p
      (s.map (fun s => .UpdateS (s.setWith (some withClause))), p)
    else if p.curIs Tok.DELETE then
      let (s, p) := parseDelete fuel p
      (s.map (fun s => .DeleteS (s.setWith (some withClause))), p)
    else (none, p.errorf "expected SELECT, INSERT, UPDATE, or DELETE after WITH")

/-- `parseWithClause`. -/
def parseWithClause (fuel : Nat) (p : PState) : WithClause × PState :=
  match fuel with
  | 0 => (.mk false [], p)
  | fuel + 1 =>
    let p := p.advance
    let (recursive, p) : Bool × PState :=
      if p.curIs Tok.RECURSIVE then (true, p.advance) else (false, p)
    let (ctes, p) := withCTEsL fuel p []
    (.mk recursive ctes, p)

/-- CTE loop of `parseWithClause`. -/
def withCTEsL (fuel : Nat) (p : PState) (ctes : List CTE) : List CTE × PState :=
  match fuel with
  | 0 => (ctes, p)
  | fuel + 1 =>
    let (cte, p) := parseCTE fuel p
    let ctes := ctes ++ cte.toList
    if !p.curIs Tok.COMMA then (ctes, p)
    else withCTEsL fuel p.advance ctes

/-- `parseCTE`. -/
def parseCTE (fuel : Nat) (p : PState) : Option CTE × PState :=
  match fuel with
  | 0 => (none, p)
  | fuel + 1 =>
    if !p.curIs Tok.IDENT then (none, p.errorf "expected CTE name")
    else
      let name := p.cur.value
      let p := p.advance
      let (columns, p) : List (List Char) × PState :=
        if p.curIs Tok.LPAREN then parseColumnNameList fuel p else ([], p)
      match p.expect Tok.AS with
      | (false, p) => (none, p)
      | (true, p) =>
        match p.expect Tok.LPAREN with
        | (false, p) => (none, p)
        | (true, p) =>
          let (query, p) := parseStatement fuel p
          match p.expect Tok.RPAREN with
          | (false, p) => (none, p)
          | (true, p) => (some (.mk name columns query), p)

/-- `parseCreate`. -/
def parseCreate (fuel : Nat) (p : PState) : Option Statement × PState :=
  match fuel with
  | 0 => (none, p)
  | fuel + 1 =>
    let pos := p.cur.pos
    let p := p.advance
    let p := if p.curIs Tok.TEMPORARY || p.curIs Tok.TEMP then p.advance else p
    if p.curIs Tok.TABLE then parseCreateTable fuel pos p
    else if p.curIs Tok.INDEX || p.curIs Tok.UNIQUE then parseCreateIndex fuel pos p
    else (none, p.errorf "expected TABLE or INDEX after CREATE")

/-- `parseCreateTable`. -/
def parseCreateTable (fuel : Nat) (pos : Pos) (p : PState) : Option Statement × PState :=
  match fuel with
  | 0 => (none, p)
  | fuel + 1 =>
    let p := p.advance
    let (ifNotExists, p) : Bool × PState :=
      if p.curIs Tok.IF then
        let p := p.advance
        if p.curIs Tok.NOT then
          let p := p.advance
          if p.curIs Tok.EXISTS then (true, p.advance) else (false, p)
        else (false, p)
      else (false, p)
    let (table, p) := parseTableName fuel p
    if p.curIs Tok.AS then
      let p := p.advance
      let (asSel, p) := parseSelect fuel p
      (some (.CreateTableS (.mk pos p.cur.pos ifNotExists false table [] [] [] asSel)), p)
    else
      match p.expect Tok.LPAREN with
      | (false, p) => (none, p)
      | (true, p) =>
        let (columns, constraints, p) := createTableItemsL fuel p [] []
        let (_, p) := p.expect Tok.RPAREN
        let (options, p) := parseTableOptions fuel p []
        (some (.CreateTableS (.mk pos p.cur.pos ifNotExists false table columns constraints options none)), p)

/-- Column/constraint loop of `parseCreateTable`. -/
def createTableItemsL (fuel : Nat) (p : PState) (columns : List ColumnDef)
    (constraints : List TableConstraint) : List ColumnDef × List TableConstraint × PState :=
  match fuel with
  | 0 => (columns, constraints, p)
  | fuel + 1 =>
    if !p.curIs Tok.RPAREN && !p.curIs Tok.EOF then
      let (columns, constraints, p) : List ColumnDef × List TableConstraint × PState :=
        if p.curIs Tok.PRIMARY || p.curIs Tok.FOREIGN || p.curIs Tok.UNIQUE ||
            p.curIs Tok.CHECK || p.curIs Tok.CONSTRAINT then
          let (tc, p) := parseTableConstraint fuel p
          (columns, constraints ++ [tc], p)
        else
          let (col, p) := parseColumnDef fuel p
          (columns ++ col.toList, constraints, p)
      if !p.curIs Tok.COMMA then (columns, constraints, p)
      else createTableItemsL fuel p.advance columns constraints
    else (columns, constraints, p)

/-- `parseColumnDef`. -/
def parseColumnDef (fuel : Nat) (p : PState) : Option ColumnDef × PState :=
  match fuel with
  | 0 => (none, p)
  | fuel + 1 =>
    if !p.curIs Tok.IDENT then (none, p.errorf "expected column name")
    else
      let name := p.cur.value
      let p := p.advance
      let (ty, p) := parseDataType fuel p
      let (cons, p) := parseColumnConstraints fuel p []
      (some (.mk name ty cons), p)

/-- `parseColumnConstraints` loop. -/
def parseColumnConstraints (fuel : Nat) (p : PState) (acc : List ColumnConstraint) :
    List ColumnConstraint × PState :=
  match fuel with
  | 0 => (acc, p)
  | fuel + 1 =>
    let (name, p) : List Char × PState :=
      if p.curIs Tok.CONSTRAINT then
        let p := p.advance
        if p.curIs Tok.IDENT then (p.cur.value, p.advance) else ([], p)
      else ([], p)
    if p.curIs Tok.NOT then
      let p := p.advance
      if p.curIs Tok.NULL then
        parseColumnConstraints fuel p.advance
          (acc ++ [.mk name .NotNull true none none none none])
      else parseColumnConstraints fuel p acc
    else if p.curIs Tok.NULL then
      parseColumnConstraints fuel p.advance acc
    else if p.curIs Tok.PRIMARY then
      let p := p.advance
      let (_, p) := p.expect Tok.KEY
      parseColumnConstraints fuel p (acc ++ [.mk name .PrimaryKey false none none none none])
    else if p.curIs Tok.UNIQUE then
      parseColumnConstraints fuel p.advance (acc ++ [.mk name .Unique false none none none none])
    else if p.curIs Tok.DEFAULT then
      let p := p.advance
      let (d, p) := parseExpr fuel p
      parseColumnConstraints fuel p (acc ++ [.mk name .Default false d none none none])
    else if p.curIs Tok.CHECK then
      let p := p.advance
      let (_, p) := p.expect Tok.LPAREN
      let (chk, p) := parseExpr fuel p
      let (_, p) := p.expect Tok.RPAREN
      parseColumnConstraints fuel p (acc ++ [.mk name .Check false none chk none none])
    else if p.curIs Tok.REFERENCES then
      let p := p.advance
      let (ref, p) := parseForeignKeyRef fuel p
      parseColumnConstraints fuel p
        (acc ++ [.mk name .ForeignKey false none none (some ref) none])
    else if p.curIs Tok.AUTO_INCREMENT || p.curIs Tok.AUTOINCREMENT then
      parseColumnConstraints fuel p.advance acc
    else if p.curIs Tok.GENERATED then
      let p := p.advance
      let (c, p) := parseGeneratedConstraint fuel name p
      parseColumnConstraints fuel p (acc ++ [c])
    else (acc, p)

/-- `parseGeneratedConstraint`. -/
def parseGeneratedConstraint (fuel : Nat) (name : List Char) (p : PState) :
    ColumnConstraint × PState :=
  match fuel with
  | 0 => (.mk name .Generated false none none none none, p)
  | fuel + 1 =>
    let p := if p.curIs Tok.ALWAYS then p.advance else p
    let p := if p.curIs Tok.AS then p.advance else p
    let (_, p) := p.expect Tok.LPAREN
    let (e, p) := parseExpr fuel p
    let (_, p) := p.expect Tok.RPAREN
    let (stored, p) : Bool × PState :=
      if p.curIs Tok.STORED then (true, p.advance)
      else if p.curIs Tok.VIRTUAL then (false, p.advance)
      else (false, p)
    (.mk name .Generated false none none none (some (.mk e stored)), p)

/-- `parseTableConstraint`. -/
def parseTableConstraint (fuel : Nat) (p : PState) : TableConstraint × PState :=
  match fuel with
  | 0 => (.mk [] .PrimaryKey [] none none, p)
  | fuel + 1 =>
    let (name, p) : List Char × PState :=
      if p.curIs Tok.CONSTRAINT then
        let p := p.advance
        if p.curIs Tok.IDENT then (p.cur.value, p.advance) else ([], p)
      else ([], p)
    if p.curIs Tok.PRIMARY then
      let p := p.advance
      let (_, p) := p.expect Tok.KEY
      let (cols, p) : List (List Char) × PState :=
        if p.curIs Tok.LPAREN then parseColumnNameList fuel p else ([], p)
      (.mk name .PrimaryKey cols none none, p)
    else if p.curIs Tok.UNIQUE then
      let p := p.advance
      let p := if p.curIs Tok.KEY then p.advance else p
      let (cols, p) : List (List Char) × PState :=
        if p.curIs Tok.LPAREN then parseColumnNameList fuel p else ([], p)
      (.mk name .Unique cols none none, p)
    else if p.curIs Tok.FOREIGN then
      let p := p.advance
      let (_, p) := p.expect Tok.KEY
      let (cols, p) : List (List Char) × PState :=
        if p.curIs Tok.LPAREN then parseColumnNameList fuel p else ([], p)
      let (_, p) := p.expect Tok.REFERENCES
      let (ref, p) := parseForeignKeyRef fuel p
      (.mk name .ForeignKey cols (some ref) none, p)
    else if p.curIs Tok.CHECK then
      let p := p.advance
      let (_, p) := p.expect Tok.LPAREN
      let (chk, p) := parseExpr fuel p
      let (_, p) := p.expect Tok.RPAREN
      (.mk name .Check [] none chk, p)
    else (.mk name .PrimaryKey [] none none, p)

/-- `parseCreateIndex`. -/
def parseCreateIndex (fuel : Nat) (pos : Pos) (p : PState) : Option Statement × PState :=
  match fuel with
  | 0 => (none, p)
  | fuel + 1 =>
    let (unique, p) : Bool × PState :=
      if p.curIs Tok.UNIQUE then (true, p.advance) else (false, p)
    let (_, p) := p.expect Tok.INDEX
    let (concurrent, p) : Bool × PState :=
      if p.curIs Tok.CONCURRENTLY then (true, p.advance) else (false, p)
    let (ifNotExists, p) : Bool × PState :=
      if p.curIs Tok.IF then
        let p := p.advance
        if p.curIs Tok.NOT then
          let p := p.advance
          if p.curIs Tok.EXISTS then (true, p.advance) else (false, p)
        else (false, p)
      else (false, p)
    let (name, p) : List Char × PState :=
      if p.curIs Tok.IDENT then (p.cur.value, p.advance) else ([], p)
    let (_, p) := p.expect Tok.ON
    let (table, p) := parseTableName fuel p
    let (usingS, p) : List Char × PState :=
      if p.curIs Tok.USING then
        let p := p.advance
        if p.curIs Tok.IDENT then (p.cur.value, p.advance) else ([], p)
      else ([], p)
    let (_, p) := p.expect Tok.LPAREN
    match createIndexColsL fuel p [] with
    | (none, p) => (none, p)
    | (some columns, p) =>
      let (_, p) := p.expect Tok.RPAREN
      let (whereE, p) : Option Expr × PState :=
        if p.curIs Tok.WHERE then
          let p := p.advance
          parseExpr fuel p
        else (none, p)
      (some (.CreateIndexS (.mk pos p.cur.pos ifNotExists unique concurrent name table columns usingS whereE)), p)

/-- Column loop of `parseCreateIndex`; `none` aborts the statement. -/
def createIndexColsL (fuel : Nat) (p : PState) (cols : List IndexColumn) :
    Option (List IndexColumn) × PState :=
  match fuel with
  | 0 => (some cols, p)
  | fuel + 1 =>
    if !p.curIs Tok.RPAREN && !p.curIs Tok.EOF then
      let (col, p) : Option IndexColumn × PState :=
        if p.curIsIdent then
          (some (.mk p.curIdentValue none false []), p.advance)
        else if p.curIs Tok.LPAREN then
          let (e, p) := parseExpr fuel p
          (some (.mk [] e false []), p)
        else (none, p.errorf "expected column name or expression")
      match col with
      | none => (none, p)
      | some col =>
        let (col, p) : IndexColumn × PState :=
          if p.curIs Tok.DESC then
            (match col with | .mk c e _ n => (.mk c e true n, p.advance))
          else if p.curIs Tok.ASC then (col, p.advance)
          else (col, p)
        let (col, p) : IndexColumn × PState :=
          if p.curIs Tok.NULLS then
            let p := p.advance
            if p.curIs Tok.FIRST then
              (match col with | .mk c e d _ => (.mk c e d "FIRST".data, p.advance))
            else if p.curIs Tok.LAST then
              (match col with | .mk c e d _ => (.mk c e d "LAST".data, p.advance))
            else (col, p)
          else (col, p)
        let cols := cols ++ [col]
        if !p.curIs Tok.COMMA then (some cols, p)
        else createIndexColsL fuel p.advance cols
    else (some cols, p)

/-- `parseAlter`. -/
def parseAlter (fuel : Nat) (p : PState) : Option Statement × PState :=
  match fuel with
  | 0 => (none, p)
  | fuel + 1 =>
    let pos := p.cur.pos
    let p := p.advance
    if !p.curIs Tok.TABLE then (none, p.errorf "expected TABLE after ALTER")
    else
      let p := p.advance
      let (table, p) := parseTableName fuel p
      let (actions, p) := alterActionsL fuel p []
      (some (.AlterTableS (.mk pos p.cur.pos table actions)), p)

/-- Action loop of `parseAlter`. -/
def alterActionsL (fuel : Nat) (p : PState) (actions : List AlterTableAction) :
    List AlterTableAction × PState :=
  match fuel with
  | 0 => (actions, p)
  | fuel + 1 =>
    let (action, p) := parseAlterTableAction fuel p
    let actions := actions ++ action.toList
    if !p.curIs Tok.COMMA then (actions, p)
    else alterActionsL fuel p.advance actions

/-- `parseAlterTableAction`. -/
def parseAlterTableAction (fuel : Nat) (p : PState) : Option AlterTableAction × PState :=
  match fuel with
  | 0 => (none, p)
  | fuel + 1 =>
    if p.curIs Tok.ADD then
      let p := p.advance
      let p := if p.curIs Tok.COLUMN then p.advance else p
      if p.curIs Tok.CONSTRAINT || p.curIs Tok.PRIMARY || p.curIs Tok.FOREIGN ||
          p.curIs Tok.UNIQUE || p.curIs Tok.CHECK then
        let (tc, p) := parseTableConstraint fuel p
        (some (.AddConstr tc), p)
      else
        let (col, p) := parseColumnDef fuel p
        (some (.AddCol col), p)
    else if p.curIs Tok.DROP then
      let p := p.advance
      if p.curIs Tok.COLUMN then
        let p := p.advance
        let (ifExists, p) : Bool × PState :=
          if p.curIs Tok.IF then
            let p := p.advance
            let (_, p) := p.expect Tok.EXISTS
            (true, p)
          else (false, p)
        let (name, p) : List Char × PState :=
          if p.curIsIdent then (p.curIdentValue, p.advance) else ([], p)
        let (cascade, p) : Bool × PState :=
          if p.curIs Tok.CASCADE then (true, p.advance) else (false, p)
        (some (.DropCol name ifExists cascade), p)
      else if p.curIs Tok.CONSTRAINT then
        let p := p.advance
        let (ifExists, p) : Bool × PState :=
          if p.curIs Tok.IF then
            let p := p.advance
            let (_, p) := p.expect Tok.EXISTS
            (true, p)
          else (false, p)
        let (name, p) : List Char × PState :=
          if p.curIsIdent then (p.curIdentValue, p.advance) else ([], p)
        let (cascade, p) : Bool × PState :=
          if p.curIs Tok.CASCADE then (true, p.advance) else (false, p)
        (some (.DropConstr name ifExists cascade), p)
      else (none, p)
    else if p.curIs Tok.RENAME then
      let p := p.advance
      if p.curIs Tok.COLUMN then
        let p := p.advance
        let (oldName, p) : List Char × PState :=
          if p.curIsIdent then (p.curIdentValue, p.advance) else ([], p)
        let (_, p) := p.expect Tok.TO
        let (newName, p) : List Char × PState :=
          if p.curIsIdent then (p.curIdentValue, p.advance) else ([], p)
        (some (.RenameCol oldName newName), p)
      else if p.curIs Tok.TO then
        let p := p.advance
        let (tn, p) := parseTableName fuel p
        (some (.RenameTbl tn), p)
      else (none, p)
    else if p.curIs Tok.MODIFY || p.curIs Tok.ALTER then
      let p := p.advance
      let p := if p.curIs Tok.COLUMN then p.advance else p
      let (name, p) : List Char × PState :=
        if p.curIsIdent then (p.curIdentValue, p.advance) else ([], p)
      if p.curIs Tok.SET then
        let p := p.advance
        if p.curIs Tok.NOT then
          let p := p.advance
          let (_, p) := p.expect Tok.NULL
          (some (.ModifyCol name none none false true false), p)
        else if p.curIs Tok.DEFAULT then
          let p := p.advance
          let (d, p) := parseExpr fuel p
          (some (.ModifyCol name none d false false false), p)
        else (some (.ModifyCol name none none false false false), p)
      else if p.curIs Tok.DROP then
        let p := p.advance
        if p.curIs Tok.NOT then
          let p := p.advance
          let (_, p) := p.expect Tok.NULL
          (some (.ModifyCol name none none false false true), p)
        else if p.curIs Tok.DEFAULT then
          let p := p.advance
          (some (.ModifyCol name none none true false false), p)
        else (some (.ModifyCol name none none false false false), p)
      else
        let (ty, p) := parseDataType fuel p
        let (cons, p) := parseColumnConstraints fuel p []
        (some (.ModifyCol name (some (.mk name ty cons)) none false false false), p)
    else (none, p)

/-- `parseParenthesizedStatement`. -/
def parseParenthesizedStatement (fuel : Nat) (p : PState) : Option Statement × PState :=
  match fuel with
  | 0 => (none, p)
  | fuel + 1 =>
    let pos := p.cur.pos
    let p := p.advance
    match parseStatement fuel p with
    | (none, p) => (none, p)
    | (some inner, p) =>
      match p.expect Tok.RPAREN with
      | (false, p) => (none, p)
      | (true, p) =>
        match inner with
        | .SelectS sel =>
          if p.curIs Tok.UNION || p.curIs Tok.INTERSECT || p.curIs Tok.EXCEPT then
            let (sel, p) := parseSetOp fuel sel p
            (some (.SelectS sel), p)
          else
            match sel with
            | .mk _ _ w d c f wh g hv ob0 l0 lk i wd =>
              let (ob, p) : List OrderByExpr × PState :=
                if p.curIs Tok.ORDER then parseOrderBy fuel p else (ob0, p)
              let (lim, p) : Option Limit × PState :=
                if p.curIs Tok.LIMIT then
                  let (l, p) := parseLimit fuel p
                  (some l, p)
                else (l0, p)
              (some (.SelectS (.mk pos p.cur.pos w d c f wh g hv ob lim lk i wd)), p)
        | _ => (some inner, p)

/-- `parseExplain`. -/
def parseExplain (fuel : Nat) (p : PState) : Option Statement × PState :=
  match fuel with
  | 0 => (none, p)
  | fuel + 1 =>
    let pos := p.cur.pos
    let p := if p.curIs Tok.EXPLAIN then p.advance else p
    let (analyze, verbose, format, p) := explainOptsL fuel p false false []
    let (stmt, p) := parseStatement fuel p
    (some (.ExplainS (.mk pos p.cur.pos analyze verbose format stmt)), p)

/-- `parseSelect` (`part_005`): clauses in source order, then the trailing
set-operation check. -/
def parseSelect (fuel : Nat) (p : PState) : Option SelectStmt × PState :=
  match fuel with
  | 0 => (none, p)
  | fuel + 1 =>
    let pos := p.cur.pos
    match p.expect Tok.SELECT with
    | (false, p) => (none, p)
    | (true, p) =>
      let p := selectHintsL fuel p
      let (distinct, p) : Bool × PState :=
        if p.curIs Tok.DISTINCT then (true, p.advance)
        else if p.curIs Tok.ALL then (false, p.advance)
        else (false, p)
      let (columns, p) := parseSelectExprs fuel p []
      let (into, p) : Option SelectInto × PState :=
        if p.curIs Tok.INTO then
          let (i, p) := parseSelectInto fuel p
          (some i, p)
        else (none, p)
      let (fromE, p) : Option TableExpr × PState :=
        if p.curIs Tok.FROM then
          let p := p.advance
          parseTableExpr fuel p
        else (none, p)
      let (whereE, p) : Option Expr × PState :=
        if p.curIs Tok.WHERE then
          let p := p.advance
          parseExpr fuel p
        else (none, p)
      match
        (if p.curIs Tok.GROUP then
          let p := p.advance
          match p.expect Tok.BY with
          | (false, p) => (none, p)
          | (true, p) =>
            let (g, p) := parseExprList fuel p []
            (some g, p)
        else (some [], p) : Option (List Expr) × PState)
      with
      | (none, p) => (none, p)
      | (some groupBy, p) =>
        let (having, p) : Option Expr × PState :=
          if p.curIs Tok.HAVING then
            let p := p.advance
            parseExpr fuel p
          else (none, p)
        let (windowDefs, p) : List WindowDef × PState :=
          if p.curIs Tok.WINDOW then parseWindowDefs fuel p else ([], p)
        let (orderBy, p) : List OrderByExpr × PState :=
          if p.curIs Tok.ORDER then parseOrderBy fuel p else ([], p)
        let (limit, p) : Option Limit × PState :=
          if p.curIs Tok.LIMIT then
            let (l, p) := parseLimit fuel p
            (some l, p)
          else (none, p)
        let (limit, p) : Option Limit × PState :=
          if p.curIs Tok.OFFSET && limit.isNone then
            let startPos := p.cur.pos
            let p := p.advance
            let (off, p) := parseExpr fuel p
            (some (.mk startPos p.cur.pos none off), p)
          else (limit, p)
        let (limit, p) : Option Limit × PState :=
          if p.curIs Tok.FETCH then
            let limit := match limit with
              | none => Limit.mk p.cur.pos Pos.zero none none
              | some l => l
            let p := p.advance
            let p := if p.curIs Tok.FIRST || p.curIs Tok.NEXT then p.advance else p
            let (count, p) := parseExpr fuel p
            let p := if p.curIs Tok.ROW || p.curIs Tok.ROWS then p.advance else p
            let p := if p.curIs Tok.ONLY then p.advance else p
            match limit with
            | .mk sp _ _ off => (some (.mk sp p.cur.pos count off), p)
          else (limit, p)
        let (lock, p) : List Char × PState :=
          if p.curIs Tok.FOR then parseLockClause p else ([], p)
        let stmt : SelectStmt :=
          .mk pos p.cur.pos none distinct columns fromE whereE groupBy having orderBy
            limit lock into windowDefs
        if p.curIs Tok.UNION || p.curIs Tok.INTERSECT || p.curIs Tok.EXCEPT then
          let (stmt, p) := parseSetOp fuel stmt p
          (some stmt, p)
        else (some stmt, p)

/-- `parseSetOp`: the source parses the right-hand sides of a
`UNION|INTERSECT|EXCEPT` chain and returns the LEFT select unchanged — the
right operands are discarded (the code comment calls this a simplification). -/
def parseSetOp (fuel : Nat) (left : SelectStmt) (p : PState) : SelectStmt × PState :=
  match fuel with
  | 0 => (left, p)
  | fuel + 1 =>
    if p.curIs Tok.UNION || p.curIs Tok.INTERSECT || p.curIs Tok.EXCEPT then
      let p := p.advance
      let p := if p.curIs Tok.ALL || p.curIs Tok.DISTINCT then p.advance else p
      if p.curIs Tok.LPAREN then
        let p := p.advance
        let (_, p) := parseSelect fuel p
        let (_, p) := p.expect Tok.RPAREN
        parseSetOp fuel left p
      else
        let (_, p) := parseSelect fuel p
        parseSetOp fuel left p
    else (left, p)

/-- `parseSelectExprs` loop. -/
def parseSelectExprs (fuel : Nat) (p : PState) (exprs : List SelectExpr) :
    List SelectExpr × PState :=
  match fuel with
  | 0 => (exprs, p)
  | fuel + 1 =>
    match parseSelectExpr fuel p with
    | (none, p) => (exprs, p)
    | (some e, p) =>
      let exprs := exprs ++ [e]
      if !p.curIs Tok.COMMA then (exprs, p)
      else parseSelectExprs fuel p.advance exprs

/-- `parseSelectExpr`. -/
def parseSelectExpr (fuel : Nat) (p : PState) : Option SelectExpr × PState :=
  match fuel with
  | 0 => (none, p)
  | fuel + 1 =>
    let p := skipCommentsL fuel p
    let pos := p.cur.pos
    if p.curIs Tok.ASTERISK then
      let p := p.advance
      (some (.StarSel { startPos := pos, endPos := pos, tableName := [], hasQualifier := false }), p)
    else
      match parseExpr fuel p with
      | (none, p) => (none, p)
      | (some expr, p) =>
        match expr with
        | .Star s => (some (.StarSel s), p)
        | _ =>
          let (aliasName?, p) : Option (List Char) × PState :=
            if p.curIs Tok.AS then
              let p := p.advance
              if !p.curIs Tok.IDENT && !p.curIs Tok.STRING then
                (none, p.errorf "expected alias after AS")
              else (some p.cur.value, p.advance)
            else if p.curIs Tok.IDENT then
              if !isClauseKeyword p.cur.type then (some p.cur.value, p.advance)
              else (some [], p)
            else (some [], p)
          match aliasName? with
          | none => (none, p)
          | some aliasName => (some (.Aliased pos p.cur.pos expr aliasName), p)

/-- `parseTableExpr`: leftmost primary, then the join loop. -/
def parseTableExpr (fuel : Nat) (p : PState) : Option TableExpr × PState :=
  match fuel with
  | 0 => (none, p)
  | fuel + 1 =>
    match parseTablePrimary fuel p with
    | (none, p) => (none, p)
    | (some left, p) =>
      let (t, p) := tableJoinsL fuel left p
      (some t, p)

/-- Join loop of `parseTableExpr`. -/
def tableJoinsL (fuel : Nat) (left : TableExpr) (p : PState) : TableExpr × PState :=
  match fuel with
  | 0 => (left, p)
  | fuel + 1 =>
    let (joinType, natural, hasJoin) := checkJoinKeyword p
    if !hasJoin then (left, p)
    else
      let startPos := p.cur.pos
      let p := consumeJoinKeywordsL fuel p
      let (lateral, p) : Bool × PState :=
        if p.curIs Tok.LATERAL then (true, p.advance) else (false, p)
      let (right, p) := parseTablePrimary fuel p
      let (onE, usingS, p) : Option Expr × List (List Char) × PState :=
        if joinType != JoinType.Cross && !natural then
          if p.curIs Tok.ON then
            let p := p.advance
            let (e, p) := parseExpr fuel p
            (e, [], p)
          else if p.curIs Tok.USING then
            let p := p.advance
            let (u, p) := parseColumnNameList fuel p
            (none, u, p)
          else (none, [], p)
        else (none, [], p)
      let join : TableExpr :=
        .JoinE startPos p.cur.pos joinType (some left) right onE usingS natural lateral
      tableJoinsL fuel join p

/-- `parseTablePrimary`. -/
def parseTablePrimary (fuel : Nat) (p : PState) : Option TableExpr × PState :=
  match fuel with
  | 0 => (none, p)
  | fuel + 1 =>
    let (lateral, p) : Bool × PState :=
      if p.curIs Tok.LATERAL then (true, p.advance) else (false, p)
    let (expr?, p) : Option TableExpr × PState :=
      if p.curIs Tok.LPAREN then
        let pos := p.cur.pos
        let p := p.advance
        if p.curIs Tok.SELECT || p.curIs Tok.WITH then
          let (stmt, p) : Option Statement × PState :=
            if p.curIs Tok.WITH then parseWith fuel p
            else
              let (s, p) := parseSelect fuel p
              (s.map .SelectS, p)
          match stmt with
          | none => (none, p)
          | some stmt =>
            match p.expect Tok.RPAREN with
            | (false, p) => (none, p)
            | (true, p) =>
              match stmt with
              | .SelectS sel => (some (.SubT (.mk pos p.cur.pos sel)), p)
              | _ => (none, p.errorf "expected SELECT statement in subquery")
        else
          let pos := pos
          let (inner, p) := parseTableExpr fuel p
          match p.expect Tok.RPAREN with
          | (false, p) => (none, p)
          | (true, p) => (some (.ParenT pos p.cur.pos inner), p)
      else if p.curIsIdent then
        let (tn, p) := parseTableName fuel p
        match tn with
        | none => (none, p)
        | some tn => (some (.TName tn), p)
      else if p.curIs Tok.VALUES then
        let (v, p) := parseValuesClause fuel p
        (some (.ValuesT v), p)
      else (none, p.errorf "expected table name or subquery")
    match expr? with
    | none => (none, p)
    | some expr =>
      let p := if p.curIs Tok.AS then p.advance else p
      let (aliasName, p) : List Char × PState :=
        if p.curIs Tok.IDENT && !isClauseKeyword p.cur.type then (p.cur.value, p.advance)
        else ([], p)
      let (_colAliases, p) : List (List Char) × PState :=
        if p.curIs Tok.LPAREN then parseColumnNameList fuel p else ([], p)
      let (hints, p) := tableHintsL fuel p []
      if aliasName != [] || hints.length > 0 || lateral then
        let expr := if lateral then
            match expr with
            | .JoinE sp ep t l r onE u nat _ => .JoinE sp ep t l r onE u nat true
            | e => e
          else expr
        (some (.ATE expr.posOf p.cur.pos expr aliasName hints), p)
      else (some expr, p)

/-- `parseValuesClause`. -/
def parseValuesClause (fuel : Nat) (p : PState) : ValuesStmt × PState :=
  match fuel with
  | 0 => (.mk Pos.zero Pos.zero [], p)
  | fuel + 1 =>
    let pos := p.cur.pos
    let p := p.advance
    let (rows, p) := valuesClauseRowsL fuel p []
    (.mk pos p.cur.pos rows, p)

/-- Row loop of `parseValuesClause`. -/
def valuesClauseRowsL (fuel : Nat) (p : PState) (rows : List (List Expr)) :
    List (List Expr) × PState :=
  match fuel with
  | 0 => (rows, p)
  | fuel + 1 =>
    match p.expect Tok.LPAREN with
    | (false, p) => (rows, p)
    | (true, p) =>
      let (row, p) := valuesClauseRowExprsL fuel p []
      let rows := rows ++ [row]
      match p.expect Tok.RPAREN with
      | (false, p) => (rows, p)
      | (true, p) =>
        if !p.curIs Tok.COMMA then (rows, p)
        else valuesClauseRowsL fuel p.advance rows

/-- Expression loop inside one `VALUES` row of `parseValuesClause`. -/
def valuesClauseRowExprsL (fuel : Nat) (p : PState) (row : List Expr) :
    List Expr × PState :=
  match fuel with
  | 0 => (row, p)
  | fuel + 1 =>
    match parseExpr fuel p with
    | (none, p) => (row, p)
    | (some e, p) =>
      let row := row ++ [e]
      if !p.curIs Tok.COMMA then (row, p)
      else valuesClauseRowExprsL fuel p.advance row

/-- `parseOrderBy`. -/
def parseOrderBy (fuel : Nat) (p : PState) : List OrderByExpr × PState :=
  match fuel with
  | 0 => ([], p)
  | fuel + 1 =>
    let p := p.advance
    match p.expect Tok.BY with
    | (false, p) => ([], p)
    | (true, p) => orderByItemsL fuel p []

/-- Item loop of `parseOrderBy`. -/
def orderByItemsL (fuel : Nat) (p : PState) (items : List OrderByExpr) :
    List OrderByExpr × PState :=
  match fuel with
  | 0 => (items, p)
  | fuel + 1 =>
    let pos := p.cur.pos
    match parseExpr fuel p with
    | (none, p) => (items, p)
    | (some e, p) =>
      let (desc, p) : Bool × PState :=
        if p.curIs Tok.ASC then (false, p.advance)
        else if p.curIs Tok.DESC then (true, p.advance)
        else (false, p)
      let (nullsFirst, p) : Option Bool × PState :=
        if p.curIs Tok.NULLS then
          let p := p.advance
          if p.curIs Tok.FIRST then (some true, p.advance)
          else if p.curIs Tok.LAST then (some false, p.advance)
          else (none, p)
        else (none, p)
      let items := items ++ [.mk pos p.cur.pos e desc nullsFirst]
      if !p.curIs Tok.COMMA then (items, p)
      else orderByItemsL fuel p.advance items

/-- `parseLimit`. -/
def parseLimit (fuel : Nat) (p : PState) : Limit × PState :=
  match fuel with
  | 0 => (.mk Pos.zero Pos.zero none none, p)
  | fuel + 1 =>
    let pos := p.cur.pos
    let p := p.advance
    let (count, p) := parseExpr fuel p
    let (count, offset, p) : Option Expr × Option Expr × PState :=
      if p.curIs Tok.OFFSET then
        let p := p.advance
        let (off, p) := parseExpr fuel p
        (count, off, p)
      else if p.curIs Tok.COMMA then
        let p := p.advance
        let (c2, p) := parseExpr fuel p
        (c2, count, p)
      else (count, none, p)
    (.mk pos p.cur.pos count offset, p)

/-- `parseWindowDefs`. -/
def parseWindowDefs (fuel : Nat) (p : PState) : List WindowDef × PState :=
  match fuel with
  | 0 => ([], p)
  | fuel + 1 => windowDefsL fuel p.advance []

/-- Definition loop of `parseWindowDefs`. -/
def windowDefsL (fuel : Nat) (p : PState) (defs : List WindowDef) :
    List WindowDef × PState :=
  match fuel with
  | 0 => (defs, p)
  | fuel + 1 =>
    if !p.curIs Tok.IDENT then (defs, p)
    else
      let name := p.cur.value
      let p := p.advance
      match p.expect Tok.AS with
      | (false, p) => (defs, p)
      | (true, p) =>
        let (spec, p) := parseWindowSpec fuel p
        let defs := defs ++ [.mk name spec]
        if !p.curIs Tok.COMMA then (defs, p)
        else windowDefsL fuel p.advance defs

/-- `parseInsert` (`part_001`). -/
def parseInsert (fuel : Nat) (p : PState) : Option InsertStmt × PState :=
  match fuel with
  | 0 => (none, p)
  | fuel + 1 =>
    let pos := p.cur.pos
    let replace := p.curIs Tok.REPLACE
    let p := p.advance
    let (ignore, p) : Bool × PState :=
      if p.curIs Tok.IGNORE then (true, p.advance) else (false, p)
    match p.expect Tok.INTO with
    | (false, p) => (none, p)
    | (true, p) =>
      let (table, p) := parseTableName fuel p
      let (columns, p) : List ColName × PState :=
        if p.curIs Tok.LPAREN && !p.peekIs Tok.SELECT then
          let p := p.advance
          let (cols, p) := insertColumnsL fuel p []
          let (_, p) := p.expect Tok.RPAREN
          (cols, p)
        else ([], p)
      match parseInsertSource fuel columns p with
      | (none, p) => (none, p)
      | (some (columns, values, select), p) =>
        let (onDup, p) : List UpdateExpr × PState :=
          if p.curIs Tok.ON then
            let p := p.advance
            if p.curIs Tok.DUPLICATE then
              let p := p.advance
              let (_, p) := p.expect Tok.KEY
              let (_, p) := p.expect Tok.UPDATE
              parseUpdateExprs fuel p []
            else ([], p)
          else ([], p)
        let (onConflict, p) : Option OnConflict × PState :=
          if p.curIs Tok.CONFLICT || (p.curIs Tok.ON && p.peekIs Tok.CONFLICT) then
            let p := if p.curIs Tok.ON then p.advance else p
            let (c, p) := parseOnConflict fuel p
            (some c, p)
          else (none, p)
        let (returning, p) : List SelectExpr × PState :=
          if p.curIs Tok.RETURNING then
            let p := p.advance
            parseSelectExprs fuel p []
          else ([], p)
        (some (.mk pos p.cur.pos none replace ignore table columns values select
            onDup onConflict returning), p)

/-- The `VALUES | SELECT | WITH | SET | DEFAULT VALUES` source alternatives
of `parseInsert`, returning the final columns, rows and select source. -/
def parseInsertSource (fuel : Nat) (columns : List ColName) (p : PState) :
    Option (List ColName × List (List Expr) × Option SelectStmt) × PState :=
  match fuel with
  | 0 => (none, p)
  | fuel + 1 =>
    if p.curIs Tok.VALUES || p.curIs Tok.VALUE then
      let p := p.advance
      let (rows, p) := parseValuesList fuel p []
      (some (columns, rows, (none : Option SelectStmt)), p)
    else if p.curIs Tok.SELECT || p.curIs Tok.WITH then
      let (innerStmt, p) : Option Statement × PState :=
        if p.curIs Tok.WITH then parseWith fuel p
        else
          let (s, p) := parseSelect fuel p
          (s.map .SelectS, p)
      match innerStmt with
      | none => (none, p)
      | some (.SelectS sel) => (some (columns, [], some sel), p)
      | some _ => (none, p.errorf "expected SELECT statement")
    else if p.curIs Tok.SET then
      let p := p.advance
      if !p.curIsIdent then (none, p.errorf "expected column name after SET")
      else
        match insertSetL fuel p columns [] with
        | (none, p) => (none, p)
        | (some (cols, row), p) => (some (cols, [row], none), p)
    else if p.curIs Tok.DEFAULT then
      let p := p.advance
      let (_, p) := p.expect Tok.VALUES
      (some (columns, [[]], none), p)
    else (some (columns, [], none), p)

/-- Assignment loop of the MySQL `INSERT ... SET` form; `none` aborts. -/
def insertSetL (fuel : Nat) (p : PState) (cols : List ColName) (row : List Expr) :
    Option (List ColName × List Expr) × PState :=
  match fuel with
  | 0 => (some (cols, row), p)
  | fuel + 1 =>
    if !p.curIsIdent then (some (cols, row), p)
    else
      let colName := p.curIdentValue
      let p := p.advance
      match p.expect Tok.EQ with
      | (false, p) => (none, p)
      | (true, p) =>
        match parseExpr fuel p with
        | (none, p) => (none, p)
        | (some val, p) =>
          let cols := cols ++ [{ startPos := Pos.zero, endPos := Pos.zero, parts := [colName] }]
          let row := row ++ [val]
          if !p.curIs Tok.COMMA then (some (cols, row), p)
          else insertSetL fuel p.advance cols row

/-- `parseValuesList` row loop. -/
def parseValuesList (fuel : Nat) (p : PState) (rows : List (List Expr)) :
    List (List Expr) × PState :=
  match fuel with
  | 0 => (rows, p)
  | fuel + 1 =>
    if !p.curIs Tok.LPAREN then (rows, p)
    else
      let p := p.advance
      let (row, p) := valuesListRowL fuel p []
      let rows := rows ++ [row]
      let (_, p) := p.expect Tok.RPAREN
      if !p.curIs Tok.COMMA then (rows, p)
      else parseValuesList fuel p.advance rows

/-- Value loop inside one `VALUES` row of `parseValuesList`; a bare
`DEFAULT` becomes a null literal with the text `DEFAULT`. -/
def valuesListRowL (fuel : Nat) (p : PState) (row : List Expr) : List Expr × PState :=
  match fuel with
  | 0 => (row, p)
  | fuel + 1 =>
    let (e?, p) : Option Expr × PState :=
      if p.curIs Tok.DEFAULT then
        let lit : Literal :=
          { startPos := p.cur.pos, endPos := p.cur.pos, type := .Null, value := "DEFAULT".data }
        (some (.Lit lit), p.advance)
      else parseExpr fuel p
    match e? with
    | none => (row, p)
    | some e =>
      let row := row ++ [e]
      if !p.curIs Tok.COMMA then (row, p)
      else valuesListRowL fuel p.advance row

/-- `parseOnConflict`. -/
def parseOnConflict (fuel : Nat) (p : PState) : OnConflict × PState :=
  match fuel with
  | 0 => (.mk [] none false [], p)
  | fuel + 1 =>
    let p := p.advance
    let (columns, p) : List (List Char) × PState :=
      if p.curIs Tok.LPAREN then
        let p := p.advance
        let (cols, p) := onConflictColsL fuel p []
        let (_, p) := p.expect Tok.RPAREN
        (cols, p)
      else ([], p)
    let (whereE, p) : Option Expr × PState :=
      if p.curIs Tok.WHERE then
        let p := p.advance
        parseExpr fuel p
      else (none, p)
    let (_, p) := p.expect Tok.DO
    if p.curIs Tok.NOTHING then
      (.mk columns whereE true [], p.advance)
    else if p.curIs Tok.UPDATE then
      let p := p.advance
      let (_, p) := p.expect Tok.SET
      let (updates, p) := parseUpdateExprs fuel p []
      (.mk columns whereE false updates, p)
    else (.mk columns whereE false [], p)

/-- `parseUpdate`. -/
def parseUpdate (fuel : Nat) (p : PState) : Option UpdateStmt × PState :=
  match fuel with
  | 0 => (none, p)
  | fuel + 1 =>
    let pos := p.cur.pos
    let p := p.advance
    let (table, p) := parseTableExpr fuel p
    match p.expect Tok.SET with
    | (false, p) => (none, p)
    | (true, p) =>
      let (set, p) := parseUpdateExprs fuel p []
      let (fromE, p) : Option TableExpr × PState :=
        if p.curIs Tok.FROM then
          let p := p.advance
          parseTableExpr fuel p
        else (none, p)
      let (whereE, p) : Option Expr × PState :=
        if p.curIs Tok.WHERE then
          let p := p.advance
          parseExpr fuel p
        else (none, p)
      let (orderBy, p) : List OrderByExpr × PState :=
        if p.curIs Tok.ORDER then parseOrderBy fuel p else ([], p)
      let (limit, p) : Option Limit × PState :=
        if p.curIs Tok.LIMIT then
          let (l, p) := parseLimit fuel p
          (some l, p)
        else (none, p)
      let (returning, p) : List SelectExpr × PState :=
        if p.curIs Tok.RETURNING then
          let p := p.advance
          parseSelectExprs fuel p []
        else ([], p)
      (some (.mk pos p.cur.pos none table set fromE whereE orderBy limit returning), p)

/-- `parseUpdateExprs` loop. -/
def parseUpdateExprs (fuel : Nat) (p : PState) (exprs : List UpdateExpr) :
    List UpdateExpr × PState :=
  match fuel with
  | 0 => (exprs, p)
  | fuel + 1 =>
    if !p.curIs Tok.IDENT then (exprs, p)
    else
      let startPos := p.cur.pos
      let parts := [p.cur.value]
      let p := p.advance
      let (parts, p) := updateColDotsL fuel p parts
      let col : ColName := { startPos := startPos, endPos := p.cur.pos, parts := parts }
      let (_, p) := p.expect Tok.EQ
      let (e, p) := parseExpr fuel p
      let exprs := exprs ++ [.mk col e]
      if !p.curIs Tok.COMMA then (exprs, p)
      else parseUpdateExprs fuel p.advance exprs

/-- `parseDelete`. -/
def parseDelete (fuel : Nat) (p : PState) : Option DeleteStmt × PState :=
  match fuel with
  | 0 => (none, p)
  | fuel + 1 =>
    let pos := p.cur.pos
    let p := p.advance
    let p := if p.curIs Tok.FROM then p.advance else p
    let (table, p) := parseTableExpr fuel p
    let (usingE, p) : Option TableExpr × PState :=
      if p.curIs Tok.USING then
        let p := p.advance
        parseTableExpr fuel p
      else (none, p)
    let (whereE, p) : Option Expr × PState :=
      if p.curIs Tok.WHERE then
        let p := p.advance
        parseExpr fuel p
      else (none, p)
    let (orderBy, p) : List OrderByExpr × PState :=
      if p.curIs Tok.ORDER then parseOrderBy fuel p else ([], p)
    let (limit, p) : Option Limit × PState :=
      if p.curIs Tok.LIMIT then
        let (l, p) := parseLimit fuel p
        (some l, p)
      else (none, p)
    let (returning, p) : List SelectExpr × PState :=
      if p.curIs Tok.RETURNING then
        let p := p.advance
        parseSelectExprs fuel p []
      else ([], p)
    (some (.mk pos p.cur.pos none table usingE whereE orderBy limit returning), p)

/-- `parseExpr`. -/
def parseExpr (fuel : Nat) (p : PState) : Option Expr × PState :=
  match fuel with
  | 0 => (none, p)
  | fuel + 1 => parseExprPrec fuel precLowest p

/-- `parseExprPrec`: precedence climbing. -/
def parseExprPrec (fuel : Nat) (minPrec : Nat) (p : PState) : Option Expr × PState :=
  match fuel with
  | 0 => (none, p)
  | fuel + 1 =>
    match parsePrimaryExpr fuel p with
    | (none, p) => (none, p)
    | (some left, p) => parseExprLoop fuel minPrec left p

/-- The climbing loop of `parseExprPrec`: postfix/n-ary handlers, then
left-associative binary operators of at least `minPrec`. -/
def parseExprLoop (fuel : Nat) (minPrec : Nat) (left : Expr) (p : PState) :
    Option Expr × PState :=
  match fuel with
  | 0 => (none, p)
  | fuel + 1 =>
    if p.curIs Tok.IS then
      let (left, p) := parseIsExpr left p
      parseExprLoop fuel minPrec left p
    else if p.curIs Tok.IN then
      match parseInExpr fuel left false p with
      | (none, p) => (none, p)
      | (some left, p) => parseExprLoop fuel minPrec left p
    else if p.curIs Tok.NOT && p.peekIs Tok.IN then
      let p := p.advance
      match parseInExpr fuel left true p with
      | (none, p) => (none, p)
      | (some left, p) => parseExprLoop fuel minPrec left p
    else if p.curIs Tok.NOT && p.peekIs Tok.BETWEEN then
      let p := p.advance
      match parseBetweenExpr fuel left true p with
      | (none, p) => (none, p)
      | (some left, p) => parseExprLoop fuel minPrec left p
    else if p.curIs Tok.NOT && (p.peekIs Tok.LIKE || p.peekIs Tok.ILIKE) then
      let p := p.advance
      let (left, p) := parseLikeExpr fuel left true p
      parseExprLoop fuel minPrec left p
    else if p.curIs Tok.NOT && p.peekIs Tok.SIMILAR then
      let p := p.advance
      let (left, p) := parseSimilarExpr fuel left true p
      parseExprLoop fuel minPrec left p
    else if p.curIs Tok.BETWEEN then
      match parseBetweenExpr fuel left false p with
      | (none, p) => (none, p)
      | (some left, p) => parseExprLoop fuel minPrec left p
    else if p.curIs Tok.LIKE || p.curIs Tok.ILIKE then
      let (left, p) := parseLikeExpr fuel left false p
      parseExprLoop fuel minPrec left p
    else if p.curIs Tok.SIMILAR then
      let (left, p) := parseSimilarExpr fuel left false p
      parseExprLoop fuel minPrec left p
    else if p.curIs Tok.COLLATE then
      let (left, p) := parseCollateExpr left p
      parseExprLoop fuel minPrec left p
    else if p.curIs Tok.DCOLON then
      let (left, p) := parsePostgresCast fuel left p
      parseExprLoop fuel minPrec left p
    else if p.curIs Tok.LBRACKET then
      match parseSubscript fuel left p with
      | (none, p) => (none, p)
      | (some left, p) => parseExprLoop fuel minPrec left p
    else
      let op := p.cur.type
      let prec := precedence op
      if prec < minPrec then (some left, p)
      else if !isBinaryOp op then (some left, p)
      else
        let pos := p.cur.pos
        let p := p.advance
        match parseExprPrec fuel (prec + 1) p with
        | (none, p) => (none, p)
        | (some right, p) => parseExprLoop fuel minPrec (.Bin pos Pos.zero op left right) p

/-- `parsePrimaryExpr`. -/
def parsePrimaryExpr (fuel : Nat) (p : PState) : Option Expr × PState :=
  match fuel with
  | 0 => (none, p)
  | fuel + 1 =>
    let p := skipCommentsL fuel p
    if p.curIs Tok.INT then
      let (e, p) := parseLiteral .Int p
      (some e, p)
    else if p.curIs Tok.FLOAT then
      let (e, p) := parseLiteral .Float p
      (some e, p)
    else if p.curIs Tok.STRING then
      let (e, p) := parseLiteral .StringL p
      (some e, p)
    else if p.curIs Tok.NULL then
      let pos := p.cur.pos
      (some (.Lit { startPos := pos, endPos := pos, type := .Null, value := "NULL".data }),
        p.advance)
    else if p.curIs Tok.TRUE then
      let pos := p.cur.pos
      (some (.Lit { startPos := pos, endPos := pos, type := .Bool, value := "TRUE".data }),
        p.advance)
    else if p.curIs Tok.FALSE then
      let pos := p.cur.pos
      (some (.Lit { startPos := pos, endPos := pos, type := .Bool, value := "FALSE".data }),
        p.advance)
    else if p.curIs Tok.IDENT then
      parseIdentifierOrFunc fuel p
    else if p.curIs Tok.PARAM then
      let (e, p) := parseParam p
      (some e, p)
    else if p.curIs Tok.LPAREN then
      parseParenOrSubquery fuel p
    else if p.curIs Tok.NOT then
      let (e, p) := parseNotExpr fuel p
      (some e, p)
    else if p.curIs Tok.MINUS then
      let (e, p) := parseUnaryMinus fuel p
      (some e, p)
    else if p.curIs Tok.BITNOT then
      let (e, p) := parseUnaryBitnot fuel p
      (some e, p)
    else if p.curIs Tok.EXISTS then
      parseExistsExpr fuel p
    else if p.curIs Tok.CASE then
      parseCaseExpr fuel p
    else if p.curIs Tok.CAST then
      parseCastExpr fuel p
    else if p.curIs Tok.INTERVAL then
      let (e, p) := parseIntervalExpr fuel p
      (some e, p)
    else if p.curIs Tok.EXTRACT then
      parseExtractExpr fuel p
    else if p.curIs Tok.TRIM then
      parseTrimExpr fuel p
    else if p.curIs Tok.SUBSTRING then
      parseSubstringExpr fuel p
    else if p.curIs Tok.POSITION then
      parsePositionExpr fuel p
    else if p.curIs Tok.ASTERISK then
      let pos := p.cur.pos
      (some (.Star { startPos := pos, endPos := pos, tableName := [], hasQualifier := false }),
        p.advance)
    else if p.curIs Tok.ARRAY then
      parseArrayExpr fuel p
    else if p.curIs Tok.DEFAULT then
      let pos := p.cur.pos
      (some (.Lit { startPos := pos, endPos := pos, type := .Null, value := "DEFAULT".data }),
        p.advance)
    else if p.cur.type.IsKeyword then
      parseIdentifierOrFunc fuel p
    else (none, p.errorf "unexpected token in expression")

/-- `parseIdentifierOrFunc`. -/
def parseIdentifierOrFunc (fuel : Nat) (p : PState) : Option Expr × PState :=
  match fuel with
  | 0 => (none, p)
  | fuel + 1 =>
    let pos := p.cur.pos
    let name := p.cur.value
    let p := p.advance
    if p.curIs Tok.LPAREN then parseFuncCall fuel pos name p
    else identDotsL fuel p pos [name] pos

/-- `parseFuncCall`: note `fn.Name = strings.ToUpper(name)` — the stored
function name is upper-cased. -/
def parseFuncCall (fuel : Nat) (pos : Pos) (name : List Char) (p : PState) :
    Option Expr × PState :=
  match fuel with
  | 0 => (none, p)
  | fuel + 1 =>
    let p := p.advance
    let fname := toUpperStr name
    let (distinct, p) : Bool × PState :=
      if p.curIs Tok.DISTINCT then (true, p.advance) else (false, p)
    let (args, p) : List Expr × PState :=
      if !p.curIs Tok.RPAREN then
        if p.curIs Tok.ASTERISK then
          let star : StarExpr :=
            { startPos := p.cur.pos, endPos := p.cur.pos, tableName := [], hasQualifier := false }
          ([.Star star], p.advance)
        else funcArgsL fuel p []
      else ([], p)
    match p.expect Tok.RPAREN with
    | (false, p) => (none, p)
    | (true, p) =>
      let endPos := p.cur.pos
      match parseFuncFilter fuel p with
      | (none, p) => (none, p)
      | (some filter, p) =>
        let (over, p) : Option WindowSpec × PState :=
          if p.curIs Tok.OVER then parseWindowSpec fuel p else (none, p)
        (some (.FuncE pos endPos fname distinct args [] filter over), p)

/-- The optional `FILTER (WHERE ...)` clause of `parseFuncCall`. -/
def parseFuncFilter (fuel : Nat) (p : PState) : Option (Option Expr) × PState :=
  match fuel with
  | 0 => (none, p)
  | fuel + 1 =>
    if p.curIs Tok.FILTER then
      let p := p.advance
      match p.expect Tok.LPAREN with
      | (false, p) => (none, p)
      | (true, p) =>
        match p.expect Tok.WHERE with
        | (false, p) => (none, p)
        | (true, p) =>
          let (f, p) := parseExpr fuel p
          match p.expect Tok.RPAREN with
          | (false, p) => (none, p)
          | (true, p) => (some f, p)
    else (some none, p)

/-- Argument loop of `parseFuncCall`. -/
def funcArgsL (fuel : Nat) (p : PState) (args : List Expr) : List Expr × PState :=
  match fuel with
  | 0 => (args, p)
  | fuel + 1 =>
    match parseExpr fuel p with
    | (none, p) => (args, p)
    | (some a, p) =>
      let args := args ++ [a]
      if !p.curIs Tok.COMMA then (args, p)
      else funcArgsL fuel p.advance args

/-- `parseWindowSpec`. -/
def parseWindowSpec (fuel : Nat) (p : PState) : Option WindowSpec × PState :=
  match fuel with
  | 0 => (none, p)
  | fuel + 1 =>
    let p := p.advance
    let pos := p.cur.pos
    if p.curIs Tok.IDENT then
      let name := p.cur.value
      let p := p.advance
      (some (.mk pos p.cur.pos name [] [] none), p)
    else
      match p.expect Tok.LPAREN with
      | (false, p) => (none, p)
      | (true, p) =>
        let (name, p) : List Char × PState :=
          if p.curIs Tok.IDENT && !p.peekIs Tok.BY then (p.cur.value, p.advance) else ([], p)
        let (partitionBy, p) : List Expr × PState :=
          if p.curIs Tok.PARTITION then
            let p := p.advance
            let (_, p) := p.expect Tok.BY
            parseExprList fuel p []
          else ([], p)
        let (orderBy, p) : List OrderByExpr × PState :=
          if p.curIs Tok.ORDER then parseOrderBy fuel p else ([], p)
        let (frame, p) : Option WindowFrame × PState :=
          if p.curIs Tok.ROWS || p.curIs Tok.RANGE || p.curIs Tok.GROUPS then
            let (f, p) := parseWindowFrame fuel p
            (some f, p)
          else (none, p)
        let (_, p) := p.expect Tok.RPAREN
        (some (.mk pos p.cur.pos name partitionBy orderBy frame), p)

/-- `parseWindowFrame`. -/
def parseWindowFrame (fuel : Nat) (p : PState) : WindowFrame × PState :=
  match fuel with
  | 0 => (.mk .Rows (.mk .CurrentRow none) none, p)
  | fuel + 1 =>
    let ftype : FrameType :=
      if p.curIs Tok.ROWS then .Rows
      else if p.curIs Tok.RANGE then .Range
      else if p.curIs Tok.GROUPS then .Groups
      else .Rows
    let p := p.advance
    if p.curIs Tok.BETWEEN then
      let p := p.advance
      let (start, p) := parseFrameBound fuel p
      let (_, p) := p.expect Tok.AND
      let (endB, p) := parseFrameBound fuel p
      (.mk ftype start (some endB), p)
    else
      let (start, p) := parseFrameBound fuel p
      (.mk ftype start none, p)

/-- `parseFrameBound`. -/
def parseFrameBound (fuel : Nat) (p : PState) : FrameBound × PState :=
  match fuel with
  | 0 => (.mk .CurrentRow none, p)
  | fuel + 1 =>
    if p.curIs Tok.CURRENT then
      let p := p.advance
      let (_, p) := p.expect Tok.ROW
      (.mk .CurrentRow none, p)
    else if p.curIs Tok.UNBOUNDED then
      let p := p.advance
      if p.curIs Tok.PRECEDING then (.mk .UnboundedPreceding none, p.advance)
      else if p.curIs Tok.FOLLOWING then (.mk .UnboundedFollowing none, p.advance)
      else (.mk .CurrentRow none, p)
    else
      let (off, p) := parseExpr fuel p
      if p.curIs Tok.PRECEDING then (.mk .Preceding off, p.advance)
      else if p.curIs Tok.FOLLOWING then (.mk .Following off, p.advance)
      else (.mk .CurrentRow off, p)

/-- `parseParenOrSubquery`. -/
def parseParenOrSubquery (fuel : Nat) (p : PState) : Option Expr × PState :=
  match fuel with
  | 0 => (none, p)
  | fuel + 1 =>
    let pos := p.cur.pos
    let p := p.advance
    if p.curIs Tok.SELECT || p.curIs Tok.WITH then
      let (stmt, p) : Option Statement × PState :=
        if p.curIs Tok.WITH then parseWith fuel p
        else
          let (s, p) := parseSelect fuel p
          (s.map .SelectS, p)
      match stmt with
      | none => (none, p)
      | some stmt =>
        match p.expect Tok.RPAREN with
        | (false, p) => (none, p)
        | (true, p) =>
          let endPos := p.cur.pos
          match stmt with
          | .SelectS sel => (some (.SubE (.mk pos endPos sel)), p)
          | _ => (none, p.errorf "expected SELECT statement in subquery")
    else
      let (e, p) := parseExpr fuel p
      match p.expect Tok.RPAREN with
      | (false, p) => (none, p)
      | (true, p) => (some (.Paren pos p.cur.pos e), p)

/-- `parseNotExpr`. -/
def parseNotExpr (fuel : Nat) (p : PState) : Expr × PState :=
  match fuel with
  | 0 => (.Un Pos.zero Pos.zero Tok.NOT none, p)
  | fuel + 1 =>
    let pos := p.cur.pos
    let p := p.advance
    let (operand, p) := parseExprPrec fuel precNot p
    (.Un pos Pos.zero Tok.NOT operand, p)

/-- `parseUnaryMinus`. -/
def parseUnaryMinus (fuel : Nat) (p : PState) : Expr × PState :=
  match fuel with
  | 0 => (.Un Pos.zero Pos.zero Tok.MINUS none, p)
  | fuel + 1 =>
    let pos := p.cur.pos
    let p := p.advance
    let (operand, p) := parseExprPrec fuel precUnary p
    (.Un pos Pos.zero Tok.MINUS operand, p)

/-- `parseUnaryBitnot`. -/
def parseUnaryBitnot (fuel : Nat) (p : PState) : Expr × PState :=
  match fuel with
  | 0 => (.Un Pos.zero Pos.zero Tok.BITNOT none, p)
  | fuel + 1 =>
    let pos := p.cur.pos
    let p := p.advance
    let (operand, p) := parseExprPrec fuel precUnary p
    (.Un pos Pos.zero Tok.BITNOT operand, p)

/-- `parseExistsExpr`. -/
def parseExistsExpr (fuel : Nat) (p : PState) : Option Expr × PState :=
  match fuel with
  | 0 => (none, p)
  | fuel + 1 =>
    let pos := p.cur.pos
    let p := p.advance
    let (not, p) : Bool × PState :=
      if p.curIs Tok.NOT then (true, p.advance) else (false, p)
    match p.expect Tok.LPAREN with
    | (false, p) => (none, p)
    | (true, p) =>
      let (sel, p) : Option SelectStmt × PState :=
        if p.curIs Tok.SELECT then parseSelect fuel p
        else if p.curIs Tok.WITH then
          let (stmt, p) := parseWith fuel p
          match stmt with
          | some (.SelectS s) => (some s, p)
          | _ => (none, p)
        else (none, p)
      match sel with
      | none => (none, p.errorf "expected SELECT in EXISTS subquery")
      | some sel =>
        match p.expect Tok.RPAREN with
        | (false, p) => (none, p)
        | (true, p) =>
          (some (.ExistsE pos p.cur.pos not (.mk Pos.zero Pos.zero sel)), p)

/-- `parseCaseExpr`. -/
def parseCaseExpr (fuel : Nat) (p : PState) : Option Expr × PState :=
  match fuel with
  | 0 => (none, p)
  | fuel + 1 =>
    let pos := p.cur.pos
    let p := p.advance
    let (operand, p) : Option Expr × PState :=
      if !p.curIs Tok.WHEN then parseExpr fuel p else (none, p)
    match caseWhensL fuel p [] with
    | (none, p) => (none, p)
    | (some whens, p) =>
      let (els, p) : Option Expr × PState :=
        if p.curIs Tok.ELSE then
          let p := p.advance
          parseExpr fuel p
        else (none, p)
      match p.expect Tok.END with
      | (false, p) => (none, p)
      | (true, p) => (some (.CaseE pos p.cur.pos operand whens els), p)

/-- `WHEN` loop of `parseCaseExpr`; `none` aborts on a missing `THEN`. -/
def caseWhensL (fuel : Nat) (p : PState) (whens : List When) :
    Option (List When) × PState :=
  match fuel with
  | 0 => (some whens, p)
  | fuel + 1 =>
    if p.curIs Tok.WHEN then
      let p := p.advance
      let (cond, p) := parseExpr fuel p
      match p.expect Tok.THEN with
      | (false, p) => (none, p)
      | (true, p) =>
        let (result, p) := parseExpr fuel p
        caseWhensL fuel p (whens ++ [.mk cond result])
    else (some whens, p)

/-- `parseCastExpr`. -/
def parseCastExpr (fuel : Nat) (p : PState) : Option Expr × PState :=
  match fuel with
  | 0 => (none, p)
  | fuel + 1 =>
    let pos := p.cur.pos
    let p := p.advance
    match p.expect Tok.LPAREN with
    | (false, p) => (none, p)
    | (true, p) =>
      let (e, p) := parseExpr fuel p
      match p.expect Tok.AS with
      | (false, p) => (none, p)
      | (true, p) =>
        let (dataType, p) := parseDataType fuel p
        match p.expect Tok.RPAREN with
        | (false, p) => (none, p)
        | (true, p) => (some (.CastE pos p.cur.pos e dataType), p)

/-- `parseIntervalExpr`. -/
def parseIntervalExpr (fuel : Nat) (p : PState) : Expr × PState :=
  match fuel with
  | 0 => (.Interval Pos.zero Pos.zero none [], p)
  | fuel + 1 =>
    let pos := p.cur.pos
    let p := p.advance
    let (value, p) := parseExpr fuel p
    let (unit, p) : List Char × PState :=
      if p.cur.type.IsKeyword then (p.cur.value, p.advance) else ([], p)
    (.Interval pos p.cur.pos value unit, p)

/-- `parseExtractExpr`. -/
def parseExtractExpr (fuel : Nat) (p : PState) : Option Expr × PState :=
  match fuel with
  | 0 => (none, p)
  | fuel + 1 =>
    let pos := p.cur.pos
    let p := p.advance
    match p.expect Tok.LPAREN with
    | (false, p) => (none, p)
    | (true, p) =>
      let (field, p) : List Char × PState :=
        if p.cur.type.IsKeyword || p.curIs Tok.IDENT then (p.cur.value, p.advance)
        else ([], p)
      match p.expect Tok.FROM with
      | (false, p) => (none, p)
      | (true, p) =>
        let (source, p) := parseExpr fuel p
        match p.expect Tok.RPAREN with
        | (false, p) => (none, p)
        | (true, p) => (some (.Extract pos p.cur.pos field source), p)

/-- `parseTrimExpr`. -/
def parseTrimExpr (fuel : Nat) (p : PState) : Option Expr × PState :=
  match fuel with
  | 0 => (none, p)
  | fuel + 1 =>
    let pos := p.cur.pos
    let p := p.advance
    match p.expect Tok.LPAREN with
    | (false, p) => (none, p)
    | (true, p) =>
      let (trimType, p) : TrimType × PState :=
        if p.curIs Tok.LEADING then (.Leading, p.advance)
        else if p.curIs Tok.TRAILING then (.Trailing, p.advance)
        else if p.curIs Tok.BOTH then (.Both, p.advance)
        else (.Both, p)
      let (trimChar, p) : Option Expr × PState :=
        if !p.curIs Tok.FROM then parseExpr fuel p else (none, p)
      let p := if p.curIs Tok.FROM then p.advance else p
      let (e, p) := parseExpr fuel p
      match p.expect Tok.RPAREN with
      | (false, p) => (none, p)
      | (true, p) => (some (.TrimE pos p.cur.pos trimType trimChar e), p)

/-- `parseSubstringExpr`. -/
def parseSubstringExpr (fuel : Nat) (p : PState) : Option Expr × PState :=
  match fuel with
  | 0 => (none, p)
  | fuel + 1 =>
    let pos := p.cur.pos
    let p := p.advance
    match p.expect Tok.LPAREN with
    | (false, p) => (none, p)
    | (true, p) =>
      let (e, p) := parseExpr fuel p
      let (fromE, p) : Option Expr × PState :=
        if p.curIs Tok.FROM then
          let p := p.advance
          parseExpr fuel p
        else if p.curIs Tok.COMMA then
          let p := p.advance
          parseExpr fuel p
        else (none, p)
      let (forE, p) : Option Expr × PState :=
        if p.curIs Tok.FOR then
          let p := p.advance
          parseExpr fuel p
        else if p.curIs Tok.COMMA then
          let p := p.advance
          parseExpr fuel p
        else (none, p)
      match p.expect Tok.RPAREN with
      | (false, p) => (none, p)
      | (true, p) => (some (.SubstringE pos p.cur.pos e fromE forE), p)

/-- `parsePositionExpr`. -/
def parsePositionExpr (fuel : Nat) (p : PState) : Option Expr × PState :=
  match fuel with
  | 0 => (none, p)
  | fuel + 1 =>
    let pos := p.cur.pos
    let p := p.advance
    match p.expect Tok.LPAREN with
    | (false, p) => (none, p)
    | (true, p) =>
      let (needle, p) := parseExpr fuel p
      match p.expect Tok.IN with
      | (false, p) => (none, p)
      | (true, p) =>
        let (haystack, p) := parseExpr fuel p
        match p.expect Tok.RPAREN with
        | (false, p) => (none, p)
        | (true, p) => (some (.PositionE pos p.cur.pos needle haystack), p)

/-- `parseArrayExpr`. -/
def parseArrayExpr (fuel : Nat) (p : PState) : Option Expr × PState :=
  match fuel with
  | 0 => (none, p)
  | fuel + 1 =>
    let pos := p.cur.pos
    let p := p.advance
    match p.expect Tok.LBRACKET with
    | (false, p) => (none, p)
    | (true, p) =>
      let (elements, p) : List Expr × PState :=
        if !p.curIs Tok.RBRACKET then arrayElemsL fuel p [] else ([], p)
      match p.expect Tok.RBRACKET with
      | (false, p) => (none, p)
      | (true, p) => (some (.ArrayE pos p.cur.pos elements), p)

/-- Element loop of `parseArrayExpr`. -/
def arrayElemsL (fuel : Nat) (p : PState) (elems : List Expr) : List Expr × PState :=
  match fuel with
  | 0 => (elems, p)
  | fuel + 1 =>
    match parseExpr fuel p with
    | (none, p) => (elems, p)
    | (some e, p) =>
      let elems := elems ++ [e]
      if !p.curIs Tok.COMMA then (elems, p)
      else arrayElemsL fuel p.advance elems

/-- `parseSubscript`. -/
def parseSubscript (fuel : Nat) (left : Expr) (p : PState) : Option Expr × PState :=
  match fuel with
  | 0 => (none, p)
  | fuel + 1 =>
    let p := p.advance
    match parseExpr fuel p with
    | (none, p) => (none, p.errorf "expected expression in subscript")
    | (some index, p) =>
      match p.expect Tok.RBRACKET with
      | (false, p) => (none, p)
      | (true, p) => (some (.SubscriptE left.posOf p.cur.pos left index), p)

/-- `parseInExpr`. -/
def parseInExpr (fuel : Nat) (left : Expr) (not : Bool) (p : PState) :
    Option Expr × PState :=
  match fuel with
  | 0 => (none, p)
  | fuel + 1 =>
    let pos := left.posOf
    let p := p.advance
    match p.expect Tok.LPAREN with
    | (false, p) => (none, p)
    | (true, p) =>
      match parseInSource fuel p with
      | (none, p) => (none, p)
      | (some (vals, sel), p) =>
        match p.expect Tok.RPAREN with
        | (false, p) => (none, p)
        | (true, p) =>
          (some (.InE pos p.cur.pos left not (vals.getD []) sel), p)

/-- The subquery-or-value-list alternatives of `parseInExpr`. -/
def parseInSource (fuel : Nat) (p : PState) :
    Option (Option (List Expr) × Option SelectStmt) × PState :=
  match fuel with
  | 0 => (none, p)
  | fuel + 1 =>
    if p.curIs Tok.SELECT || p.curIs Tok.WITH then
      let (stmt, p) : Option Statement × PState :=
        if p.curIs Tok.WITH then parseWith fuel p
        else
          let (s, p) := parseSelect fuel p
          (s.map .SelectS, p)
      match stmt with
      | none => (none, p)
      | some (.SelectS sel) => (some ((none : Option (List Expr)), some sel), p)
      | some _ => (none, p.errorf "expected SELECT statement in IN clause")
    else
      let (vals, p) := inValuesL fuel p []
      (some (some vals, (none : Option SelectStmt)), p)

/-- Value loop of `parseInExpr`. -/
def inValuesL (fuel : Nat) (p : PState) (vals : List Expr) : List Expr × PState :=
  match fuel with
  | 0 => (vals, p)
  | fuel + 1 =>
    match parseExpr fuel p with
    | (none, p) => (vals, p)
    | (some v, p) =>
      let vals := vals ++ [v]
      if !p.curIs Tok.COMMA then (vals, p)
      else inValuesL fuel p.advance vals

/-- `parseBetweenExpr`: the bounds are parsed at `precComparison + 1`, so
the separating `AND` is never taken as a conjunction inside a bound. -/
def parseBetweenExpr (fuel : Nat) (left : Expr) (not : Bool) (p : PState) :
    Option Expr × PState :=
  match fuel with
  | 0 => (none, p)
  | fuel + 1 =>
    let pos := left.posOf
    let p := p.advance
    let p := if p.curIs Tok.SYMMETRIC || p.curIs Tok.ASYMMETRIC then p.advance else p
    let (low, p) := parseExprPrec fuel (precComparison + 1) p
    match p.expect Tok.AND with
    | (false, p) => (none, p)
    | (true, p) =>
      let (high, p) := parseExprPrec fuel (precComparison + 1) p
      (some (.BetweenE pos p.cur.pos left not low high), p)

/-- `parseLikeExpr`. -/
def parseLikeExpr (fuel : Nat) (left : Expr) (not : Bool) (p : PState) : Expr × PState :=
  match fuel with
  | 0 => (left, p)
  | fuel + 1 =>
    let pos := left.posOf
    let ilike := p.curIs Tok.ILIKE
    let p := p.advance
    let (pattern, p) := parseExprPrec fuel (precComparison + 1) p
    let (escape, p) : Option Expr × PState :=
      if p.curIs Tok.ESCAPE then
        let p := p.advance
        parseExprPrec fuel (precComparison + 1) p
      else (none, p)
    (.LikeE pos p.cur.pos left pattern not escape ilike, p)

/-- `parseSimilarExpr`. -/
def parseSimilarExpr (fuel : Nat) (left : Expr) (not : Bool) (p : PState) :
    Expr × PState :=
  match fuel with
  | 0 => (left, p)
  | fuel + 1 =>
    let pos := left.posOf
    let p := p.advance
    let (_, p) := p.expect Tok.TO
    let (pattern, p) := parseExprPrec fuel (precComparison + 1) p
    let (escape, p) : Option Expr × PState :=
      if p.curIs Tok.ESCAPE then
        let p := p.advance
        parseExprPrec fuel (precComparison + 1) p
      else (none, p)
    (.LikeE pos p.cur.pos left pattern not escape false, p)

/-- `parseExprList` loop. -/
def parseExprList (fuel : Nat) (p : PState) (exprs : List Expr) : List Expr × PState :=
  match fuel with
  | 0 => (exprs, p)
  | fuel + 1 =>
    match parseExpr fuel p with
    | (none, p) => (exprs, p)
    | (some e, p) =>
      let exprs := exprs ++ [e]
      if !p.curIs Tok.COMMA then (exprs, p)
      else parseExprList fuel p.advance exprs

end

/-- Loop consuming the optional semicolons between statements in `ParseAll`. -/
def semisL (fuel : Nat) (p : PState) : PState :=
  match fuel with
  | 0 => p
  | fuel + 1 => if p.curIs Tok.SEMICOLON then semisL fuel p.advance else p

/-- The trailing `;`/comment tolerance loop of `Parse`. -/
def trailingSemisL (fuel : Nat) (p : PState) : PState :=
  match fuel with
  | 0 => p
  | fuel + 1 =>
    if p.curIs Tok.SEMICOLON then trailingSemisL fuel (skipCommentsL fuel p.advance)
    else p

/-- Zero value used when reading the head of a non-empty error list. -/
def ParseError.zero : ParseError := { pos := Pos.zero, msg := [] }

/-- `Parser.Parse`: one statement, trailing semicolons and comments
tolerated, anything else before EOF is an error.  Returns the statement and
the first recorded error. -/
def ParseM (fuel : Nat) (p : PState) : Option Statement × Option ParseError × PState :=
  let p := skipCommentsL fuel p
  if p.curIs Tok.EOF then (none, none, p)
  else
    let (stmt, p) := parseStatement fuel p
    if p.errors.length > 0 then (none, some (p.errors.headD ParseError.zero), p)
    else
      let p := skipCommentsL fuel p
      let p := trailingSemisL fuel p
      if !p.curIs Tok.EOF then
        let p := p.errorf "unexpected token after statement"
        (none, some (p.errors.headD ParseError.zero), p)
      else (stmt, none, p)

/-- Statement loop of `ParseAll`. -/
def parseAllL (fuel : Nat) (p : PState) (stmts : List Statement) :
    List Statement × PState :=
  match fuel with
  | 0 => (stmts, p)
  | fuel + 1 =>
    if !p.curIs Tok.EOF then
      let p := skipCommentsL fuel p
      if p.curIs Tok.EOF then (stmts, p)
      else
        let (stmt, p) := parseStatement fuel p
        let stmts := stmts ++ stmt.toList
        let p := semisL fuel p
        let p := skipCommentsL fuel p
        parseAllL fuel p stmts
    else (stmts, p)

/-- `Parser.ParseAll`: all statements until EOF, plus the first error. -/
def ParseAllM (fuel : Nat) (p : PState) : List Statement × Option ParseError × PState :=
  let (stmts, p) := parseAllL fuel p []
  if p.errors.length > 0 then (stmts, some (p.errors.headD ParseError.zero), p)
  else (stmts, none, p)

/-- `parser.New` / `parser.Get`: a parser primed with the first token. -/
def parserNew (input : List Char) : PState :=
  PState.advance { lx := Lexer.New input, errors := [], cur := Item.zero }

/-- Fuel budget of the entry points.  The Go parser's recursion and loops
are bounded by the input, so any bound that dominates the token count times
the nesting depth is ample; concrete theorems evaluate under it. -/
def defaultFuel (s : List Char) : Nat := s.length * 8 + 64

/-- `machparse.Parse` (the facade): parse one statement from source text. -/
def ParseSQL (s : List Char) : Option Statement × Option ParseError :=
  let r := ParseM (defaultFuel s) (parserNew s)
  (r.1, r.2.1)

/-- `machparse.ParseAll`. -/
def ParseAllSQL (s : List Char) : List Statement × Option ParseError :=
  let r := ParseAllM (defaultFuel s) (parserNew s)
  (r.1, r.2.1)

/-- `format.Options`. -/
structure FmtOptions where
  uppercase : Bool
  indent : List Char
deriving DecidableEq, Repr

/-- `format.DefaultOptions`. -/
def DefaultOptions : FmtOptions := { uppercase := true, indent := "  ".data }

/-- `format.Formatter`: an output buffer plus options. -/
structure Formatter where
  buf : List Char
  opts : FmtOptions
deriving DecidableEq, Repr

/-- `format.New`. -/
def Formatter.new (opts : FmtOptions) : Formatter := { buf := [], opts := opts }

/-- `write`. -/
def Formatter.write (f : Formatter) (s : List Char) : Formatter :=
  { f with buf := f.buf ++ s }

/-- `writeKeyword`: case-transformed by the options. -/
def Formatter.writeKeyword (f : Formatter) (kw : List Char) : Formatter :=
  if f.opts.uppercase then f.write (toUpperStr kw) else f.write (toLowerStr kw)

/-- `needsQuotingNonKeyword`: empty, a bad first character, or any later
character outside the identifier alphabet. -/
def needsQuotingNonKeyword (id : List Char) : Bool :=
  match id with
  | [] => true
  | ch :: rest =>
    if !(('a' <= ch && ch <= 'z') || ('A' <= ch && ch <= 'Z') || ch == '_') then true
    else rest.any (fun ch =>
      !(('a' <= ch && ch <= 'z') || ('A' <= ch && ch <= 'Z') ||
        ('0' <= ch && ch <= '9') || ch == '_' || ch == '$'))

/-- `needsQuoting`: the relaxed test plus the reserved-keyword test. -/
def needsQuoting (id : List Char) : Bool :=
  needsQuotingNonKeyword id || IsKeyword id

/-- `strings.ReplaceAll(id, quote, quote-quote)`: double the embedded
double quotes. -/
def escapeDQ (s : List Char) : List Char :=
  s.flatMap (fun c => if c == '"' then ['"', '"'] else [c])

/-- `writeIdent`: double-quote (with doubling) exactly when `needsQuoting`. -/
def Formatter.writeIdent (f : Formatter) (id : List Char) : Formatter :=
  if needsQuoting id then f.write ('"' :: escapeDQ id ++ ['"'])
  else f.write id

/-- `writeFuncName`: like `writeIdent` but without the keyword test. -/
def Formatter.writeFuncName (f : Formatter) (name : List Char) : Formatter :=
  if needsQuotingNonKeyword name then f.write ('"' :: escapeDQ name ++ ['"'])
  else f.write name

/-- Digit expansion of `itoa` (fueled for kernel reducibility; a number has
no more digits than its own value, so `n` rounds always suffice). -/
def natDigitsF (fuel n : Nat) : List Char :=
  match fuel with
  | 0 => []
  | fuel + 1 =>
    if n == 0 then []
    else natDigitsF fuel (n / 10) ++ [Char.ofNat (48 + n % 10)]

/-- Digit expansion of `itoa`. -/
def natDigits (n : Nat) : List Char := natDigitsF n n

/-- `itoa`. -/
def itoa (n : Int) : List Char :=
  if n == 0 then "0".data
  else if n < 0 then '-' :: natDigits (-n).toNat
  else natDigits n.toNat

/-- The `tokenNames` display table (`token.Token.String`); entries the Go
sparse array literal leaves unset are the empty string. -/
def tokenNames : List (Tok × List Char) := [
  (Tok.ILLEGAL, "ILLEGAL".data),
  (Tok.EOF, "EOF".data),
  (Tok.COMMENT, "COMMENT".data),
  (Tok.IDENT, "IDENT".data),
  (Tok.INT, "INT".data),
  (Tok.FLOAT, "FLOAT".data),
  (Tok.STRING, "STRING".data),
  (Tok.BLOB, "BLOB".data),
  (Tok.PARAM, "PARAM".data),
  (Tok.PLUS, "+".data),
  (Tok.MINUS, "-".data),
  (Tok.ASTERISK, "*".data),
  (Tok.SLASH, "/".data),
  (Tok.PERCENT, "%".data),
  (Tok.EQ, "=".data),
  (Tok.NEQ, "!=".data),
  (Tok.LT, "<".data),
  (Tok.GT, ">".data),
  (Tok.LTE, "<=".data),
  (Tok.GTE, ">=".data),
  (Tok.LPAREN, "(".data),
  (Tok.RPAREN, ")".data),
  (Tok.LBRACKET, "[".data),
  (Tok.RBRACKET, "]".data),
  (Tok.COMMA, ",".data),
  (Tok.SEMICOLON, ";".data),
  (Tok.DOT, ".".data),
  (Tok.COLON, ":".data),
  (Tok.DCOLON, "::".data),
  (Tok.CONCAT, "||".data),
  (Tok.BITAND, "&".data),
  (Tok.BITOR, "|".data),
  (Tok.BITXOR, "^".data),
  (Tok.BITNOT, "~".data),
  (Tok.LSHIFT, "<<".data),
  (Tok.RSHIFT, ">>".data),
  (Tok.ARROW, "->".data),
  (Tok.DARROW, "->>".data),
  (Tok.SELECT, "SELECT".data),
  (Tok.FROM, "FROM".data),
  (Tok.WHERE, "WHERE".data),
  (Tok.AND, "AND".data),
  (Tok.OR, "OR".data),
  (Tok.NOT, "NOT".data),
  (Tok.IN, "IN".data),
  (Tok.LIKE, "LIKE".data),
  (Tok.BETWEEN, "BETWEEN".data),
  (Tok.IS, "IS".data),
  (Tok.NULL, "NULL".data),
  (Tok.TRUE, "TRUE".data),
  (Tok.FALSE, "FALSE".data),
  (Tok.AS, "AS".data),
  (Tok.ALL, "ALL".data),
  (Tok.DISTINCT, "DISTINCT".data),
  (Tok.JOIN, "JOIN".data),
  (Tok.INNER, "INNER".data),
  (Tok.LEFT, "LEFT".data),
  (Tok.RIGHT, "RIGHT".data),
  (Tok.FULL, "FULL".data),
  (Tok.OUTER, "OUTER".data),
  (Tok.CROSS, "CROSS".data),
  (Tok.NATURAL, "NATURAL".data),
  (Tok.ON, "ON".data),
  (Tok.USING, "USING".data),
  (Tok.ORDER, "ORDER".data),
  (Tok.BY, "BY".data),
  (Tok.ASC, "ASC".data),
  (Tok.DESC, "DESC".data),
  (Tok.NULLS, "NULLS".data),
  (Tok.FIRST, "FIRST".data),
  (Tok.LAST, "LAST".data),
  (Tok.GROUP, "GROUP".data),
  (Tok.HAVING, "HAVING".data),
  (Tok.LIMIT, "LIMIT".data),
  (Tok.OFFSET, "OFFSET".data),
  (Tok.UNION, "UNION".data),
  (Tok.INTERSECT, "INTERSECT".data),
  (Tok.EXCEPT, "EXCEPT".data),
  (Tok.INSERT, "INSERT".data),
  (Tok.INTO, "INTO".data),
  (Tok.VALUES, "VALUES".data),
  (Tok.DEFAULT, "DEFAULT".data),
  (Tok.RETURNING, "RETURNING".data),
  (Tok.UPDATE, "UPDATE".data),
  (Tok.SET, "SET".data),
  (Tok.DELETE, "DELETE".data),
  (Tok.CREATE, "CREATE".data),
  (Tok.ALTER, "ALTER".data),
  (Tok.DROP, "DROP".data),
  (Tok.TABLE, "TABLE".data),
  (Tok.INDEX, "INDEX".data),
  (Tok.IF, "IF".data),
  (Tok.EXISTS, "EXISTS".data),
  (Tok.PRIMARY, "PRIMARY".data),
  (Tok.KEY, "KEY".data),
  (Tok.FOREIGN, "FOREIGN".data),
  (Tok.REFERENCES, "REFERENCES".data),
  (Tok.UNIQUE, "UNIQUE".data),
  (Tok.CONSTRAINT, "CONSTRAINT".data),
  (Tok.CHECK, "CHECK".data),
  (Tok.CASCADE, "CASCADE".data),
  (Tok.RESTRICT, "RESTRICT".data),
  (Tok.CASE, "CASE".data),
  (Tok.WHEN, "WHEN".data),
  (Tok.THEN, "THEN".data),
  (Tok.ELSE, "ELSE".data),
  (Tok.END, "END".data),
  (Tok.CAST, "CAST".data),
  (Tok.OVER, "OVER".data),
  (Tok.PARTITION, "PARTITION".data),
  (Tok.WINDOW, "WINDOW".data),
  (Tok.FILTER, "FILTER".data),
  (Tok.FOR, "FOR".data),
  (Tok.WITH, "WITH".data)
]

/-- Length of the Go `tokenNames` array (largest listed index plus one). -/
def tokenNamesLen : Nat := 223

/-- `Token.String`. -/
def Tok.goString (t : Tok) : List Char :=
  if t < tokenNamesLen then ((tokenNames.lookup t).getD []) else "UNKNOWN".data


/-- `tokenToString`. -/
def tokenToString (t : Tok) : List Char :=
  if t == Tok.EQ then "=".data
  else if t == Tok.NEQ then "<>".data
  else if t == Tok.LT then "<".data
  else if t == Tok.GT then ">".data
  else if t == Tok.LTE then "<=".data
  else if t == Tok.GTE then ">=".data
  else if t == Tok.PLUS then "+".data
  else if t == Tok.MINUS then "-".data
  else if t == Tok.ASTERISK then "*".data
  else if t == Tok.SLASH then "/".data
  else if t == Tok.PERCENT then "%".data
  else if t == Tok.AND then "AND".data
  else if t == Tok.OR then "OR".data
  else if t == Tok.XOR then "XOR".data
  else if t == Tok.CONCAT then "||".data
  else if t == Tok.BITAND then "&".data
  else if t == Tok.BITOR then "|".data
  else if t == Tok.BITXOR then "^".data
  else if t == Tok.LSHIFT then "<<".data
  else if t == Tok.RSHIFT then ">>".data
  else Tok.goString t

/-- `formatStringLiteral`: re-escape backslashes, then quotes, then wrap. -/
def Formatter.formatStringLiteral (f : Formatter) (s : List Char) : Formatter :=
  let escaped := s.flatMap (fun c => if c == '\\' then ['\\', '\\'] else [c])
  let escaped := escaped.flatMap (fun c => if c == '\'' then ['\'', '\''] else [c])
  ((f.write "'".data).write escaped).write "'".data

/-- `formatColName`. -/
def Formatter.formatColName (f : Formatter) (c : ColName) : Formatter :=
  (c.parts.foldl (fun (acc : Formatter × Bool) part =>
    let f := acc.1
    let f := if acc.2 then f.write ".".data else f
    (f.writeIdent part, true)) (f, false)).1

/-- `formatTableName`. -/
def Formatter.formatTableName (f : Formatter) (t : TableName) : Formatter :=
  (t.parts.foldl (fun (acc : Formatter × Bool) part =>
    let f := acc.1
    let f := if acc.2 then f.write ".".data else f
    (f.writeIdent part, true)) (f, false)).1

/-- `formatLiteral`. -/
def Formatter.formatLiteral (f : Formatter) (l : Literal) : Formatter :=
  match l.type with
  | .Null => f.writeKeyword "NULL".data
  | .StringL => f.formatStringLiteral l.value
  | .Bool => f.writeKeyword l.value
  | _ => f.write l.value

/-- `formatParam`. -/
def Formatter.formatParam (f : Formatter) (p : Param) : Formatter :=
  match p.type with
  | .Question => f.write "?".data
  | .Dollar => (f.write "$".data).write (itoa p.index)
  | .Colon => (f.write ":".data).write p.name
  | .At => (f.write "@".data).write p.name

/-- `formatDataType` (charset/collation/precision are not emitted by the
source either). -/
def Formatter.formatDataType (f : Formatter) (dt : DataType) : Formatter :=
  let f := if needsQuoting dt.name then f.writeIdent dt.name else f.writeKeyword dt.name
  let f := match dt.length with
    | some n =>
      let f := (f.write "(".data).write (itoa n)
      let f := match dt.scale with
        | some s => (f.write ", ".data).write (itoa s)
        | none => f
      f.write ")".data
    | none => f
  let f := if dt.unsigned then (f.write " ".data).writeKeyword "UNSIGNED".data else f
  if dt.array then f.write "[]".data else f

/-- `formatDropTable`. -/
def Formatter.formatDropTable (f : Formatter) (s : DropTableStmt) : Formatter :=
  let f := f.writeKeyword "DROP TABLE".data
  let f := if s.ifExists then (f.write " ".data).writeKeyword "IF EXISTS".data else f
  let f := f.write " ".data
  let f := (s.tables.foldl (fun (acc : Formatter × Bool) t =>
    let f := acc.1
    let f := if acc.2 then f.write ", ".data else f
    let f := match t with
      | some t => f.formatTableName t
      | none => f
    (f, true)) (f, false)).1
  if s.cascade then (f.write " ".data).writeKeyword "CASCADE".data else f

/-- `formatDropIndex`. -/
def Formatter.formatDropIndex (f : Formatter) (s : DropIndexStmt) : Formatter :=
  let f := f.writeKeyword "DROP INDEX".data
  let f := if s.concurrent then (f.write " ".data).writeKeyword "CONCURRENTLY".data else f
  let f := if s.ifExists then (f.write " ".data).writeKeyword "IF EXISTS".data else f
  let f := (f.write " ".data).writeIdent s.name
  let f := match s.table with
    | some t => (((f.write " ".data).writeKeyword "ON".data).write " ".data).formatTableName t
    | none => f
  if s.cascade then (f.write " ".data).writeKeyword "CASCADE".data else f

/-- `formatTruncate`. -/
def Formatter.formatTruncate (f : Formatter) (s : TruncateStmt) : Formatter :=
  let f := (f.writeKeyword "TRUNCATE TABLE".data).write " ".data
  let f := (s.tables.foldl (fun (acc : Formatter × Bool) t =>
    let f := acc.1
    let f := if acc.2 then f.write ", ".data else f
    let f := match t with
      | some t => f.formatTableName t
      | none => f
    (f, true)) (f, false)).1
  if s.cascade then (f.write " ".data).writeKeyword "CASCADE".data else f

mutual

/-- Comma-separated `Format` loop over select expressions. -/
def formatSelectExprsC (fuel : Nat) (f : Formatter) (xs : List SelectExpr) (started : Bool) :
    Formatter :=
  match fuel with
  | 0 => f
  | fuel + 1 =>
    match xs with
    | [] => f
    | x :: rest =>
      let f := if started then f.write ", ".data else f
      let f := formatSelectExpr fuel f x
      formatSelectExprsC fuel f rest true

/-- Comma-separated `Format` loop over expressions. -/
def formatExprsC (fuel : Nat) (f : Formatter) (xs : List Expr) (started : Bool) : Formatter :=
  match fuel with
  | 0 => f
  | fuel + 1 =>
    match xs with
    | [] => f
    | x :: rest =>
      let f := if started then f.write ", ".data else f
      let f := formatExpr fuel f x
      formatExprsC fuel f rest true

/-- `ORDER BY` item loop of `formatSelect` (prints `DESC` and `NULLS`). -/
def formatOrderByFullC (fuel : Nat) (f : Formatter) (xs : List OrderByExpr) (started : Bool) :
    Formatter :=
  match fuel with
  | 0 => f
  | fuel + 1 =>
    match xs with
    | [] => f
    | .mk _ _ e desc nullsFirst :: rest =>
      let f := if started then f.write ", ".data else f
      let f := formatExpr fuel f e
      let f := if desc then (f.write " ".data).writeKeyword "DESC".data else f
      let f := match nullsFirst with
        | some b =>
          let f := ((f.write " ".data).writeKeyword "NULLS".data).write " ".data
          if b then f.writeKeyword "FIRST".data else f.writeKeyword "LAST".data
        | none => f
      formatOrderByFullC fuel f rest true

/-- `ORDER BY` item loop printing only `DESC` (window specs, UPDATE and
DELETE). -/
def formatOrderByDescC (fuel : Nat) (f : Formatter) (xs : List OrderByExpr) (started : Bool) :
    Formatter :=
  match fuel with
  | 0 => f
  | fuel + 1 =>
    match xs with
    | [] => f
    | .mk _ _ e desc _ :: rest =>
      let f := if started then f.write ", ".data else f
      let f := formatExpr fuel f e
      let f := if desc then (f.write " ".data).writeKeyword "DESC".data else f
      formatOrderByDescC fuel f rest true

/-- `Format` on a possibly-nil expression: nil formats nothing. -/
def formatOptExpr (fuel : Nat) (f : Formatter) (e : Option Expr) : Formatter :=
  match fuel with
  | 0 => f
  | fuel + 1 =>
    match e with
    | none => f
    | some e => formatExpr fuel f e

/-- `Format` dispatch over expression nodes (the expression arms of the Go
`Format` switch; `PositionExpr` has no arm in the source and so formats to
nothing). -/
def formatExpr (fuel : Nat) (f : Formatter) (e : Expr) : Formatter :=
  match fuel with
  | 0 => f
  | fuel + 1 =>
    match e with
    | .Lit l => f.formatLiteral l
    | .Col c => f.formatColName c
    | .Prm pr => f.formatParam pr
    | .Star s =>
      let f := if s.hasQualifier then (f.writeIdent s.tableName).write ".".data else f
      f.write "*".data
    | .Bin _ _ op left right =>
      let f := formatExpr fuel f left
      let f := (f.write " ".data).writeKeyword (tokenToString op)
      let f := f.write " ".data
      formatExpr fuel f right
    | .Un _ _ op operand =>
      let f :=
        if op == Tok.NOT then (f.writeKeyword "NOT".data).write " ".data
        else if op == Tok.MINUS then
          let f := f.write "-".data
          match operand with
          | some (.Un _ _ innerOp _) => if innerOp == Tok.MINUS then f.write " ".data else f
          | _ => f
        else if op == Tok.BITNOT then f.write "~".data
        else f
      formatOptExpr fuel f operand
    | .Paren _ _ inner =>
      let f := f.write "(".data
      let f := formatOptExpr fuel f inner
      f.write ")".data
    | .FuncE _ _ name distinct args _ filter over =>
      let f := f.writeFuncName name
      let f := f.write "(".data
      let f := if distinct then (f.writeKeyword "DISTINCT".data).write " ".data else f
      let f := formatExprsC fuel f args false
      let f := f.write ")".data
      let f := match filter with
        | some flt =>
          let f := ((f.write " ".data).writeKeyword "FILTER".data).write " (".data
          let f := (f.writeKeyword "WHERE".data).write " ".data
          (formatExpr fuel f flt).write ")".data
        | none => f
      match over with
      | some spec => formatWindowSpec fuel (f.write " ".data) spec
      | none => f
    | .CaseE _ _ operand whens els =>
      let f := f.writeKeyword "CASE".data
      let f := match operand with
        | some op => formatExpr fuel (f.write " ".data) op
        | none => f
      let f := formatWhensC fuel f whens
      let f := match els with
        | some e2 =>
          let f := ((f.write " ".data).writeKeyword "ELSE".data).write " ".data
          formatExpr fuel f e2
        | none => f
      (f.write " ".data).writeKeyword "END".data
    | .CastE _ _ inner ty =>
      let f := (f.writeKeyword "CAST".data).write "(".data
      let f := formatOptExpr fuel f inner
      let f := ((f.write " ".data).writeKeyword "AS".data).write " ".data
      (f.formatDataType ty).write ")".data
    | .InE _ _ inner not vals sel =>
      let f := formatExpr fuel f inner
      let f := if not then (f.write " ".data).writeKeyword "NOT".data else f
      let f := ((f.write " ".data).writeKeyword "IN".data).write " (".data
      let f := match sel with
        | some sel => formatSelect fuel f sel
        | none => formatExprsC fuel f vals false
      f.write ")".data
    | .BetweenE _ _ inner not low high =>
      let f := formatExpr fuel f inner
      let f := if not then (f.write " ".data).writeKeyword "NOT".data else f
      let f := ((f.write " ".data).writeKeyword "BETWEEN".data).write " ".data
      let f := formatOptExpr fuel f low
      let f := ((f.write " ".data).writeKeyword "AND".data).write " ".data
      formatOptExpr fuel f high
    | .LikeE _ _ inner pattern not escape ilike =>
      let f := formatExpr fuel f inner
      let f := if not then (f.write " ".data).writeKeyword "NOT".data else f
      let f := f.write " ".data
      let f := if ilike then f.writeKeyword "ILIKE".data else f.writeKeyword "LIKE".data
      let f := f.write " ".data
      let f := formatOptExpr fuel f pattern
      match escape with
      | some esc =>
        let f := ((f.write " ".data).writeKeyword "ESCAPE".data).write " ".data
        formatOptExpr fuel f (some esc)
      | none => f
    | .IsE _ _ inner not what =>
      let f := formatExpr fuel f inner
      let f := (f.write " ".data).writeKeyword "IS".data
      let f := if not then (f.write " ".data).writeKeyword "NOT".data else f
      let f := f.write " ".data
      match what with
      | .IsNull => f.writeKeyword "NULL".data
      | .IsTrue => f.writeKeyword "TRUE".data
      | .IsFalse => f.writeKeyword "FALSE".data
      | .IsUnknown => f.writeKeyword "UNKNOWN".data
    | .SubE (.mk _ _ sel) =>
      let f := f.write "(".data
      (formatSelect fuel f sel).write ")".data
    | .ExistsE _ _ not (.mk _ _ sel) =>
      let f := if not then (f.writeKeyword "NOT".data).write " ".data else f
      let f := (f.writeKeyword "EXISTS".data).write " ".data
      let f := f.write "(".data
      (formatSelect fuel f sel).write ")".data
    | .Interval _ _ value unit =>
      let f := (f.writeKeyword "INTERVAL".data).write " ".data
      let f := formatOptExpr fuel f value
      if unit != [] then (f.write " ".data).writeKeyword unit else f
    | .Extract _ _ field source =>
      let f := (f.writeKeyword "EXTRACT".data).write "(".data
      let f := f.writeIdent field
      let f := ((f.write " ".data).writeKeyword "FROM".data).write " ".data
      (formatOptExpr fuel f source).write ")".data
    | .TrimE _ _ trimType trimChar inner =>
      let f := (f.writeKeyword "TRIM".data).write "(".data
      let f := match trimType with
        | .Leading => (f.writeKeyword "LEADING".data).write " ".data
        | .Trailing => (f.writeKeyword "TRAILING".data).write " ".data
        | .Both => (f.writeKeyword "BOTH".data).write " ".data
      let f := match trimChar with
        | some tc => (formatExpr fuel f tc).write " ".data
        | none => f
      let f := (f.writeKeyword "FROM".data).write " ".data
      (formatOptExpr fuel f inner).write ")".data
    | .SubstringE _ _ inner fromE forE =>
      let f := (f.writeKeyword "SUBSTRING".data).write "(".data
      let f := formatOptExpr fuel f inner
      let f := match fromE with
        | some e2 =>
          let f := ((f.write " ".data).writeKeyword "FROM".data).write " ".data
          formatExpr fuel f e2
        | none => f
      let f := match forE with
        | some e2 =>
          let f := ((f.write " ".data).writeKeyword "FOR".data).write " ".data
          formatExpr fuel f e2
        | none => f
      f.write ")".data
    | .PositionE _ _ _ _ => f
    | .ArrayE _ _ elements =>
      let f := (f.writeKeyword "ARRAY".data).write "[ ".data
      let f := formatExprsC fuel f elements false
      f.write " ]".data
    | .SubscriptE _ _ inner index =>
      let f := formatExpr fuel f inner
      let f := f.write "[ ".data
      (formatExpr fuel f index).write " ]".data
    | .CollateE _ _ inner collation =>
      let f := formatExpr fuel f inner
      let f := ((f.write " ".data).writeKeyword "COLLATE".data).write " ".data
      f.write collation

/-- `WHEN ... THEN ...` loop of `formatCaseExpr`. -/
def formatWhensC (fuel : Nat) (f : Formatter) (whens : List When) : Formatter :=
  match fuel with
  | 0 => f
  | fuel + 1 =>
    match whens with
    | [] => f
    | .mk cond result :: rest =>
      let f := ((f.write " ".data).writeKeyword "WHEN".data).write " ".data
      let f := formatOptExpr fuel f cond
      let f := ((f.write " ".data).writeKeyword "THEN".data).write " ".data
      let f := formatOptExpr fuel f result
      formatWhensC fuel f rest

/-- `Format` dispatch over select-list items. -/
def formatSelectExpr (fuel : Nat) (f : Formatter) (se : SelectExpr) : Formatter :=
  match fuel with
  | 0 => f
  | fuel + 1 =>
    match se with
    | .Aliased _ _ e aliasName =>
      let f := formatExpr fuel f e
      if aliasName != [] then
        let f := ((f.write " ".data).writeKeyword "AS".data).write " ".data
        f.writeIdent aliasName
      else f
    | .StarSel s =>
      let f := if s.hasQualifier then (f.writeIdent s.tableName).write ".".data else f
      f.write "*".data

/-- `Format` on a possibly-nil table expression. -/
def formatOptTableExpr (fuel : Nat) (f : Formatter) (t : Option TableExpr) : Formatter :=
  match fuel with
  | 0 => f
  | fuel + 1 =>
    match t with
    | none => f
    | some t => formatTableExpr fuel f t

/-- `Format` dispatch over table expressions. -/
def formatTableExpr (fuel : Nat) (f : Formatter) (t : TableExpr) : Formatter :=
  match fuel with
  | 0 => f
  | fuel + 1 =>
    match t with
    | .TName tn => f.formatTableName tn
    | .ATE _ _ e aliasName _hints =>
      let f := formatTableExpr fuel f e
      if aliasName != [] then
        let f := ((f.write " ".data).writeKeyword "AS".data).write " ".data
        f.writeIdent aliasName
      else f
    | .JoinE _ _ jt left right onE usingS natural _lateral =>
      let f := formatOptTableExpr fuel f left
      let f := f.write " ".data
      let f := if natural then (f.writeKeyword "NATURAL".data).write " ".data else f
      let f := match jt with
        | .Inner => f.writeKeyword "JOIN".data
        | .Left => f.writeKeyword "LEFT JOIN".data
        | .Right => f.writeKeyword "RIGHT JOIN".data
        | .Full => f.writeKeyword "FULL JOIN".data
        | .Cross => f.writeKeyword "CROSS JOIN".data
      let f := f.write " ".data
      let f := formatOptTableExpr fuel f right
      let f := match onE with
        | some e =>
          let f := ((f.write " ".data).writeKeyword "ON".data).write " ".data
          formatExpr fuel f e
        | none => f
      if usingS.length > 0 then
        let f := ((f.write " ".data).writeKeyword "USING".data).write " (".data
        let f := (usingS.foldl (fun (acc : Formatter × Bool) col =>
          let f := acc.1
          let f := if acc.2 then f.write ", ".data else f
          (f.writeIdent col, true)) (f, false)).1
        f.write ")".data
      else f
    | .ParenT _ _ inner =>
      let f := f.write "(".data
      (formatOptTableExpr fuel f inner).write ")".data
    | .SubT (.mk _ _ sel) =>
      let f := f.write "(".data
      (formatSelect fuel f sel).write ")".data
    | .ValuesT v => formatValuesStmt fuel f v

/-- `formatValuesStmt`. -/
def formatValuesStmt (fuel : Nat) (f : Formatter) (v : ValuesStmt) : Formatter :=
  match fuel with
  | 0 => f
  | fuel + 1 =>
    match v with
    | .mk _ _ rows =>
      let f := (f.writeKeyword "VALUES".data).write " ".data
      formatValuesRowsC fuel f rows false

/-- Row loop of `formatValuesStmt` and `formatInsert`. -/
def formatValuesRowsC (fuel : Nat) (f : Formatter) (rows : List (List Expr)) (started : Bool) :
    Formatter :=
  match fuel with
  | 0 => f
  | fuel + 1 =>
    match rows with
    | [] => f
    | row :: rest =>
      let f := if started then f.write ", ".data else f
      let f := f.write "(".data
      let f := formatExprsC fuel f row false
      let f := f.write ")".data
      formatValuesRowsC fuel f rest true

/-- `formatWindowSpec`. -/
def formatWindowSpec (fuel : Nat) (f : Formatter) (spec : WindowSpec) : Formatter :=
  match fuel with
  | 0 => f
  | fuel + 1 =>
    match spec with
    | .mk _ _ name partitionBy orderBy frame =>
      let f := (f.writeKeyword "OVER".data).write " ".data
      if name != [] && partitionBy.length == 0 && orderBy.length == 0 && frame.isNone then
        f.writeIdent name
      else
        let f := f.write "(".data
        let f := if name != [] then f.writeIdent name else f
        let f := if partitionBy.length > 0 then
            let f := if name != [] then f.write " ".data else f
            let f := (f.writeKeyword "PARTITION BY".data).write " ".data
            formatExprsC fuel f partitionBy false
          else f
        let f := if orderBy.length > 0 then
            let f := if name != [] || partitionBy.length > 0 then f.write " ".data else f
            let f := (f.writeKeyword "ORDER BY".data).write " ".data
            formatOrderByDescC fuel f orderBy false
          else f
        let f := match frame with
          | some fr => formatWindowFrame fuel (f.write " ".data) fr
          | none => f
        f.write ")".data

/-- `formatWindowFrame`. -/
def formatWindowFrame (fuel : Nat) (f : Formatter) (frame : WindowFrame) : Formatter :=
  match fuel with
  | 0 => f
  | fuel + 1 =>
    match frame with
    | .mk ftype start endB =>
      let f := match ftype with
        | .Rows => f.writeKeyword "ROWS".data
        | .Range => f.writeKeyword "RANGE".data
        | .Groups => f.writeKeyword "GROUPS".data
      let f := f.write " ".data
      match endB with
      | some e =>
        let f := (f.writeKeyword "BETWEEN".data).write " ".data
        let f := formatFrameBound fuel f start
        let f := ((f.write " ".data).writeKeyword "AND".data).write " ".data
        formatFrameBound fuel f e
      | none => formatFrameBound fuel f start

/-- `formatFrameBound`. -/
def formatFrameBound (fuel : Nat) (f : Formatter) (bound : FrameBound) : Formatter :=
  match fuel with
  | 0 => f
  | fuel + 1 =>
    match bound with
    | .mk btype offset =>
      match btype with
      | .CurrentRow => f.writeKeyword "CURRENT ROW".data
      | .UnboundedPreceding => f.writeKeyword "UNBOUNDED PRECEDING".data
      | .UnboundedFollowing => f.writeKeyword "UNBOUNDED FOLLOWING".data
      | .Preceding =>
        let f := formatOptExpr fuel f offset
        (f.write " ".data).writeKeyword "PRECEDING".data
      | .Following =>
        let f := formatOptExpr fuel f offset
        (f.write " ".data).writeKeyword "FOLLOWING".data

/-- `formatWithClause`. -/
def formatWithClause (fuel : Nat) (f : Formatter) (w : WithClause) : Formatter :=
  match fuel with
  | 0 => f
  | fuel + 1 =>
    match w with
    | .mk recursive ctes =>
      let f := f.writeKeyword "WITH".data
      let f := if recursive then (f.write " ".data).writeKeyword "RECURSIVE".data else f
      let f := f.write " ".data
      formatCTEsC fuel f ctes false

/-- CTE loop of `formatWithClause`. -/
def formatCTEsC (fuel : Nat) (f : Formatter) (ctes : List CTE) (started : Bool) : Formatter :=
  match fuel with
  | 0 => f
  | fuel + 1 =>
    match ctes with
    | [] => f
    | .mk name columns query :: rest =>
      let f := if started then f.write ", ".data else f
      let f := f.writeIdent name
      let f := if columns.length > 0 then
          let f := f.write " (".data
          let f := (columns.foldl (fun (acc : Formatter × Bool) col =>
            let f := acc.1
            let f := if acc.2 then f.write ", ".data else f
            (f.writeIdent col, true)) (f, false)).1
          f.write ")".data
        else f
      let f := ((f.write " ".data).writeKeyword "AS".data).write " (".data
      let f := formatOptStatement fuel f query
      let f := f.write ")".data
      formatCTEsC fuel f rest true

/-- `formatSelect`. -/
def formatSelect (fuel : Nat) (f : Formatter) (s : SelectStmt) : Formatter :=
  match fuel with
  | 0 => f
  | fuel + 1 =>
    match s with
    | .mk _ _ withC distinct columns fromE whereE groupBy having orderBy limit lock _ _ =>
      let f := match withC with
        | some w => (formatWithClause fuel f w).write " ".data
        | none => f
      let f := f.writeKeyword "SELECT".data
      let f := if distinct then (f.write " ".data).writeKeyword "DISTINCT".data else f
      let f := f.write " ".data
      let f := formatSelectExprsC fuel f columns false
      let f := match fromE with
        | some t =>
          let f := ((f.write " ".data).writeKeyword "FROM".data).write " ".data
          formatTableExpr fuel f t
        | none => f
      let f := match whereE with
        | some e =>
          let f := ((f.write " ".data).writeKeyword "WHERE".data).write " ".data
          formatExpr fuel f e
        | none => f
      let f := if groupBy.length > 0 then
          let f := ((f.write " ".data).writeKeyword "GROUP BY".data).write " ".data
          formatExprsC fuel f groupBy false
        else f
      let f := match having with
        | some e =>
          let f := ((f.write " ".data).writeKeyword "HAVING".data).write " ".data
          formatExpr fuel f e
        | none => f
      let f := if orderBy.length > 0 then
          let f := ((f.write " ".data).writeKeyword "ORDER BY".data).write " ".data
          formatOrderByFullC fuel f orderBy false
        else f
      let f := match limit with
        | some (.mk _ _ count offset) =>
          let f := match count with
            | some c =>
              let f := ((f.write " ".data).writeKeyword "LIMIT".data).write " ".data
              formatExpr fuel f c
            | none => f
          match offset with
          | some o =>
            let f := ((f.write " ".data).writeKeyword "OFFSET".data).write " ".data
            formatExpr fuel f o
          | none => f
        | none => f
      if lock != [] then
        let f := ((f.write " ".data).writeKeyword "FOR".data).write " ".data
        f.writeKeyword lock
      else f

/-- `SET`-assignment loop used by `formatInsert` (`writeIdent` on the
column's last part). -/
def formatUpdateExprsNameC (fuel : Nat) (f : Formatter) (xs : List UpdateExpr) (started : Bool) :
    Formatter :=
  match fuel with
  | 0 => f
  | fuel + 1 =>
    match xs with
    | [] => f
    | .mk col e :: rest =>
      let f := if started then f.write ", ".data else f
      let f := f.writeIdent col.Name
      let f := f.write " = ".data
      let f := formatOptExpr fuel f e
      formatUpdateExprsNameC fuel f rest true

/-- `SET`-assignment loop used by `formatUpdate` (`formatColName` on the
full column). -/
def formatUpdateExprsColC (fuel : Nat) (f : Formatter) (xs : List UpdateExpr) (started : Bool) :
    Formatter :=
  match fuel with
  | 0 => f
  | fuel + 1 =>
    match xs with
    | [] => f
    | .mk col e :: rest =>
      let f := if started then f.write ", ".data else f
      let f := f.formatColName col
      let f := f.write " = ".data
      let f := formatOptExpr fuel f e
      formatUpdateExprsColC fuel f rest true

/-- `formatInsert`. -/
def formatInsert (fuel : Nat) (f : Formatter) (s : InsertStmt) : Formatter :=
  match fuel with
  | 0 => f
  | fuel + 1 =>
    match s with
    | .mk _ _ withC replace ignore table columns values select onDup onConflict returning =>
      let f := match withC with
        | some w => (formatWithClause fuel f w).write " ".data
        | none => f
      let f := if replace then f.writeKeyword "REPLACE".data else f.writeKeyword "INSERT".data
      let f := if ignore then (f.write " ".data).writeKeyword "IGNORE".data else f
      let f := ((f.write " ".data).writeKeyword "INTO".data).write " ".data
      let f := match table with
        | some t => f.formatTableName t
        | none => f
      let f := if columns.length > 0 then
          let f := f.write " (".data
          let f := (columns.foldl (fun (acc : Formatter × Bool) col =>
            let f := acc.1
            let f := if acc.2 then f.write ", ".data else f
            (f.writeIdent col.Name, true)) (f, false)).1
          f.write ")".data
        else f
      let f := match select with
        | some sel => formatSelect fuel (f.write " ".data) sel
        | none =>
          if values.length > 0 then
            let f := ((f.write " ".data).writeKeyword "VALUES".data).write " ".data
            formatValuesRowsC fuel f values false
          else f
      let f := if onDup.length > 0 then
          let f := ((f.write " ".data).writeKeyword "ON DUPLICATE KEY UPDATE".data).write " ".data
          formatUpdateExprsNameC fuel f onDup false
        else f
      let f := match onConflict with
        | some (.mk cols _ doNothing updates) =>
          let f := (f.write " ".data).writeKeyword "ON CONFLICT".data
          let f := if cols.length > 0 then
              let f := f.write " (".data
              let f := (cols.foldl (fun (acc : Formatter × Bool) col =>
                let f := acc.1
                let f := if acc.2 then f.write ", ".data else f
                (f.writeIdent col, true)) (f, false)).1
              f.write ")".data
            else f
          let f := ((f.write " ".data).writeKeyword "DO".data).write " ".data
          if doNothing then f.writeKeyword "NOTHING".data
          else
            let f := (f.writeKeyword "UPDATE SET".data).write " ".data
            formatUpdateExprsNameC fuel f updates false
        | none => f
      if returning.length > 0 then
        let f := ((f.write " ".data).writeKeyword "RETURNING".data).write " ".data
        formatSelectExprsC fuel f returning false
      else f

/-- `formatUpdate`. -/
def formatUpdate (fuel : Nat) (f : Formatter) (s : UpdateStmt) : Formatter :=
  match fuel with
  | 0 => f
  | fuel + 1 =>
    match s with
    | .mk _ _ withC table set fromE whereE orderBy limit returning =>
      let f := match withC with
        | some w => (formatWithClause fuel f w).write " ".data
        | none => f
      let f := (f.writeKeyword "UPDATE".data).write " ".data
      let f := formatOptTableExpr fuel f table
      let f := ((f.write " ".data).writeKeyword "SET".data).write " ".data
      let f := formatUpdateExprsColC fuel f set false
      let f := match fromE with
        | some t =>
          let f := ((f.write " ".data).writeKeyword "FROM".data).write " ".data
          formatTableExpr fuel f t
        | none => f
      let f := match whereE with
        | some e =>
          let f := ((f.write " ".data).writeKeyword "WHERE".data).write " ".data
          formatExpr fuel f e
        | none => f
      let f := if orderBy.length > 0 then
          let f := ((f.write " ".data).writeKeyword "ORDER BY".data).write " ".data
          formatOrderByDescC fuel f orderBy false
        else f
      let f := match limit with
        | some (.mk _ _ (some c) _) =>
          let f := ((f.write " ".data).writeKeyword "LIMIT".data).write " ".data
          formatExpr fuel f c
        | _ => f
      if returning.length > 0 then
        let f := ((f.write " ".data).writeKeyword "RETURNING".data).write " ".data
        formatSelectExprsC fuel f returning false
      else f

/-- `formatDelete`. -/
def formatDelete (fuel : Nat) (f : Formatter) (s : DeleteStmt) : Formatter :=
  match fuel with
  | 0 => f
  | fuel + 1 =>
    match s with
    | .mk _ _ withC table usingE whereE orderBy limit returning =>
      let f := match withC with
        | some w => (formatWithClause fuel f w).write " ".data
        | none => f
      let f := (f.writeKeyword "DELETE FROM".data).write " ".data
      let f := formatOptTableExpr fuel f table
      let f := match usingE with
        | some t =>
          let f := ((f.write " ".data).writeKeyword "USING".data).write " ".data
          formatTableExpr fuel f t
        | none => f
      let f := match whereE with
        | some e =>
          let f := ((f.write " ".data).writeKeyword "WHERE".data).write " ".data
          formatExpr fuel f e
        | none => f
      let f := if orderBy.length > 0 then
          let f := ((f.write " ".data).writeKeyword "ORDER BY".data).write " ".data
          formatOrderByDescC fuel f orderBy false
        else f
      let f := match limit with
        | some (.mk _ _ (some c) _) =>
          let f := ((f.write " ".data).writeKeyword "LIMIT".data).write " ".data
          formatExpr fuel f c
        | _ => f
      if returning.length > 0 then
        let f := ((f.write " ".data).writeKeyword "RETURNING".data).write " ".data
        formatSelectExprsC fuel f returning false
      else f

/-- `formatColumnConstraint` (a `Generated` constraint has no arm in the
source switch and formats to nothing). -/
def formatColumnConstraint (fuel : Nat) (f : Formatter) (cons : ColumnConstraint) : Formatter :=
  match fuel with
  | 0 => f
  | fuel + 1 =>
    match cons with
    | .mk _ ctype _ dflt chk references _ =>
      match ctype with
      | .NotNull => f.writeKeyword "NOT NULL".data
      | .PrimaryKey => f.writeKeyword "PRIMARY KEY".data
      | .Unique => f.writeKeyword "UNIQUE".data
      | .Default =>
        let f := (f.writeKeyword "DEFAULT".data).write " ".data
        formatOptExpr fuel f dflt
      | .Check =>
        let f := (f.writeKeyword "CHECK".data).write " (".data
        (formatOptExpr fuel f chk).write ")".data
      | .ForeignKey =>
        let f := (f.writeKeyword "REFERENCES".data).write " ".data
        (match references with
        | some ref =>
          let f := match ref.table with
            | some t => f.formatTableName t
            | none => f
          if ref.columns.length > 0 then
            let f := f.write " (".data
            let f := (ref.columns.foldl (fun (acc : Formatter × Bool) col =>
              let f := acc.1
              let f := if acc.2 then f.write ", ".data else f
              (f.writeIdent col, true)) (f, false)).1
            f.write ")".data
          else f
        | none => f)
      | .Generated => f

/-- `formatColumnDef`. -/
def formatColumnDef (fuel : Nat) (f : Formatter) (col : ColumnDef) : Formatter :=
  match fuel with
  | 0 => f
  | fuel + 1 =>
    match col with
    | .mk name ty constraints =>
      let f := (f.writeIdent name).write " ".data
      let f := f.formatDataType ty
      formatColumnConstraintsC fuel f constraints

/-- Constraint loop of `formatColumnDef`. -/
def formatColumnConstraintsC (fuel : Nat) (f : Formatter) (xs : List ColumnConstraint) :
    Formatter :=
  match fuel with
  | 0 => f
  | fuel + 1 =>
    match xs with
    | [] => f
    | c :: rest =>
      let f := formatColumnConstraint fuel (f.write " ".data) c
      formatColumnConstraintsC fuel f rest

/-- `formatTableConstraint` (only the four kinds the source switches on
produce output beyond the optional name). -/
def formatTableConstraint (fuel : Nat) (f : Formatter) (tc : TableConstraint) : Formatter :=
  match fuel with
  | 0 => f
  | fuel + 1 =>
    match tc with
    | .mk name ctype columns references chk =>
      let f := if name != [] then
          (((f.writeKeyword "CONSTRAINT".data).write " ".data).writeIdent name).write " ".data
        else f
      let colsOut (f : Formatter) : Formatter :=
        let f := f.write " (".data
        let f := (columns.foldl (fun (acc : Formatter × Bool) col =>
          let f := acc.1
          let f := if acc.2 then f.write ", ".data else f
          (f.writeIdent col, true)) (f, false)).1
        f.write ")".data
      match ctype with
      | .PrimaryKey => colsOut (f.writeKeyword "PRIMARY KEY".data)
      | .Unique => colsOut (f.writeKeyword "UNIQUE".data)
      | .ForeignKey =>
        let f := colsOut (f.writeKeyword "FOREIGN KEY".data)
        let f := ((f.write " ".data).writeKeyword "REFERENCES".data).write " ".data
        (match references with
        | some ref =>
          let f := match ref.table with
            | some t => f.formatTableName t
            | none => f
          if ref.columns.length > 0 then
            let f := f.write " (".data
            let f := (ref.columns.foldl (fun (acc : Formatter × Bool) col =>
              let f := acc.1
              let f := if acc.2 then f.write ", ".data else f
              (f.writeIdent col, true)) (f, false)).1
            f.write ")".data
          else f
        | none => f)
      | .Check =>
        let f := (f.writeKeyword "CHECK".data).write " (".data
        (formatOptExpr fuel f chk).write ")".data
      | _ => f

/-- `formatCreateTable`. -/
def formatCreateTable (fuel : Nat) (f : Formatter) (s : CreateTableStmt) : Formatter :=
  match fuel with
  | 0 => f
  | fuel + 1 =>
    match s with
    | .mk _ _ ifNotExists temporary table columns constraints options asSel =>
      let f := f.writeKeyword "CREATE".data
      let f := if temporary then (f.write " ".data).writeKeyword "TEMPORARY".data else f
      let f := (f.write " ".data).writeKeyword "TABLE".data
      let f := if ifNotExists then (f.write " ".data).writeKeyword "IF NOT EXISTS".data else f
      let f := f.write " ".data
      let f := match table with
        | some t => f.formatTableName t
        | none => f
      match asSel with
      | some sel =>
        let f := ((f.write " ".data).writeKeyword "AS".data).write " ".data
        formatSelect fuel f sel
      | none =>
        let f := f.write " (".data
        let f := formatColumnDefsC fuel f columns false
        let f := formatTableConstraintsC fuel f constraints (columns.length > 0)
        let f := f.write ")".data
        options.foldl (fun f (opt : TableOption) =>
          (((f.write " ".data).write opt.name).write "=".data).write opt.value) f

/-- Column loop of `formatCreateTable`. -/
def formatColumnDefsC (fuel : Nat) (f : Formatter) (xs : List ColumnDef) (started : Bool) :
    Formatter :=
  match fuel with
  | 0 => f
  | fuel + 1 =>
    match xs with
    | [] => f
    | c :: rest =>
      let f := if started then f.write ", ".data else f
      let f := formatColumnDef fuel f c
      formatColumnDefsC fuel f rest true

/-- Constraint loop of `formatCreateTable`. -/
def formatTableConstraintsC (fuel : Nat) (f : Formatter) (xs : List TableConstraint)
    (started : Bool) : Formatter :=
  match fuel with
  | 0 => f
  | fuel + 1 =>
    match xs with
    | [] => f
    | c :: rest =>
      let f := if started then f.write ", ".data else f
      let f := formatTableConstraint fuel f c
      formatTableConstraintsC fuel f rest true

/-- `formatAlterTable`. -/
def formatAlterTable (fuel : Nat) (f : Formatter) (s : AlterTableStmt) : Formatter :=
  match fuel with
  | 0 => f
  | fuel + 1 =>
    match s with
    | .mk _ _ table actions =>
      let f := (f.writeKeyword "ALTER TABLE".data).write " ".data
      let f := match table with
        | some t => f.formatTableName t
        | none => f
      formatAlterActionsC fuel f actions false

/-- Action loop of `formatAlterTable`. -/
def formatAlterActionsC (fuel : Nat) (f : Formatter) (xs : List AlterTableAction)
    (started : Bool) : Formatter :=
  match fuel with
  | 0 => f
  | fuel + 1 =>
    match xs with
    | [] => f
    | a :: rest =>
      let f := if started then f.write ",".data else f
      let f := f.write " ".data
      let f := match a with
        | .AddCol col =>
          let f := (f.writeKeyword "ADD COLUMN".data).write " ".data
          (match col with
          | some col => formatColumnDef fuel f col
          | none => f)
        | .DropCol name ifExists cascade =>
          let f := f.writeKeyword "DROP COLUMN".data
          let f := if ifExists then (f.write " ".data).writeKeyword "IF EXISTS".data else f
          let f := (f.write " ".data).writeIdent name
          if cascade then (f.write " ".data).writeKeyword "CASCADE".data else f
        | .RenameCol oldName newName =>
          let f := (f.writeKeyword "RENAME COLUMN".data).write " ".data
          let f := f.writeIdent oldName
          let f := ((f.write " ".data).writeKeyword "TO".data).write " ".data
          f.writeIdent newName
        | .RenameTbl newName =>
          let f := (f.writeKeyword "RENAME TO".data).write " ".data
          (match newName with
          | some t => f.formatTableName t
          | none => f)
        | .ModifyCol name newDef setDefault dropDefault setNotNull dropNotNull =>
          let f := (f.writeKeyword "MODIFY COLUMN".data).write " ".data
          (match newDef with
          | some d => formatColumnDef fuel f d
          | none =>
            let f := f.writeIdent name
            let f := if setNotNull then (f.write " ".data).writeKeyword "SET NOT NULL".data else f
            let f := match setDefault with
              | some e =>
                let f := ((f.write " ".data).writeKeyword "SET DEFAULT".data).write " ".data
                formatExpr fuel f e
              | none => f
            let f := if dropNotNull then (f.write " ".data).writeKeyword "DROP NOT NULL".data else f
            if dropDefault then (f.write " ".data).writeKeyword "DROP DEFAULT".data else f)
        | .AddConstr tc =>
          let f := (f.writeKeyword "ADD".data).write " ".data
          formatTableConstraint fuel f tc
        | .DropConstr name ifExists cascade =>
          let f := f.writeKeyword "DROP CONSTRAINT".data
          let f := if ifExists then (f.write " ".data).writeKeyword "IF EXISTS".data else f
          let f := (f.write " ".data).writeIdent name
          if cascade then (f.write " ".data).writeKeyword "CASCADE".data else f
      formatAlterActionsC fuel f rest true

/-- `formatCreateIndex` (the `NULLS` ordering is not emitted by the source). -/
def formatCreateIndex (fuel : Nat) (f : Formatter) (s : CreateIndexStmt) : Formatter :=
  match fuel with
  | 0 => f
  | fuel + 1 =>
    match s with
    | .mk _ _ ifNotExists unique concurrent name table columns usingS whereE =>
      let f := f.writeKeyword "CREATE".data
      let f := if unique then (f.write " ".data).writeKeyword "UNIQUE".data else f
      let f := (f.write " ".data).writeKeyword "INDEX".data
      let f := if concurrent then (f.write " ".data).writeKeyword "CONCURRENTLY".data else f
      let f := if ifNotExists then (f.write " ".data).writeKeyword "IF NOT EXISTS".data else f
      let f := if name != [] then (f.write " ".data).writeIdent name else f
      let f := ((f.write " ".data).writeKeyword "ON".data).write " ".data
      let f := match table with
        | some t => f.formatTableName t
        | none => f
      let f := if usingS != [] then
          (((f.write " ".data).writeKeyword "USING".data).write " ".data).write usingS
        else f
      let f := f.write " (".data
      let f := formatIndexColsC fuel f columns false
      let f := f.write ")".data
      match whereE with
      | some e =>
        let f := ((f.write " ".data).writeKeyword "WHERE".data).write " ".data
        formatExpr fuel f e
      | none => f

/-- Column loop of `formatCreateIndex`. -/
def formatIndexColsC (fuel : Nat) (f : Formatter) (xs : List IndexColumn) (started : Bool) :
    Formatter :=
  match fuel with
  | 0 => f
  | fuel + 1 =>
    match xs with
    | [] => f
    | .mk column e desc _ :: rest =>
      let f := if started then f.write ", ".data else f
      let f := match e with
        | some e => formatExpr fuel f e
        | none => f.writeIdent column
      let f := if desc then (f.write " ".data).writeKeyword "DESC".data else f
      formatIndexColsC fuel f rest true

/-- `formatExplain`. -/
def formatExplain (fuel : Nat) (f : Formatter) (s : ExplainStmt) : Formatter :=
  match fuel with
  | 0 => f
  | fuel + 1 =>
    match s with
    | .mk _ _ analyze verbose format stmt =>
      let f := f.writeKeyword "EXPLAIN".data
      let f := if analyze then (f.write " ".data).writeKeyword "ANALYZE".data else f
      let f := if verbose then (f.write " ".data).writeKeyword "VERBOSE".data else f
      let f := if format != [] then
          (((f.write " ".data).writeKeyword "FORMAT".data).write " ".data).write format
        else f
      let f := f.write " ".data
      formatOptStatement fuel f stmt

/-- `formatSetOp`. -/
def formatSetOp (fuel : Nat) (f : Formatter) (s : SetOp) : Formatter :=
  match fuel with
  | 0 => f
  | fuel + 1 =>
    match s with
    | .mk _ _ stype all left right _ _ =>
      let f := formatOptStatement fuel f left
      let f := f.write " ".data
      let f := match stype with
        | .Union => f.writeKeyword "UNION".data
        | .Intersect => f.writeKeyword "INTERSECT".data
        | .Except => f.writeKeyword "EXCEPT".data
      let f := if all then (f.write " ".data).writeKeyword "ALL".data else f
      let f := f.write " ".data
      formatOptStatement fuel f right

/-- `Format` on a possibly-nil statement. -/
def formatOptStatement (fuel : Nat) (f : Formatter) (s : Option Statement) : Formatter :=
  match fuel with
  | 0 => f
  | fuel + 1 =>
    match s with
    | none => f
    | some s => formatStatement fuel f s

/-- `Format` dispatch over statements. -/
def formatStatement (fuel : Nat) (f : Formatter) (s : Statement) : Formatter :=
  match fuel with
  | 0 => f
  | fuel + 1 =>
    match s with
    | .SelectS s => formatSelect fuel f s
    | .InsertS s => formatInsert fuel f s
    | .UpdateS s => formatUpdate fuel f s
    | .DeleteS s => formatDelete fuel f s
    | .CreateTableS s => formatCreateTable fuel f s
    | .AlterTableS s => formatAlterTable fuel f s
    | .DropTableS s => f.formatDropTable s
    | .CreateIndexS s => formatCreateIndex fuel f s
    | .DropIndexS s => f.formatDropIndex s
    | .TruncateS s => f.formatTruncate s
    | .ExplainS s => formatExplain fuel f s
    | .SetOpS s => formatSetOp fuel f s
    | .ValuesS s => formatValuesStmt fuel f s

end

/-- Formatter fuel: the formatting recursion is bounded by the tree depth,
far below this. -/
def fmtFuel : Nat := 100000

/-- `format.String` / `machparse.String` on a statement with the default
options. -/
def StringOf (s : Statement) : List Char :=
  (formatStatement fmtFuel (Formatter.new DefaultOptions) s).buf

/-! Projections and discriminators used by the claim statements. -/

/-- Whether a statement is a set-operation node. -/
def Statement.isSetOpS : Statement → Bool
  | .SetOpS _ => true
  | _ => false

/-- The insert node of a statement, when it is one. -/
def Statement.insertOf : Statement → Option InsertStmt
  | .InsertS s => some s
  | _ => none

/-- The select node of a statement, when it is one. -/
def Statement.selectOf : Statement → Option SelectStmt
  | .SelectS s => some s
  | _ => none

/-- The `Where` clause of a select node. -/
def SelectStmt.whereOf : SelectStmt → Option Expr
  | .mk _ _ _ _ _ _ w _ _ _ _ _ _ _ => w

/-- The `Values` rows of an insert node. -/
def InsertStmt.valuesOf : InsertStmt → List (List Expr)
  | .mk _ _ _ _ _ _ _ v _ _ _ _ => v

/-- The `Select` source of an insert node. -/
def InsertStmt.selectOf : InsertStmt → Option SelectStmt
  | .mk _ _ _ _ _ _ _ _ s _ _ _ => s

/-- The operator of a top-level binary node. -/
def Expr.topBinOp : Expr → Option Tok
  | .Bin _ _ op _ _ => some op
  | _ => none

/-- Operator and operands of a top-level binary node. -/
def Expr.binParts : Expr → Option (Tok × Expr × Expr)
  | .Bin _ _ op l r => some (op, l, r)
  | _ => none

/-- Operand, negation flag and bounds of a top-level `BETWEEN` node. -/
def Expr.betweenParts : Expr → Option (Expr × Bool × Option Expr × Option Expr)
  | .BetweenE _ _ e n lo hi => some (e, n, lo, hi)
  | _ => none

/-- The dotted parts of a column-reference node. -/
def Expr.colParts : Expr → Option (List (List Char))
  | .Col c => some c.parts
  | _ => none

/-! Spec-side reference definitions, written from the specification text and
compared with the source embedding by the claim theorems. -/

/-- Spec wording: ASCII letter or underscore. -/
def specLetterOrUnderscore (c : Char) : Bool :=
  ('a' <= c && c <= 'z') || ('A' <= c && c <= 'Z') || c == '_'

/-- Spec wording: the identifier alphabet `[A-Za-z0-9_$]`. -/
def specIdentAlphabet (c : Char) : Bool :=
  ('a' <= c && c <= 'z') || ('A' <= c && c <= 'Z') || ('0' <= c && c <= '9') ||
    c == '_' || c == '$'

/-- Spec-side quoting rule without the keyword clause: empty, or a first
character that is no letter or underscore, or any character outside the
identifier alphabet. -/
def specNeedsQuotingNonKeyword (id : List Char) : Bool :=
  id.isEmpty || !specLetterOrUnderscore (id.headD ' ') || id.any (fun c => !specIdentAlphabet c)

/-- Spec-side quoting rule: the relaxed rule or a reserved keyword. -/
def specNeedsQuoting (id : List Char) : Bool :=
  specNeedsQuotingNonKeyword id || IsKeyword id

/-- Spec wording: the position one past the single closing delimiter of a
doubled-escape construct scanned from `pos`, or `none` when the input ends
first. -/
def specDelimCloseF (input : List Char) (close : Char) (fuel pos : Nat) : Option Nat :=
  match fuel with
  | 0 => none
  | fuel + 1 =>
    if pos < input.length then
      if chAt input pos == close then
        if pos + 1 < input.length && chAt input (pos + 1) == close then
          specDelimCloseF input close fuel (pos + 2)
        else some (pos + 1)
      else specDelimCloseF input close fuel (pos + 1)
    else none

/-- The spec-side close search with ample fuel. -/
def specDelimClose (input : List Char) (close : Char) (pos : Nat) : Option Nat :=
  specDelimCloseF input close (input.length + 1) pos

/-- Spec wording: the position one past the closing quote of a quoted
string scanned from `pos`, honouring the doubled-quote and backslash
escapes, or `none` when the input ends first. -/
def specStringCloseF (input : List Char) (quote : Char) (fuel pos : Nat) : Option Nat :=
  match fuel with
  | 0 => none
  | fuel + 1 =>
    if pos < input.length then
      if chAt input pos == quote then
        if pos + 1 < input.length && chAt input (pos + 1) == quote then
          specStringCloseF input quote fuel (pos + 2)
        else some (pos + 1)
      else if chAt input pos == '\\' && pos + 1 < input.length then
        specStringCloseF input quote fuel (pos + 2)
      else specStringCloseF input quote fuel (pos + 1)
    else none

/-- The spec-side string close search with ample fuel. -/
def specStringClose (input : List Char) (quote : Char) (pos : Nat) : Option Nat :=
  specStringCloseF input quote (input.length + 1) pos

/-- Spec wording: the position one past the closing star-slash of a block
comment scanned from `pos`, or `none` when the input ends first. -/
def specBlockCloseF (input : List Char) (fuel pos : Nat) : Option Nat :=
  match fuel with
  | 0 => none
  | fuel + 1 =>
    if pos < input.length then
      if chAt input pos == '*' && pos + 1 < input.length && chAt input (pos + 1) == '/' then
        some (pos + 2)
      else specBlockCloseF input fuel (pos + 1)
    else none

/-- The spec-side block-comment close search with ample fuel. -/
def specBlockClose (input : List Char) (pos : Nat) : Option Nat :=
  specBlockCloseF input (input.length + 1) pos

/-- Zero value of `ast.InsertStmt` (a pool node before initialisation); the
claim witnesses use it as an `Option.getD` fallback. -/
def InsertStmt.zero : InsertStmt :=
  .mk Pos.zero Pos.zero none false false none [] [] none [] none []

/-- Zero value of `ast.Literal` (a pool node before initialisation), wrapped
as an expression; the claim witnesses use it as an `Option.getD` fallback. -/
def Expr.zeroLit : Expr :=
  .Lit { startPos := Pos.zero, endPos := Pos.zero, type := .Null, value := [] }

/-! ## Theorems

Helper lemmas first, then one theorem per claim (with the witnesses and
counterexamples the claims call for). -/


theorem ite_snd_peeked {C : Prop} [Decidable C] (a b : Item × Lexer) (v : Bool)
    (ha : a.2.peeked = v) (hb : b.2.peeked = v) : (if C then a else b).2.peeked = v := by
  split <;> assumption

theorem single_peeked (l : Lexer) (t : Tok) (c : Char) : (l.single t c).2.peeked = l.peeked := rfl

theorem scanIdentifier_peeked (l : Lexer) : (l.scanIdentifier).2.peeked = l.peeked := rfl

theorem scanNumberExp_peeked (l : Lexer) (t : Tok) (pos : Nat) :
    (l.scanNumberExp t pos).2.peeked = l.peeked := by
  unfold Lexer.scanNumberExp
  split <;> rfl

theorem scanNumber_peeked (l : Lexer) : (l.scanNumber).2.peeked = l.peeked := by
  unfold Lexer.scanNumber
  repeat' first
    | rfl
    | apply scanNumberExp_peeked
    | split
    | dsimp only

theorem scanString_peeked (l : Lexer) (q : Char) : (l.scanString q).2.peeked = l.peeked := by
  unfold Lexer.scanString
  split <;> rfl

theorem scanQuotedIdentifier_peeked (l : Lexer) :
    (l.scanQuotedIdentifier).2.peeked = l.peeked := by
  unfold Lexer.scanQuotedIdentifier
  repeat' first
    | rfl
    | split
    | dsimp only

theorem scanBacktickIdentifier_peeked (l : Lexer) :
    (l.scanBacktickIdentifier).2.peeked = l.peeked := by
  unfold Lexer.scanBacktickIdentifier
  split <;> rfl

theorem scanBracketIdentifier_peeked (l : Lexer) :
    (l.scanBracketIdentifier).2.peeked = l.peeked := by
  unfold Lexer.scanBracketIdentifier
  split <;> rfl

theorem scanBracketOrLBracket_peeked (l : Lexer) :
    (l.scanBracketOrLBracket).2.peeked = l.peeked := by
  unfold Lexer.scanBracketOrLBracket
  split
  · apply scanBracketIdentifier_peeked
  · rfl

theorem scanLineComment_peeked (l : Lexer) : (l.scanLineComment).2.peeked = l.peeked := rfl

theorem scanMinus_peeked (l : Lexer) : (l.scanMinus).2.peeked = l.peeked := by
  unfold Lexer.scanMinus
  repeat' first
    | rfl
    | apply scanLineComment_peeked
    | split
    | dsimp only

theorem scanBlockComment_peeked (l : Lexer) : (l.scanBlockComment).2.peeked = l.peeked := by
  unfold Lexer.scanBlockComment
  split <;> rfl

theorem scanSlash_peeked (l : Lexer) : (l.scanSlash).2.peeked = l.peeked := by
  unfold Lexer.scanSlash
  repeat' first
    | rfl
    | apply scanBlockComment_peeked
    | split
    | dsimp only

theorem scanLessThan_peeked (l : Lexer) : (l.scanLessThan).2.peeked = l.peeked := by
  unfold Lexer.scanLessThan
  repeat' first
    | rfl
    | split
    | dsimp only

theorem scanGreaterThan_peeked (l : Lexer) : (l.scanGreaterThan).2.peeked = l.peeked := by
  unfold Lexer.scanGreaterThan
  repeat' first
    | rfl
    | split
    | dsimp only

theorem scanBang_peeked (l : Lexer) : (l.scanBang).2.peeked = l.peeked := by
  unfold Lexer.scanBang
  repeat' first
    | rfl
    | split
    | dsimp only

theorem scanPipe_peeked (l : Lexer) : (l.scanPipe).2.peeked = l.peeked := by
  unfold Lexer.scanPipe
  repeat' first
    | rfl
    | split
    | dsimp only

theorem scanQuestion_peeked (l : Lexer) : (l.scanQuestion).2.peeked = l.peeked := by
  unfold Lexer.scanQuestion
  repeat' first
    | rfl
    | split
    | dsimp only

theorem scanDollarQuotedStringContent_peeked (l : Lexer) (tag : List Char) :
    (l.scanDollarQuotedStringContent tag).2.peeked = l.peeked := by
  unfold Lexer.scanDollarQuotedStringContent
  repeat' first
    | rfl
    | split
    | dsimp only

theorem scanDollar_peeked (l : Lexer) : (l.scanDollar).2.peeked = l.peeked := by
  unfold Lexer.scanDollar
  repeat' first
    | rfl
    | apply scanDollarQuotedStringContent_peeked
    | split
    | dsimp only

theorem scanColon_peeked (l : Lexer) : (l.scanColon).2.peeked = l.peeked := by
  unfold Lexer.scanColon
  repeat' first
    | rfl
    | split
    | dsimp only

theorem hashComment_peeked (l : Lexer) : (l.hashComment).2.peeked = l.peeked := rfl

theorem scanHash_peeked (l : Lexer) : (l.scanHash).2.peeked = l.peeked := by
  unfold Lexer.scanHash
  repeat' first
    | rfl
    | apply hashComment_peeked
    | split
    | dsimp only

theorem scanAt_peeked (l : Lexer) : (l.scanAt).2.peeked = l.peeked := by
  unfold Lexer.scanAt
  repeat' first
    | rfl
    | split
    | dsimp only

theorem scan_peeked (l : Lexer) : (l.scan).2.peeked = l.peeked := by
  unfold Lexer.scan
  lift_lets
  intro l1 l2 ch l3
  repeat' first
    | rfl
    | rw [single_peeked]
    | rw [scanBracketOrLBracket_peeked]
    | rw [scanAt_peeked]
    | rw [scanNumber_peeked]
    | rw [scanMinus_peeked]
    | rw [scanSlash_peeked]
    | rw [scanString_peeked]
    | rw [scanQuotedIdentifier_peeked]
    | rw [scanBacktickIdentifier_peeked]
    | rw [scanLessThan_peeked]
    | rw [scanGreaterThan_peeked]
    | rw [scanBang_peeked]
    | rw [scanPipe_peeked]
    | rw [scanQuestion_peeked]
    | rw [scanDollar_peeked]
    | rw [scanColon_peeked]
    | rw [scanHash_peeked]
    | rw [scanIdentifier_peeked]
    | apply ite_snd_peeked

/-- C10: Peek previews exactly the next token and is side-effect-free. -/
theorem C10_peek_next_coherent (l : Lexer) :
    (l.Peek).1 = (l.Next).1 ∧ Lexer.Next (l.Peek).2 = l.Next ∧
      Lexer.Peek (l.Peek).2 = l.Peek := by
  unfold Lexer.Peek Lexer.Next
  by_cases h : l.peeked <;> simp [h, scan_peeked]







theorem needsQuotingNonKeyword_spec (id : List Char) :
    needsQuotingNonKeyword id = specNeedsQuotingNonKeyword id := by
  unfold needsQuotingNonKeyword specNeedsQuotingNonKeyword specLetterOrUnderscore
    specIdentAlphabet
  match id with
  | [] => rfl
  | c :: rest =>
    simp only [List.isEmpty_cons, List.headD_cons, List.any_cons, Bool.false_or]
    by_cases h1 : (('a' <= c && c <= 'z') || ('A' <= c && c <= 'Z') || c == '_') = true
    · have halpha : (!(('a' <= c && c <= 'z') || ('A' <= c && c <= 'Z') ||
          ('0' <= c && c <= '9') || c == '_' || c == '$')) = false := by
        simp only [Bool.or_eq_true] at h1
        simp only [Bool.not_eq_false', Bool.or_eq_true]
        rcases h1 with (h | h) | h
        · exact Or.inl (Or.inl (Or.inl (Or.inl h)))
        · exact Or.inl (Or.inl (Or.inl (Or.inr h)))
        · exact Or.inl (Or.inr h)
      simp [h1, halpha]
    · simp [h1]

/-- C9: the formatter quotes identifiers exactly per the spec predicate,
with doubled embedded quotes, and function names per the relaxed rule. -/
theorem C9_ident_quoting :
    (forall id, needsQuoting id = specNeedsQuoting id) ∧
    (forall (f : Formatter) id, (f.writeIdent id).buf
        = f.buf ++ (if specNeedsQuoting id then '"' :: escapeDQ id ++ ['"'] else id)) ∧
    (forall (f : Formatter) name, (f.writeFuncName name).buf
        = f.buf ++ (if specNeedsQuotingNonKeyword name then
            '"' :: escapeDQ name ++ ['"'] else name)) := by
  have hq : forall id, needsQuoting id = specNeedsQuoting id := by
    intro id
    unfold needsQuoting specNeedsQuoting
    rw [needsQuotingNonKeyword_spec]
  refine ⟨hq, fun f id => ?_, fun f name => ?_⟩
  · unfold Formatter.writeIdent Formatter.write
    rw [hq]
    split <;> rfl
  · unfold Formatter.writeFuncName Formatter.write
    rw [needsQuotingNonKeyword_spec]
    split <;> rfl





theorem scanDelimLoopF_found (input : List Char) (close : Char) :
    ∀ fuel pos line linePos e, specDelimCloseF input close fuel pos = some e →
      ∃ l2 lp2, scanDelimLoopF input close fuel pos line linePos = (true, e, l2, lp2) := by
  intro fuel
  induction fuel with
  | zero => intro pos line linePos e h; simp [specDelimCloseF] at h
  | succ fuel ih =>
    intro pos line linePos e h
    unfold specDelimCloseF at h
    unfold scanDelimLoopF
    by_cases h1 : pos < input.length
    · rw [if_pos h1] at h ⊢
      by_cases h2 : (chAt input pos == close) = true
      · rw [if_pos h2] at h
        simp only [h2, if_pos]
        by_cases h3 : (pos + 1 < input.length && (chAt input (pos + 1) == close)) = true
        · rw [if_pos h3] at h ⊢
          exact ih (pos + 2) line linePos e h
        · rw [if_neg h3] at h ⊢
          exact ⟨line, linePos, by simp_all⟩
      · rw [if_neg h2] at h
        simp only [h2, if_neg, Bool.false_eq_true, not_false_iff]
        exact ih (pos + 1) _ _ e h
    · rw [if_neg h1] at h; exact absurd h (by simp)

theorem scanDelimLoopF_unterminated (input : List Char) (close : Char) :
    ∀ fuel pos line linePos, specDelimCloseF input close fuel pos = none →
      pos ≤ input.length → input.length + 1 ≤ fuel + pos →
      ∃ l2 lp2, scanDelimLoopF input close fuel pos line linePos
        = (false, input.length, l2, lp2) := by
  intro fuel
  induction fuel with
  | zero => intro pos line linePos h hle hfuel; omega
  | succ fuel ih =>
    intro pos line linePos h hle hfuel
    unfold specDelimCloseF at h
    unfold scanDelimLoopF
    by_cases h1 : pos < input.length
    · rw [if_pos h1] at h ⊢
      by_cases h2 : (chAt input pos == close) = true
      · rw [if_pos h2] at h
        simp only [h2, if_pos]
        by_cases h3 : (pos + 1 < input.length && (chAt input (pos + 1) == close)) = true
        · rw [if_pos h3] at h ⊢
          refine ih (pos + 2) line linePos h ?_ ?_ <;> [skip; omega]
          have : pos + 1 < input.length := by
            rcases Bool.and_eq_true .. |>.mp h3 with ⟨h4, _⟩
            simpa using h4
          omega
        · rw [if_neg h3] at h
          simp at h
      · rw [if_neg h2] at h
        simp only [h2, if_neg, Bool.false_eq_true, not_false_iff]
        exact ih (pos + 1) _ _ h (by omega) (by omega)
    · rw [if_neg h1] at h ⊢
      have : pos = input.length := by omega
      exact ⟨line, linePos, by simp [this]⟩

/-- C6 (amended): at `[` the lexer scans a bracket identifier only when the
next character is an identifier start, `#` or `@` — otherwise it emits the
one-character `LBRACKET` token; the bracket identifier gives `IDENT` with
the raw content between the brackets when the closing `]` exists, and
`ILLEGAL` with the partial text to end of input when it does not. -/
theorem C6_bracket_dispatch (l : Lexer) (hs : l.start = l.pos) :
    (¬(l.pos + 1 < l.input.length ∧
        (isIdentStart (chAt l.input (l.pos + 1)) = true ∨
          chAt l.input (l.pos + 1) = '#' ∨ chAt l.input (l.pos + 1) = '@')) →
      (l.scanBracketOrLBracket).1.type = Tok.LBRACKET ∧
        (l.scanBracketOrLBracket).1.value = "[".data) ∧
    ((l.pos + 1 < l.input.length ∧
        (isIdentStart (chAt l.input (l.pos + 1)) = true ∨
          chAt l.input (l.pos + 1) = '#' ∨ chAt l.input (l.pos + 1) = '@')) →
      (∀ e, specDelimClose l.input ']' (l.pos + 1) = some e →
        (l.scanBracketOrLBracket).1.type = Tok.IDENT ∧
          (l.scanBracketOrLBracket).1.value = slice l.input (l.pos + 1) (e - 1)) ∧
      (specDelimClose l.input ']' (l.pos + 1) = none →
        (l.scanBracketOrLBracket).1.type = Tok.ILLEGAL ∧
          (l.scanBracketOrLBracket).1.value = slice l.input l.pos l.input.length)) := by
  constructor
  · intro hnot
    unfold Lexer.scanBracketOrLBracket
    rw [if_neg]
    · exact ⟨rfl, rfl⟩
    · intro hcond
      apply hnot
      rcases Bool.and_eq_true .. |>.mp hcond with ⟨h1, h2⟩
      refine ⟨by simpa using h1, ?_⟩
      rcases Bool.or_eq_true .. |>.mp h2 with h3 | h4
      · rcases Bool.or_eq_true .. |>.mp h3 with h5 | h6
        · exact Or.inl h5
        · exact Or.inr (Or.inl (by simpa using h6))
      · exact Or.inr (Or.inr (by simpa using h4))
  · intro hok
    have hcond : (decide (l.pos + 1 < l.input.length) &&
        (isIdentStart (chAt l.input (l.pos + 1)) || chAt l.input (l.pos + 1) == '#' ||
          chAt l.input (l.pos + 1) == '@')) = true := by
      rcases hok with ⟨h1, h2⟩
      refine Bool.and_eq_true .. |>.mpr ⟨by simpa using h1, ?_⟩
      rcases h2 with h | h | h
      · exact Bool.or_eq_true .. |>.mpr (Or.inl (Bool.or_eq_true .. |>.mpr (Or.inl h)))
      · exact Bool.or_eq_true .. |>.mpr (Or.inl (Bool.or_eq_true .. |>.mpr (Or.inr (by simp [h]))))
      · exact Bool.or_eq_true .. |>.mpr (Or.inr (by simp [h]))
    constructor
    · intro e he
      unfold Lexer.scanBracketOrLBracket
      rw [if_pos hcond]
      unfold Lexer.scanBracketIdentifier
      obtain ⟨l2, lp2, hloop⟩ :=
        scanDelimLoopF_found l.input ']' (l.input.length + 1) (l.pos + 1) l.line l.linePos e he
      unfold scanDelimLoop
      rw [hloop]
      simp only [hs]
      exact ⟨rfl, rfl⟩
    · intro he
      unfold Lexer.scanBracketOrLBracket
      rw [if_pos hcond]
      unfold Lexer.scanBracketIdentifier
      obtain ⟨l2, lp2, hloop⟩ :=
        scanDelimLoopF_unterminated l.input ']' (l.input.length + 1) (l.pos + 1) l.line l.linePos
          he (by omega) (by omega)
      unfold scanDelimLoop
      rw [hloop]
      simp only [hs]
      exact ⟨rfl, rfl⟩


/-- C6 counterexample to the spec sentence: after `[a` (identifier start,
no closing bracket) the lexer returns `ILLEGAL`, neither `IDENT` nor
`LBRACKET`. -/
theorem C6_bracket_dispatch_counterexample :
    ((Lexer.New "[a".data).scanBracketOrLBracket).1.type = Tok.ILLEGAL ∧
    ((Lexer.New "[a".data).scanBracketOrLBracket).1.value = "[a".data ∧
    Tok.ILLEGAL ≠ Tok.IDENT ∧ Tok.ILLEGAL ≠ Tok.LBRACKET := by
  refine ⟨?_, ?_, ?_, ?_⟩ <;> decide

/-- C6 witness. -/
theorem C6_bracket_dispatch_witness :
    ((Lexer.New "[a]".data).scanBracketOrLBracket).1.type = Tok.IDENT ∧
    ((Lexer.New "[a]".data).scanBracketOrLBracket).1.value = "a".data ∧
    ((Lexer.New "[a".data).scanBracketOrLBracket).1.type = Tok.ILLEGAL ∧
    ((Lexer.New "[a".data).scanBracketOrLBracket).1.value = "[a".data ∧
    ((Lexer.New "[ x".data).scanBracketOrLBracket).1.type = Tok.LBRACKET := by
  refine ⟨?_, ?_, ?_, ?_, ?_⟩
  · exact ((C6_bracket_dispatch (Lexer.New "[a]".data) rfl).2
      (by decide) |>.1 3 (by decide)).1
  · exact ((C6_bracket_dispatch (Lexer.New "[a]".data) rfl).2
      (by decide) |>.1 3 (by decide)).2
  · exact ((C6_bracket_dispatch (Lexer.New "[a".data) rfl).2
      (by decide) |>.2 (by decide)).1
  · exact ((C6_bracket_dispatch (Lexer.New "[a".data) rfl).2
      (by decide) |>.2 (by decide)).2
  · exact ((C6_bracket_dispatch (Lexer.New "[ x".data) rfl).1 (by decide)).1









theorem scanStringLoopF_unterminated (input : List Char) (quote : Char) :
    ∀ fuel pos line linePos buf, specStringCloseF input quote fuel pos = none →
      pos ≤ input.length → input.length + 1 ≤ fuel + pos →
      ∃ l2 lp2, scanStringLoopF input quote fuel pos line linePos buf
        = (none, input.length, l2, lp2) := by
  intro fuel
  induction fuel with
  | zero => intro pos line linePos buf h hle hfuel; omega
  | succ fuel ih =>
    intro pos line linePos buf h hle hfuel
    unfold specStringCloseF at h
    unfold scanStringLoopF
    by_cases h1 : pos < input.length
    · rw [if_pos h1] at h ⊢
      by_cases h2 : (chAt input pos == quote) = true
      · rw [if_pos h2] at h
        simp only [h2, if_pos]
        by_cases h3 : (pos + 1 < input.length && (chAt input (pos + 1) == quote)) = true
        · rw [if_pos h3] at h ⊢
          refine ih (pos + 2) line linePos _ h ?_ (by omega)
          have : pos + 1 < input.length := by
            rcases Bool.and_eq_true .. |>.mp h3 with ⟨h4, _⟩
            simpa using h4
          omega
        · rw [if_neg h3] at h
          simp at h
      · rw [if_neg h2] at h
        simp only [h2, if_neg, Bool.false_eq_true, not_false_iff]
        by_cases h3 : (chAt input pos == '\\' && decide (pos + 1 < input.length)) = true
        · rw [if_pos h3] at h
          simp only [h3, if_pos]
          refine ih (pos + 2) line linePos _ h ?_ (by omega)
          have : pos + 1 < input.length := by
            rcases Bool.and_eq_true .. |>.mp h3 with ⟨_, h4⟩
            simpa using h4
          omega
        · rw [if_neg h3] at h
          simp only [h3, if_neg, Bool.false_eq_true, not_false_iff]
          exact ih (pos + 1) _ _ _ h (by omega) (by omega)
    · rw [if_neg h1] at h ⊢
      have : pos = input.length := by omega
      exact ⟨line, linePos, by simp [this]⟩

theorem scanDQuoteLoopF_unterminated (input : List Char) :
    ∀ fuel pos line linePos buf, specDelimCloseF input '"' fuel pos = none →
      pos ≤ input.length → input.length + 1 ≤ fuel + pos →
      ∃ l2 lp2, scanDQuoteLoopF input fuel pos line linePos buf
        = (none, input.length, l2, lp2) := by
  intro fuel
  induction fuel with
  | zero => intro pos line linePos buf h hle hfuel; omega
  | succ fuel ih =>
    intro pos line linePos buf h hle hfuel
    unfold specDelimCloseF at h
    unfold scanDQuoteLoopF
    by_cases h1 : pos < input.length
    · rw [if_pos h1] at h ⊢
      by_cases h2 : (chAt input pos == '"') = true
      · rw [if_pos h2] at h
        simp only [h2, if_pos]
        by_cases h3 : (pos + 1 < input.length && (chAt input (pos + 1) == '"')) = true
        · rw [if_pos h3] at h ⊢
          refine ih (pos + 2) line linePos _ h ?_ (by omega)
          have : pos + 1 < input.length := by
            rcases Bool.and_eq_true .. |>.mp h3 with ⟨h4, _⟩
            simpa using h4
          omega
        · rw [if_neg h3] at h
          simp at h
      · rw [if_neg h2] at h
        simp only [h2, if_neg, Bool.false_eq_true, not_false_iff]
        exact ih (pos + 1) _ _ _ h (by omega) (by omega)
    · rw [if_neg h1] at h ⊢
      have : pos = input.length := by omega
      exact ⟨line, linePos, by simp [this]⟩

theorem scanBlockCommentLoopF_unterminated (input : List Char) :
    ∀ fuel pos line linePos, specBlockCloseF input fuel pos = none →
      pos ≤ input.length → input.length + 1 ≤ fuel + pos →
      ∃ l2 lp2, scanBlockCommentLoopF input fuel pos line linePos
        = (false, input.length, l2, lp2) := by
  intro fuel
  induction fuel with
  | zero => intro pos line linePos h hle hfuel; omega
  | succ fuel ih =>
    intro pos line linePos h hle hfuel
    unfold specBlockCloseF at h
    unfold scanBlockCommentLoopF
    by_cases h1 : pos < input.length
    · rw [if_pos h1] at h ⊢
      by_cases h2 : (chAt input pos == '*' && decide (pos + 1 < input.length) &&
          (chAt input (pos + 1) == '/')) = true
      · rw [if_pos h2] at h
        simp at h
      · rw [if_neg h2] at h
        simp only [h2, if_neg, Bool.false_eq_true, not_false_iff]
        exact ih (pos + 1) _ _ h (by omega) (by omega)
    · rw [if_neg h1] at h ⊢
      have : pos = input.length := by omega
      exact ⟨line, linePos, by simp [this]⟩

/-- C7: a single-quoted string, a double-quoted identifier or a block
comment that reaches end of input without its closing delimiter lexes to an
`ILLEGAL` token whose text is the partial source from the construct start
to end of input (the lexer itself is a total Lean function). -/
theorem C7_unterminated_illegal :
    (∀ l : Lexer, l.pos + 1 ≤ l.input.length →
      specStringClose l.input '\'' (l.pos + 1) = none →
      (l.scanString '\'').1.type = Tok.ILLEGAL ∧
        (l.scanString '\'').1.value = slice l.input l.start l.input.length) ∧
    (∀ l : Lexer, l.pos + 1 ≤ l.input.length →
      specDelimClose l.input '"' (l.pos + 1) = none →
      (l.scanQuotedIdentifier).1.type = Tok.ILLEGAL ∧
        (l.scanQuotedIdentifier).1.value = slice l.input l.start l.input.length) ∧
    (∀ l : Lexer, l.pos + 1 ≤ l.input.length →
      specBlockClose l.input (l.pos + 1) = none →
      (l.scanBlockComment).1.type = Tok.ILLEGAL ∧
        (l.scanBlockComment).1.value = slice l.input l.start l.input.length) := by
  refine ⟨fun l hle h => ?_, fun l hle h => ?_, fun l hle h => ?_⟩
  · obtain ⟨l2, lp2, hloop⟩ := scanStringLoopF_unterminated l.input '\''
      (l.input.length + 1) (l.pos + 1) l.line l.linePos [] h hle (by omega)
    unfold Lexer.scanString scanStringLoop
    rw [hloop]
    exact ⟨rfl, rfl⟩
  · obtain ⟨l2, lp2, hloop⟩ := scanDQuoteLoopF_unterminated l.input
      (l.input.length + 1) (l.pos + 1) l.line l.linePos [] h hle (by omega)
    unfold Lexer.scanQuotedIdentifier scanDQuoteLoop
    rw [hloop]
    exact ⟨rfl, rfl⟩
  · obtain ⟨l2, lp2, hloop⟩ := scanBlockCommentLoopF_unterminated l.input
      (l.input.length + 1) (l.pos + 1) l.line l.linePos h hle (by omega)
    unfold Lexer.scanBlockComment scanBlockCommentLoop
    rw [hloop]
    exact ⟨rfl, rfl⟩

/-- C7 witness. -/
theorem C7_unterminated_illegal_witness :
    ((Lexer.New "'ab".data).scanString '\'').1.type = Tok.ILLEGAL ∧
    ((Lexer.New "'ab".data).scanString '\'').1.value = "'ab".data ∧
    ((Lexer.New "\"ab".data).scanQuotedIdentifier).1.type = Tok.ILLEGAL ∧
    ((Lexer.New "/*a".data |>.scanSlash).1.type) = Tok.ILLEGAL := by
  refine ⟨?_, ?_, ?_, ?_⟩
  · exact (C7_unterminated_illegal.1 (Lexer.New "'ab".data) (by decide) (by decide)).1
  · exact (C7_unterminated_illegal.1 (Lexer.New "'ab".data) (by decide) (by decide)).2
  · exact (C7_unterminated_illegal.2.1 (Lexer.New "\"ab".data) (by decide) (by decide)).1
  · decide



theorem parseSetOp_discards_right (fuel : Nat) (left : SelectStmt) (p : PState) :
    (parseSetOp fuel left p).1 = left := by
  induction fuel generalizing p with
  | zero => rfl
  | succ fuel ih =>
    unfold parseSetOp
    repeat' first
      | rfl
      | apply ih
      | split
      | dsimp only

set_option maxHeartbeats 16000000 in
/-- C1 (code bug): `parseSetOp` parses and then discards every right-hand
operand of a `UNION|INTERSECT|EXCEPT` chain, returning the left select
unchanged — no `SetOp` node is ever produced. -/
theorem C1_setop_discards_rhs :
    (∀ fuel left p, (parseSetOp fuel left p).1 = left) ∧
    (ParseSQL "select 1 union select 2 union select 3".data).2 = none ∧
    ((ParseSQL "select 1 union select 2 union select 3".data).1.map Statement.isSetOpS)
      = some false ∧
    ((ParseSQL "select 1 union select 2 union select 3".data).1.map StringOf)
      = some "SELECT 1".data := by
  refine ⟨parseSetOp_discards_right, ?_, ?_, ?_⟩ <;> decide

set_option maxHeartbeats 16000000 in
/-- C2 (code bug): the default-values insert breaks the format/parse
round trip — it formats to `INSERT INTO t VALUES ()`, which does not parse. -/
theorem C2_roundtrip_fails :
    (ParseSQL "insert into t default values".data).2 = none ∧
    ((ParseSQL "insert into t default values".data).1.map StringOf)
      = some "INSERT INTO t VALUES ()".data ∧
    (ParseSQL "INSERT INTO t VALUES ()".data).1.isNone = true ∧
    ((ParseSQL "INSERT INTO t VALUES ()".data).2.map ParseError.msg)
      = some "unexpected token in expression".data := by
  refine ⟨?_, ?_, ?_, ?_⟩ <;> decide

set_option maxHeartbeats 16000000 in
/-- C4 (corrected): `ParseAll ";;;"` returns an empty statement list
together with an error, not error-free. -/
theorem C4_parseall_semis :
    (ParseAllSQL ";;;".data).1.length = 0 ∧
    ((ParseAllSQL ";;;".data).2.map ParseError.msg)
      = some "unexpected token at start of statement".data := by
  refine ⟨?_, ?_⟩ <;> decide

set_option maxHeartbeats 4000000 in
/-- C4 counterexample to the spec sentence: the error slot is not empty. -/
theorem C4_parseall_semis_counterexample :
    (ParseAllSQL ";;;".data).2.isSome = true := by decide

set_option maxHeartbeats 16000000 in
/-- C5 (corrected): `parseFuncCall` upper-cases the stored function name, so
the window-function example formats with `ROW_NUMBER`, not `row_number`. -/
theorem C5_funcname_uppercased :
    (ParseSQL "select row_number() over (partition by a order by b) from t".data).2 = none ∧
    ((ParseSQL "select row_number() over (partition by a order by b) from t".data).1.map StringOf)
      = some "SELECT ROW_NUMBER() OVER (PARTITION BY a ORDER BY b) FROM t".data := by
  refine ⟨?_, ?_⟩ <;> decide

set_option maxHeartbeats 16000000 in
/-- C5 counterexample to the spec sentence: the output is not the
case-preserved string the spec displays. -/
theorem C5_funcname_counterexample :
    ((ParseSQL "select row_number() over (partition by a order by b) from t".data).1.map StringOf)
      ≠ some "SELECT row_number() OVER (PARTITION BY a ORDER BY b) FROM t".data := by
  decide




set_option maxHeartbeats 4000000 in
theorem parseInsertSource_not_both (fuel : Nat) (columns : List ColName) (p : PState)
    (cols : List ColName) (values : List (List Expr)) (select : Option SelectStmt) (p2 : PState)
    (h : parseInsertSource fuel columns p = (some (cols, values, select), p2)) :
    values = [] ∨ select = none := by
  match fuel with
  | 0 => simp [parseInsertSource] at h
  | fuel + 1 =>
    unfold parseInsertSource at h
    repeat' first
      | split at h
      | simp_all

set_option maxHeartbeats 64000000 in
theorem parseInsert_not_both (fuel : Nat) (p : PState) (stmt : InsertStmt) (p2 : PState)
    (h : parseInsert fuel p = (some stmt, p2)) :
    stmt.valuesOf = [] ∨ stmt.selectOf = none := by
  match fuel with
  | 0 => simp [parseInsert] at h
  | fuel + 1 =>
    unfold parseInsert at h
    dsimp only at h
    repeat' split at h
    all_goals
      simp only [Prod.mk.injEq] at h
      first
        | exact Option.noConfusion h.1
        | (have h2 := Option.some.inj h.1
           subst h2
           simp only [InsertStmt.valuesOf, InsertStmt.selectOf]
           exact parseInsertSource_not_both _ _ _ _ _ _ _ (by assumption))

set_option maxHeartbeats 16000000 in
/-- C3 (corrected): a successfully parsed `INSERT` never has both a
`Values` list and a `Select` source, but it can have neither —
`INSERT INTO t` parses with an empty `Values` list and no `Select`. -/
theorem C3_insert_source_forms :
    (∀ fuel p stmt p2, parseInsert fuel p = (some stmt, p2) →
      stmt.valuesOf = [] ∨ stmt.selectOf = none) ∧
    (ParseSQL "INSERT INTO t".data).2 = none ∧
    ((ParseSQL "INSERT INTO t".data).1.bind Statement.insertOf).map
      (fun i => (i.valuesOf.length, i.selectOf.isSome)) = some (0, false) := by
  refine ⟨parseInsert_not_both, ?_, ?_⟩ <;> decide

set_option maxHeartbeats 16000000 in
/-- C3 counterexample to the spec sentence: `INSERT INTO t` parses without
error and has neither of the three source forms set. -/
theorem C3_insert_source_forms_counterexample :
    (ParseSQL "INSERT INTO t".data).2 = none ∧
    ((ParseSQL "INSERT INTO t".data).1.bind Statement.insertOf).map
      (fun i => (i.valuesOf.isEmpty, i.selectOf.isNone)) = some (true, true) := by
  refine ⟨?_, ?_⟩ <;> decide

/-- C3 witness: the at-most-one invariant applied at a concrete insert. -/
theorem C3_insert_source_forms_witness :
    ((parseInsert (defaultFuel "insert into t values (1)".data)
        (parserNew "insert into t values (1)".data)).1.getD InsertStmt.zero).valuesOf = [] ∨
    ((parseInsert (defaultFuel "insert into t values (1)".data)
        (parserNew "insert into t values (1)".data)).1.getD InsertStmt.zero).selectOf = none :=
  C3_insert_source_forms.1 (defaultFuel "insert into t values (1)".data)
    (parserNew "insert into t values (1)".data)
    ((parseInsert (defaultFuel "insert into t values (1)".data)
        (parserNew "insert into t values (1)".data)).1.getD InsertStmt.zero)
    (parseInsert (defaultFuel "insert into t values (1)".data)
        (parserNew "insert into t values (1)".data)).2
    (by rfl)



theorem identDotsL_notBin (fuel : Nat) :
    ∀ p sp parts ep e p2, identDotsL fuel p sp parts ep = (some e, p2) →
      e.topBinOp = none := by
  induction fuel with
  | zero => intro p sp parts ep e p2 h; simp [identDotsL] at h
  | succ fuel ih =>
    intro p sp parts ep e p2 h
    unfold identDotsL at h
    dsimp only at h
    repeat' split at h
    all_goals first
      | exact ih _ _ _ _ _ _ h
      | (simp only [Prod.mk.injEq] at h
         first
           | exact Option.noConfusion h.1
           | (have h2 := Option.some.inj h.1; subst h2; rfl))

theorem parseFuncCall_notBin (fuel : Nat) (pos : Pos) (name : List Char) (p : PState)
    (e : Expr) (p2 : PState) (h : parseFuncCall fuel pos name p = (some e, p2)) :
    e.topBinOp = none := by
  match fuel with
  | 0 => simp [parseFuncCall] at h
  | fuel + 1 =>
    unfold parseFuncCall at h
    dsimp only at h
    repeat' split at h
    all_goals
      simp only [Prod.mk.injEq] at h
      first
        | exact Option.noConfusion h.1
        | (have h2 := Option.some.inj h.1; subst h2; rfl)

theorem parseIdentifierOrFunc_notBin (fuel : Nat) (p : PState) (e : Expr) (p2 : PState)
    (h : parseIdentifierOrFunc fuel p = (some e, p2)) : e.topBinOp = none := by
  match fuel with
  | 0 => simp [parseIdentifierOrFunc] at h
  | fuel + 1 =>
    unfold parseIdentifierOrFunc at h
    dsimp only at h
    split at h
    · exact parseFuncCall_notBin _ _ _ _ _ _ h
    · exact identDotsL_notBin _ _ _ _ _ _ _ h

theorem parseLiteral_notBin (t : LiteralType) (p : PState) :
    ((parseLiteral t p).1).topBinOp = none := rfl

theorem parseParam_notBin (p : PState) : ((parseParam p).1).topBinOp = none := rfl

theorem parseParenOrSubquery_notBin (fuel : Nat) (p : PState) (e : Expr) (p2 : PState)
    (h : parseParenOrSubquery fuel p = (some e, p2)) : e.topBinOp = none := by
  match fuel with
  | 0 => simp [parseParenOrSubquery] at h
  | fuel + 1 =>
    unfold parseParenOrSubquery at h
    dsimp only at h
    repeat' split at h
    all_goals
      simp only [Prod.mk.injEq] at h
      first
        | exact Option.noConfusion h.1
        | (have h2 := Option.some.inj h.1; subst h2; rfl)

theorem parseNotExpr_notBin (fuel : Nat) (p : PState) :
    ((parseNotExpr fuel p).1).topBinOp = none := by
  match fuel with
  | 0 => rfl
  | fuel + 1 => rfl

theorem parseUnaryMinus_notBin (fuel : Nat) (p : PState) :
    ((parseUnaryMinus fuel p).1).topBinOp = none := by
  match fuel with
  | 0 => rfl
  | fuel + 1 => rfl

theorem parseUnaryBitnot_notBin (fuel : Nat) (p : PState) :
    ((parseUnaryBitnot fuel p).1).topBinOp = none := by
  match fuel with
  | 0 => rfl
  | fuel + 1 => rfl

theorem parseExistsExpr_notBin (fuel : Nat) (p : PState) (e : Expr) (p2 : PState)
    (h : parseExistsExpr fuel p = (some e, p2)) : e.topBinOp = none := by
  match fuel with
  | 0 => simp [parseExistsExpr] at h
  | fuel + 1 =>
    unfold parseExistsExpr at h
    dsimp only at h
    repeat' split at h
    all_goals
      simp only [Prod.mk.injEq] at h
      first
        | exact Option.noConfusion h.1
        | (have h2 := Option.some.inj h.1; subst h2; rfl)

theorem parseCaseExpr_notBin (fuel : Nat) (p : PState) (e : Expr) (p2 : PState)
    (h : parseCaseExpr fuel p = (some e, p2)) : e.topBinOp = none := by
  match fuel with
  | 0 => simp [parseCaseExpr] at h
  | fuel + 1 =>
    unfold parseCaseExpr at h
    dsimp only at h
    repeat' split at h
    all_goals
      simp only [Prod.mk.injEq] at h
      first
        | exact Option.noConfusion h.1
        | (have h2 := Option.some.inj h.1; subst h2; rfl)

theorem parseCastExpr_notBin (fuel : Nat) (p : PState) (e : Expr) (p2 : PState)
    (h : parseCastExpr fuel p = (some e, p2)) : e.topBinOp = none := by
  match fuel with
  | 0 => simp [parseCastExpr] at h
  | fuel + 1 =>
    unfold parseCastExpr at h
    dsimp only at h
    repeat' split at h
    all_goals
      simp only [Prod.mk.injEq] at h
      first
        | exact Option.noConfusion h.1
        | (have h2 := Option.some.inj h.1; subst h2; rfl)

theorem parseIntervalExpr_notBin (fuel : Nat) (p : PState) :
    ((parseIntervalExpr fuel p).1).topBinOp = none := by
  match fuel with
  | 0 => rfl
  | fuel + 1 =>
    unfold parseIntervalExpr
    dsimp only
    repeat' first
      | rfl
      | split

theorem parseExtractExpr_notBin (fuel : Nat) (p : PState) (e : Expr) (p2 : PState)
    (h : parseExtractExpr fuel p = (some e, p2)) : e.topBinOp = none := by
  match fuel with
  | 0 => simp [parseExtractExpr] at h
  | fuel + 1 =>
    unfold parseExtractExpr at h
    dsimp only at h
    repeat' split at h
    all_goals
      simp only [Prod.mk.injEq] at h
      first
        | exact Option.noConfusion h.1
        | (have h2 := Option.some.inj h.1; subst h2; rfl)

theorem parseTrimExpr_notBin (fuel : Nat) (p : PState) (e : Expr) (p2 : PState)
    (h : parseTrimExpr fuel p = (some e, p2)) : e.topBinOp = none := by
  match fuel with
  | 0 => simp [parseTrimExpr] at h
  | fuel + 1 =>
    unfold parseTrimExpr at h
    dsimp only at h
    repeat' split at h
    all_goals
      simp only [Prod.mk.injEq] at h
      first
        | exact Option.noConfusion h.1
        | (have h2 := Option.some.inj h.1; subst h2; rfl)

theorem parseSubstringExpr_notBin (fuel : Nat) (p : PState) (e : Expr) (p2 : PState)
    (h : parseSubstringExpr fuel p = (some e, p2)) : e.topBinOp = none := by
  match fuel with
  | 0 => simp [parseSubstringExpr] at h
  | fuel + 1 =>
    unfold parseSubstringExpr at h
    dsimp only at h
    repeat' split at h
    all_goals
      simp only [Prod.mk.injEq] at h
      first
        | exact Option.noConfusion h.1
        | (have h2 := Option.some.inj h.1; subst h2; rfl)

theorem parsePositionExpr_notBin (fuel : Nat) (p : PState) (e : Expr) (p2 : PState)
    (h : parsePositionExpr fuel p = (some e, p2)) : e.topBinOp = none := by
  match fuel with
  | 0 => simp [parsePositionExpr] at h
  | fuel + 1 =>
    unfold parsePositionExpr at h
    dsimp only at h
    repeat' split at h
    all_goals
      simp only [Prod.mk.injEq] at h
      first
        | exact Option.noConfusion h.1
        | (have h2 := Option.some.inj h.1; subst h2; rfl)

theorem parseArrayExpr_notBin (fuel : Nat) (p : PState) (e : Expr) (p2 : PState)
    (h : parseArrayExpr fuel p = (some e, p2)) : e.topBinOp = none := by
  match fuel with
  | 0 => simp [parseArrayExpr] at h
  | fuel + 1 =>
    unfold parseArrayExpr at h
    dsimp only at h
    repeat' split at h
    all_goals
      simp only [Prod.mk.injEq] at h
      first
        | exact Option.noConfusion h.1
        | (have h2 := Option.some.inj h.1; subst h2; rfl)

set_option maxHeartbeats 64000000 in
theorem parsePrimaryExpr_notBin (fuel : Nat) (p : PState) (e : Expr) (p2 : PState)
    (h : parsePrimaryExpr fuel p = (some e, p2)) : e.topBinOp = none := by
  match fuel with
  | 0 => simp [parsePrimaryExpr] at h
  | fuel + 1 =>
    unfold parsePrimaryExpr at h
    dsimp only at h
    repeat' (rw [ite_eq_iff] at h; rcases h with ⟨-, h⟩ | ⟨-, h⟩)
    all_goals
      first
        | exact parseIdentifierOrFunc_notBin _ _ _ _ h
        | exact parseParenOrSubquery_notBin _ _ _ _ h
        | exact parseExistsExpr_notBin _ _ _ _ h
        | exact parseCaseExpr_notBin _ _ _ _ h
        | exact parseCastExpr_notBin _ _ _ _ h
        | exact parseExtractExpr_notBin _ _ _ _ h
        | exact parseTrimExpr_notBin _ _ _ _ h
        | exact parseSubstringExpr_notBin _ _ _ _ h
        | exact parsePositionExpr_notBin _ _ _ _ h
        | exact parseArrayExpr_notBin _ _ _ _ h
        | (simp only [Prod.mk.injEq] at h
           first
             | exact Option.noConfusion h.1
             | (have h2 := Option.some.inj h.1; subst h2; rfl)
             | (have h2 := Option.some.inj h.1; subst h2; exact parseLiteral_notBin _ _)
             | (have h2 := Option.some.inj h.1; subst h2; exact parseParam_notBin _)
             | (have h2 := Option.some.inj h.1; subst h2; exact parseNotExpr_notBin _ _)
             | (have h2 := Option.some.inj h.1; subst h2; exact parseUnaryMinus_notBin _ _)
             | (have h2 := Option.some.inj h.1; subst h2; exact parseUnaryBitnot_notBin _ _)
             | (have h2 := Option.some.inj h.1; subst h2; exact parseIntervalExpr_notBin _ _))


theorem parseIsExpr_notBin (left : Expr) (p : PState) :
    ((parseIsExpr left p).1).topBinOp = none := by
  unfold parseIsExpr
  dsimp only
  rfl

theorem parseCollateExpr_notBin (left : Expr) (p : PState) :
    ((parseCollateExpr left p).1).topBinOp = none := by
  unfold parseCollateExpr
  dsimp only
  rfl

theorem parsePostgresCast_notBin (fuel : Nat) (left : Expr) (p : PState) :
    ((parsePostgresCast fuel left p).1).topBinOp = none := by
  unfold parsePostgresCast
  dsimp only
  rfl

theorem parseSubscript_notBin (fuel : Nat) (left : Expr) (p : PState) (e : Expr) (p2 : PState)
    (h : parseSubscript fuel left p = (some e, p2)) : e.topBinOp = none := by
  match fuel with
  | 0 => simp [parseSubscript] at h
  | fuel + 1 =>
    unfold parseSubscript at h
    dsimp only at h
    repeat' split at h
    all_goals
      simp only [Prod.mk.injEq] at h
      first
        | exact Option.noConfusion h.1
        | (have h2 := Option.some.inj h.1; subst h2; rfl)

theorem parseInExpr_notBin (fuel : Nat) (left : Expr) (not : Bool) (p : PState)
    (e : Expr) (p2 : PState) (h : parseInExpr fuel left not p = (some e, p2)) :
    e.topBinOp = none := by
  match fuel with
  | 0 => simp [parseInExpr] at h
  | fuel + 1 =>
    unfold parseInExpr at h
    dsimp only at h
    repeat' split at h
    all_goals
      simp only [Prod.mk.injEq] at h
      first
        | exact Option.noConfusion h.1
        | (have h2 := Option.some.inj h.1; subst h2; rfl)

theorem parseBetweenExpr_notBin (fuel : Nat) (left : Expr) (not : Bool) (p : PState)
    (e : Expr) (p2 : PState) (h : parseBetweenExpr fuel left not p = (some e, p2)) :
    e.topBinOp = none := by
  match fuel with
  | 0 => simp [parseBetweenExpr] at h
  | fuel + 1 =>
    unfold parseBetweenExpr at h
    dsimp only at h
    repeat' split at h
    all_goals
      simp only [Prod.mk.injEq] at h
      first
        | exact Option.noConfusion h.1
        | (have h2 := Option.some.inj h.1; subst h2; rfl)

theorem parseLikeExpr_transport (fuel : Nat) (left : Expr) (not : Bool) (p : PState)
    (P : Expr → Prop) (hP : P left) (hAll : ∀ x : Expr, x.topBinOp = none → P x) :
    P ((parseLikeExpr fuel left not p).1) := by
  match fuel with
  | 0 => exact hP
  | fuel + 1 =>
    apply hAll
    unfold parseLikeExpr
    dsimp only
    rfl

theorem parseSimilarExpr_transport (fuel : Nat) (left : Expr) (not : Bool) (p : PState)
    (P : Expr → Prop) (hP : P left) (hAll : ∀ x : Expr, x.topBinOp = none → P x) :
    P ((parseSimilarExpr fuel left not p).1) := by
  match fuel with
  | 0 => exact hP
  | fuel + 1 =>
    apply hAll
    unfold parseSimilarExpr
    dsimp only
    rfl

theorem noConfusionInv {e : Expr} (hn : e.topBinOp = none) (minPrec : Nat) :
    ∀ op, e.topBinOp = some op → minPrec ≤ precedence op := by
  intro op hop
  rw [hn] at hop
  exact Option.noConfusion hop



set_option maxHeartbeats 64000000 in
theorem parseExprLoop_minPrec (fuel : Nat) :
    ∀ minPrec left p e p2, parseExprLoop fuel minPrec left p = (some e, p2) →
      (∀ op, left.topBinOp = some op → minPrec ≤ precedence op) →
      (∀ op, e.topBinOp = some op → minPrec ≤ precedence op) := by
  induction fuel with
  | zero => intro minPrec left p e p2 h _; simp [parseExprLoop] at h
  | succ fuel ih =>
    intro minPrec left p e p2 h hleft
    unfold parseExprLoop at h
    dsimp only at h
    repeat' (rw [ite_eq_iff] at h; rcases h with ⟨hq, h⟩ | ⟨hq, h⟩)
    all_goals try (split at h)
    all_goals first
      | (simp only [Prod.mk.injEq] at h
         first
           | exact Option.noConfusion h.1
           | (have h2 := Option.some.inj h.1; subst h2; exact hleft))
      | exact ih _ _ _ _ _ h (noConfusionInv (parseIsExpr_notBin _ _) _)
      | exact ih _ _ _ _ _ h (noConfusionInv (parseCollateExpr_notBin _ _) _)
      | exact ih _ _ _ _ _ h (noConfusionInv (parsePostgresCast_notBin _ _ _) _)
      | exact ih _ _ _ _ _ h (noConfusionInv (parseInExpr_notBin _ _ _ _ _ _ (by assumption)) _)
      | exact ih _ _ _ _ _ h
          (noConfusionInv (parseBetweenExpr_notBin _ _ _ _ _ _ (by assumption)) _)
      | exact ih _ _ _ _ _ h (noConfusionInv (parseSubscript_notBin _ _ _ _ _ (by assumption)) _)
      | exact ih _ _ _ _ _ h (parseLikeExpr_transport _ _ _ _
          (fun x => ∀ op, x.topBinOp = some op → minPrec ≤ precedence op) hleft
          (fun x hx => noConfusionInv hx _))
      | exact ih _ _ _ _ _ h (parseSimilarExpr_transport _ _ _ _
          (fun x => ∀ op, x.topBinOp = some op → minPrec ≤ precedence op) hleft
          (fun x hx => noConfusionInv hx _))
      | exact ih _ _ _ _ _ h (fun op hop => by
          simp only [Expr.topBinOp, Option.some.injEq] at hop
          subst hop
          omega)



theorem parseExprPrec_minPrec (fuel minPrec : Nat) (p : PState) (e : Expr) (p2 : PState)
    (h : parseExprPrec fuel minPrec p = (some e, p2)) :
    ∀ op, e.topBinOp = some op → minPrec ≤ precedence op := by
  match fuel with
  | 0 => simp [parseExprPrec] at h
  | fuel + 1 =>
    unfold parseExprPrec at h
    split at h
    · simp only [Prod.mk.injEq] at h
      exact Option.noConfusion h.1
    · rename_i left pL heq
      exact parseExprLoop_minPrec fuel _ _ _ _ _ h
        (noConfusionInv (parsePrimaryExpr_notBin _ _ _ _ heq) _)

theorem parseExprPrec_minPrec_fst (fuel minPrec : Nat) (p : PState) (e : Expr)
    (h : (parseExprPrec fuel minPrec p).1 = some e) :
    ∀ op, e.topBinOp = some op → minPrec ≤ precedence op :=
  parseExprPrec_minPrec fuel minPrec p e (parseExprPrec fuel minPrec p).2 (by rw [← h])

theorem parseBetweenExpr_bounds (fuel : Nat) (left : Expr) (not : Bool) (p : PState)
    (e : Expr) (p2 : PState) (x : Expr) (nb : Bool) (lo hi : Option Expr)
    (h : parseBetweenExpr fuel left not p = (some e, p2))
    (hparts : e.betweenParts = some (x, nb, lo, hi)) :
    (∀ l op, lo = some l → l.topBinOp = some op →
        precComparison + 1 ≤ precedence op ∧ op ≠ Tok.AND) ∧
    (∀ hb op, hi = some hb → hb.topBinOp = some op →
        precComparison + 1 ≤ precedence op ∧ op ≠ Tok.AND) := by
  match fuel with
  | 0 => simp [parseBetweenExpr] at h
  | fuel + 1 =>
    unfold parseBetweenExpr at h
    dsimp only at h
    split at h
    · simp only [Prod.mk.injEq] at h
      exact Option.noConfusion h.1
    · simp only [Prod.mk.injEq] at h
      have h2 := Option.some.inj h.1
      subst h2
      simp only [Expr.betweenParts, Option.some.injEq, Prod.mk.injEq] at hparts
      obtain ⟨-, -, hlo, hhi⟩ := hparts
      constructor
      · intro l op hl hop
        subst hlo
        have hb := parseExprPrec_minPrec_fst _ _ _ _ hl op hop
        refine ⟨hb, ?_⟩
        intro hAnd
        subst hAnd
        revert hb
        decide
      · intro hb op hh hop
        subst hhi
        have hbnd := parseExprPrec_minPrec_fst _ _ _ _ hh op hop
        refine ⟨hbnd, ?_⟩
        intro hAnd
        subst hAnd
        revert hbnd
        decide




set_option synthInstance.maxSize 2000 in
set_option maxHeartbeats 16000000 in
/-- C8: the `AND` after a `BETWEEN` low bound separates the bounds, and
each bound is parsed at precedence `comparison + 1`, so a bound is never a
top-level `AND` conjunction; `a BETWEEN x AND y AND z` parses as
`Binary(AND, Between(a, x, y), z)`. -/
theorem C8_between_and :
    ((ParseSQL "select a from t where a between x and y and z".data).2 = none ∧
      ((((ParseSQL "select a from t where a between x and y and z".data).1.bind
            Statement.selectOf).bind SelectStmt.whereOf).bind Expr.binParts).map
          (fun t => t.1) = some Tok.AND ∧
      (((((ParseSQL "select a from t where a between x and y and z".data).1.bind
            Statement.selectOf).bind SelectStmt.whereOf).bind Expr.binParts).bind
          (fun t => (t.2.1).betweenParts)).map
          (fun q => (q.1.colParts, q.2.1, (q.2.2.1).bind Expr.colParts,
            (q.2.2.2).bind Expr.colParts))
        = some (some ["a".data], false, some ["x".data], some ["y".data]) ∧
      ((((ParseSQL "select a from t where a between x and y and z".data).1.bind
            Statement.selectOf).bind SelectStmt.whereOf).bind Expr.binParts).map
          (fun t => (t.2.2).colParts) = some (some ["z".data])) ∧
    (∀ fuel left not p e p2 x nb lo hi,
      parseBetweenExpr fuel left not p = (some e, p2) →
      e.betweenParts = some (x, nb, lo, hi) →
      (∀ l op, lo = some l → l.topBinOp = some op →
          precComparison + 1 ≤ precedence op ∧ op ≠ Tok.AND) ∧
      (∀ hb op, hi = some hb → hb.topBinOp = some op →
          precComparison + 1 ≤ precedence op ∧ op ≠ Tok.AND)) := by
  constructor
  · refine ⟨?_, ?_, ?_, ?_⟩ <;> decide
  · intro fuel left not p e p2 x nb lo hi h hparts
    exact parseBetweenExpr_bounds fuel left not p e p2 x nb lo hi h hparts

/-- C8 witness: the bounds part applied at `left BETWEEN 1 + 2 AND 3`,
whose low bound is a top-level `+` binary. -/
theorem C8_between_and_witness :
    precComparison + 1 ≤ precedence Tok.PLUS ∧ Tok.PLUS ≠ Tok.AND :=
  ((C8_between_and.2 64 Expr.zeroLit false (parserNew "between 1 + 2 and 3".data)
    ((parseBetweenExpr 64 Expr.zeroLit false (parserNew "between 1 + 2 and 3".data)).1.getD
      Expr.zeroLit)
    (parseBetweenExpr 64 Expr.zeroLit false (parserNew "between 1 + 2 and 3".data)).2
    (((parseBetweenExpr 64 Expr.zeroLit false
        (parserNew "between 1 + 2 and 3".data)).1.getD Expr.zeroLit).betweenParts.getD
      (Expr.zeroLit, false, none, none)).1
    (((parseBetweenExpr 64 Expr.zeroLit false
        (parserNew "between 1 + 2 and 3".data)).1.getD Expr.zeroLit).betweenParts.getD
      (Expr.zeroLit, false, none, none)).2.1
    (((parseBetweenExpr 64 Expr.zeroLit false
        (parserNew "between 1 + 2 and 3".data)).1.getD Expr.zeroLit).betweenParts.getD
      (Expr.zeroLit, false, none, none)).2.2.1
    (((parseBetweenExpr 64 Expr.zeroLit false
        (parserNew "between 1 + 2 and 3".data)).1.getD Expr.zeroLit).betweenParts.getD
      (Expr.zeroLit, false, none, none)).2.2.2
    (by rfl) (by rfl)).1
    ((((parseBetweenExpr 64 Expr.zeroLit false
        (parserNew "between 1 + 2 and 3".data)).1.getD Expr.zeroLit).betweenParts.getD
      (Expr.zeroLit, false, none, none)).2.2.1.getD Expr.zeroLit)
    Tok.PLUS (by rfl) (by rfl))


end Machparse
